import Mathlib

/-!
# Grafana panel model (`panel.go`)

A shallow embedding of the panel envelope of `panel.go`: the panel types, their
JSON encoding and decoding, the kind constructors and the target-list helpers.

`panel.go` calls `json.Marshal` and `json.Unmarshal` of the standard package
`encoding/json`, so the development starts with a model of that package on the types
that `panel.go` declares:

* a JSON text is a tree (`JSON`), or `none` when it is not well-formed; texts are not
  modelled as bytes, so escaping, white space and number formatting play no part;
* a Go `string` is a Lean `String`, that is a string of valid UTF-8;
* a number literal is its sign, its digits and its power of ten; a `float32` or `float64`
  is held as the literal that `json.Marshal` writes for it, the shortest one that is read
  back as the same float; reading a literal rounds it to the nearest float, a tie to the
  even one, and fails beyond the range of the type; `NaN` and the infinities, which
  `json.Marshal` rejects, are not values of the model;
* an `interface{}` holds what `json.Unmarshal` stores in one: the JSON value, with
  numbers as `float64` and objects as maps;
* only exported fields with a `json` tag are read and written, under the rules for
  `omitempty`, for null, and for the match of keys with field names;
* a decoding error is a string; only its presence matters, since `panel.go` drops the
  value it was decoding whenever the error is not nil;
* a run-time panic (nil pointer, index out of range, division by zero) is the outcome
  `Res.fault`.
-/

set_option autoImplicit false
set_option exponentiation.threshold 5000

namespace Sdk

/-! ## JSON documents -/

/-- A JSON number literal: `int` is a literal without fraction and exponent, `negZero` is
the literal `-0`, and `real` is a literal with a fraction or an exponent, which denotes
`digits * 10 ^ exp` with the sign `neg` (`1.50` has the digits 150 and the exponent -2). -/
inductive JNumber where
  | int (i : Int)
  | negZero
  | real (neg : Bool) (digits : Nat) (exp : Int)
  deriving DecidableEq

/-! ## Floats

`encoding/json` reads a number into a `float32` or `float64` with `strconv.ParseFloat`,
which returns the nearest float of the type, a tie going to the even mantissa, and an error
when that float would be infinite. It writes a float with `strconv.AppendFloat` and the
precision -1: the shortest decimal that `ParseFloat` reads back as the same float. -/

/-- The sign of a literal. -/
def JNumber.isNeg : JNumber → Bool
  | .int i => decide (i < 0)
  | .negZero => true
  | .real neg _ _ => neg

/-- The magnitude of a literal as a fraction: numerator and denominator. -/
def JNumber.magnitude : JNumber → Nat × Nat
  | .int i => (i.natAbs, 1)
  | .negZero => (0, 1)
  | .real _ digits exp =>
    if 0 ≤ exp then (digits * 10 ^ exp.toNat, 1) else (digits, 10 ^ (-exp).toNat)

/-- A binary floating-point type: the number of bits of the mantissa, the exponent of the
least positive value `2 ^ emin`, and the bound `2 ^ emax` that every finite value is
below. A finite value is `m * 2 ^ e` with `m < 2 ^ precision` and `emin ≤ e`. -/
structure FloatFormat where
  precision : Nat
  emin : Int
  emax : Int

/-- The type `float32`. -/
def binary32 : FloatFormat := ⟨24, -149, 128⟩

/-- The type `float64`. -/
def binary64 : FloatFormat := ⟨53, -1074, 1024⟩

/-- The test `num / den < 2 ^ k`. -/
def belowPow2 (num den : Nat) (k : Int) : Bool :=
  if 0 ≤ k then decide (num < den * 2 ^ k.toNat) else decide (num * 2 ^ (-k).toNat < den)

/-- The test `num / den < 10 ^ k`. -/
def belowPow10 (num den : Nat) (k : Int) : Bool :=
  if 0 ≤ k then decide (num < den * 10 ^ k.toNat) else decide (num * 10 ^ (-k).toNat < den)

/-- Bisection of `lo..hi` for the least `i` with `ok i`, for a test that holds from some
point on and holds at `hi`; `fuel` steps halve a range of up to `2 ^ fuel` values. -/
def leastFrom (ok : Int → Bool) : Nat → Int → Int → Int
  | 0, _, hi => hi
  | fuel + 1, lo, hi =>
    if lo < hi then
      let mid := lo + ((hi - lo).toNat / 2 : Nat)
      if ok mid then leastFrom ok fuel lo mid else leastFrom ok fuel (mid + 1) hi
    else hi

/-- The fraction `num / den / 2 ^ e`, as numerator and denominator. -/
def scale2 (num den : Nat) (e : Int) : Nat × Nat :=
  if 0 ≤ e then (num, den * 2 ^ e.toNat) else (num * 2 ^ (-e).toNat, den)

/-- The fraction `num / den / 10 ^ k`, as numerator and denominator. -/
def scale10 (num den : Nat) (k : Int) : Nat × Nat :=
  if 0 ≤ k then (num, den * 10 ^ k.toNat) else (num * 10 ^ (-k).toNat, den)

/-- The integer nearest to `num / den`, a tie going to the even one. -/
def roundHalfEven (num den : Nat) : Nat :=
  let q := num / den
  let r := num % den
  if den < 2 * r then q + 1
  else if 2 * r = den ∧ q % 2 = 1 then q + 1
  else q

/-- The float `m * 2 ^ e` of the type that is nearest to `num / den`, as the pair `(m, e)`;
`none` when the fraction is beyond the range of the type. The exponent is the least one
that leaves a mantissa of `precision` bits, and not less than `emin`. -/
def roundBinary (fmt : FloatFormat) (num den : Nat) : Option (Nat × Int) :=
  if belowPow2 num den fmt.emax then
    let e := leastFrom (fun e => belowPow2 num den (e + fmt.precision)) 12 fmt.emin
      (fmt.emax - fmt.precision)
    let m := roundHalfEven (scale2 num den e).1 (scale2 num den e).2
    if m = 2 ^ fmt.precision ∧ e = fmt.emax - fmt.precision then none else some (m, e)
  else none

/-- The pairs `a` and `b` are the same float. -/
def sameBinary (a b : Nat × Int) : Bool :=
  if a.2 ≤ b.2 then a.1 == b.1 * 2 ^ (b.2 - a.2).toNat else a.1 * 2 ^ (a.2 - b.2).toNat == b.1

/-- The decimal `d * 10 ^ k` is read as the float `v`. -/
def readsAs (fmt : FloatFormat) (v : Nat × Int) (d : Nat) (k : Int) : Bool :=
  match roundBinary fmt (scale10 d 1 (-k)).1 (scale10 d 1 (-k)).2 with
  | some w => sameBinary v w
  | none => false

/-- The digits without the zeros at their end, which go to the exponent. -/
def stripZeros : Nat → Nat × Int → Nat × Int
  | 0, dk => dk
  | fuel + 1, (d, k) => if d ≠ 0 ∧ d % 10 = 0 then stripZeros fuel (d / 10, k + 1) else (d, k)

/-- The decimal of `n` digits that is read as the float `v`, when there is one: of the two
decimals of `n` digits around `v`, the one that is read as `v`, and the nearer one when
both are (the even one when they are equally near); `k10` is the exponent of the first
digit of `v`. -/
def digitsOf (fmt : FloatFormat) (v : Nat × Int) (k10 : Int) (n : Nat) : Option (Nat × Int) :=
  let s : Int := k10 - n + 1
  let sc := scale10 (scale2 v.1 1 (-v.2)).1 (scale2 v.1 1 (-v.2)).2 s
  let lo := sc.1 / sc.2
  let r := sc.1 % sc.2
  let okLo := readsAs fmt v lo s
  let okHi := readsAs fmt v (lo + 1) s
  if okLo && okHi then
    if 2 * r < sc.2 then some (lo, s)
    else if sc.2 < 2 * r then some (lo + 1, s)
    else if lo % 2 = 0 then some (lo, s) else some (lo + 1, s)
  else if okLo then some (lo, s)
  else if okHi then some (lo + 1, s)
  else none

/-- The decimal of the least number of digits, from `n` on, that is read as `v`. -/
def shortestFrom (fmt : FloatFormat) (v : Nat × Int) (k10 : Int) : Nat → Nat → Nat × Int
  | 0, n => (digitsOf fmt v k10 n).getD (0, 0)
  | fuel + 1, n =>
    match digitsOf fmt v k10 n with
    | some dk => dk
    | none => shortestFrom fmt v k10 fuel (n + 1)

/-- The shortest decimal `d * 10 ^ k` that is read as the float `v`, for `v` other than
zero: 17 digits are enough for a `float64` and 9 for a `float32`. -/
def shortest (fmt : FloatFormat) (v : Nat × Int) : Nat × Int :=
  let k10 := leastFrom
    (fun x => belowPow10 (scale2 v.1 1 (-v.2)).1 (scale2 v.1 1 (-v.2)).2 (x + 1)) 12 (-400) 400
  stripZeros 20 (shortestFrom fmt v k10 20 1)

/-- The literal that `json.Marshal` writes for the float `v` with the sign `neg`: the
shortest decimal, in the format `e` from `1e21` on and in the format `f` below, where a
float without a fraction is written without a point. -/
def writeFloat (fmt : FloatFormat) (neg : Bool) (v : Nat × Int) : JNumber :=
  if v.1 = 0 then (if neg then .negZero else .int 0)
  else
    let dk := shortest fmt v
    let big := !(belowPow10 (scale2 v.1 1 (-v.2)).1 (scale2 v.1 1 (-v.2)).2 21)
    if big || decide (dk.2 < 0) then .real neg dk.1 dk.2
    else .int (if neg then -(dk.1 * 10 ^ dk.2.toNat : Nat) else (dk.1 * 10 ^ dk.2.toNat : Nat))

/-- The float that a literal is read as, held as the literal that is written for it;
`none` when `strconv.ParseFloat` reports a value out of range. -/
def readFloat (fmt : FloatFormat) (n : JNumber) : Option JNumber :=
  (roundBinary fmt n.magnitude.1 n.magnitude.2).map (writeFloat fmt n.isNeg)

/-! ## JSON values -/

/-- A well-formed JSON text, as a tree. Object members keep the order of the text and
may repeat a key. -/
inductive JSON where
  | null
  | bool (b : Bool)
  | num (n : JNumber)
  | str (s : String)
  | arr (xs : List JSON)
  | obj (kvs : List (String × JSON))


/-- The bytes handed to a decoder: `none` is a text that is not well-formed JSON. -/
abbrev Doc := Option JSON

/-- Outcome of a call that may return an error value or stop with a run-time panic. -/
inductive Res (α : Type) where
  | ok (a : α)
  | err (e : String)
  | fault (why : String)


/-- Sequencing of outcomes: the first error or panic ends the computation. -/
def Res.bind {α β : Type} (r : Res α) (f : α → Res β) : Res β :=
  match r with
  | .ok a => f a
  | .err e => .err e
  | .fault w => .fault w

/-- A Go slice: `none` is the nil slice. -/
abbrev Slice (α : Type) := Option (List α)

/-- A Go pointer, by value: `none` is nil. -/
abbrev Ptr (α : Type) := Option α

/-- A Go `map[string]V`: `none` is the nil map, and the entries are kept sorted by key,
one entry per key. -/
abbrev GoMap (V : Type) := Option (List (String × V))

/-- A Go `interface{}` value as `encoding/json` produces it: the decoded JSON value
with every object turned into a map; `JSON.null` is the nil interface. -/
abbrev Interface := JSON

/-- The elements of a slice; the nil slice has none. -/
def Slice.elems {α : Type} (s : Slice α) : List α := s.getD []

/-- Lexicographic order on code points: the order in which `encoding/json` writes the
keys of a map. -/
def runesLt : List Char → List Char → Bool
  | [], [] => false
  | [], _ :: _ => true
  | _ :: _, [] => false
  | a :: as, b :: bs =>
    if a.toNat < b.toNat then true
    else if b.toNat < a.toNat then false
    else runesLt as bs

/-- Key order of map output. -/
def keyLt (a b : String) : Bool := runesLt a.data b.data

/-- Assignment `m[k] = v` on the sorted entries of a map. -/
def mapInsert {V : Type} (k : String) (v : V) : List (String × V) → List (String × V)
  | [] => [(k, v)]
  | (k', v') :: rest =>
    if k = k' then (k, v) :: rest
    else if keyLt k k' then (k, v) :: (k', v') :: rest
    else (k', v') :: mapInsert k v rest

/-- Lookup `m[k]` on the entries of a map or the members of an object: the first
entry with that key. -/
def lookupKey {V : Type} (k : String) : List (String × V) → Option V
  | [] => none
  | (k', v) :: rest => if k = k' then some v else lookupKey k rest

mutual
/-- Decoding of any JSON value into an `interface{}`: a number becomes a `float64`, an
array a `[]interface{}` and an object a `map[string]interface{}`, where a repeated key
keeps its last value. A number beyond the range of `float64` is an error. -/
def toInterface : JSON → Except String Interface
  | .num n =>
    match readFloat binary64 n with
    | some f => .ok (.num f)
    | none => .error "json: cannot unmarshal number into Go value of type float64"
  | .arr xs =>
    match toInterfaceList xs with
    | .ok ys => .ok (.arr ys)
    | .error e => .error e
  | .obj kvs =>
    match toInterfaceMap kvs [] with
    | .ok m => .ok (.obj m)
    | .error e => .error e
  | j => .ok j
/-- Elementwise `toInterface`. -/
def toInterfaceList : List JSON → Except String (List Interface)
  | [] => .ok []
  | x :: xs =>
    match toInterface x with
    | .error e => .error e
    | .ok y =>
      match toInterfaceList xs with
      | .ok ys => .ok (y :: ys)
      | .error e => .error e
/-- The members of an object, assigned in order to the map `acc`. -/
def toInterfaceMap :
    List (String × JSON) → List (String × Interface) → Except String (List (String × Interface))
  | [], acc => .ok acc
  | (k, v) :: rest, acc =>
    match toInterface v with
    | .error e => .error e
    | .ok w => toInterfaceMap rest (mapInsert k w acc)
end

/-- Case folding of one code point, as far as it can meet an ASCII field name: ASCII
letters, the long s (U+017F) and the Kelvin sign (U+212A). -/
def foldRune (c : Char) : Char :=
  if 97 ≤ c.toNat ∧ c.toNat ≤ 122 then Char.ofNat (c.toNat - 32)
  else if c.toNat = 0x17F then Char.ofNat 83
  else if c.toNat = 0x212A then Char.ofNat 75
  else c

/-- Case-insensitive match of an object key with a field name. -/
def foldEq (key name : String) : Bool := key.data.map foldRune == name.data.map foldRune

/-! ## Field codecs of `encoding/json` -/

/-- How `encoding/json` treats one Go type: its zero value, its encoding, the
`omitempty` test, and decoding of a JSON value into a variable that holds `cur`. -/
structure Codec (α : Type) where
  zero : α
  enc : α → JSON
  isEmpty : α → Bool
  dec : JSON → α → Except String α

/-- Codec of `bool`. -/
def Codec.bool : Codec Bool where
  zero := false
  enc b := .bool b
  isEmpty b := !b
  dec j cur := match j with
    | .null => .ok cur
    | .bool b => .ok b
    | _ => .error "json: cannot unmarshal into Go value of type bool"

/-- Codec of `string`. -/
def Codec.string : Codec String where
  zero := ""
  enc s := .str s
  isEmpty s := s.data.isEmpty
  dec j cur := match j with
    | .null => .ok cur
    | .str s => .ok s
    | _ => .error "json: cannot unmarshal into Go value of type string"

/-- Codec of `int` (64 bits). -/
def Codec.int : Codec Int where
  zero := 0
  enc i := .num (.int i)
  isEmpty i := i == 0
  dec j cur := match j with
    | .null => .ok cur
    | .num (.int i) =>
      if -(2:Int)^63 ≤ i ∧ i < (2:Int)^63 then .ok i
      else .error "json: cannot unmarshal number into Go value of type int"
    | .num .negZero => .ok 0
    | _ => .error "json: cannot unmarshal into Go value of type int"

/-- Codec of `uint` (64 bits). -/
def Codec.uint : Codec Nat where
  zero := 0
  enc n := .num (.int n)
  isEmpty n := n == 0
  dec j cur := match j with
    | .null => .ok cur
    | .num (.int i) =>
      if 0 ≤ i ∧ i < (2:Int)^64 then .ok i.toNat
      else .error "json: cannot unmarshal number into Go value of type uint"
    | _ => .error "json: cannot unmarshal into Go value of type uint"

/-- A finite `float32` or `float64`, held as the literal that `json.Marshal` writes for
it. -/
abbrev GoFloat := JNumber

/-- Codec of a float type: a number is read as the nearest float of the type, and a
number beyond its range is an error; `omitempty` leaves out the zeros. -/
def Codec.floatOf (fmt : FloatFormat) : Codec GoFloat where
  zero := .int 0
  enc x := .num x
  isEmpty x := x.magnitude.1 == 0
  dec j cur := match j with
    | .null => .ok cur
    | .num x =>
      match readFloat fmt x with
      | some f => .ok f
      | none => .error "json: cannot unmarshal number into Go value of type float"
    | _ => .error "json: cannot unmarshal into Go value of type float"

/-- Codec of `float32`. -/
def Codec.float32 : Codec GoFloat := Codec.floatOf binary32

/-- Codec of `float64`. -/
def Codec.float64 : Codec GoFloat := Codec.floatOf binary64

/-- Codec of `interface{}`. -/
def Codec.iface : Codec Interface where
  zero := .null
  enc v := v
  isEmpty v := match v with
    | .null => true
    | _ => false
  dec j _ := toInterface j

/-- Codec of a pointer `*T`: null gives nil, any other value is decoded into the
pointee, which is allocated when the pointer is nil. -/
def Codec.ptr {α : Type} (c : Codec α) : Codec (Ptr α) where
  zero := none
  enc p := match p with
    | none => .null
    | some a => c.enc a
  isEmpty p := p.isNone
  dec j cur := match j with
    | .null => .ok none
    | _ => (c.dec j (cur.getD c.zero)).map some

/-- Elements of a JSON array decoded into a slice: element `i` is decoded into the
element the slice already has at `i`, or into a zero value. -/
def decodeElems {α : Type} (c : Codec α) : List JSON → List α → Except String (List α)
  | [], _ => .ok []
  | x :: xs, cur =>
    match c.dec x (cur.headD c.zero) with
    | .error e => .error e
    | .ok a =>
      match decodeElems c xs cur.tail with
      | .error e => .error e
      | .ok as => .ok (a :: as)

/-- Codec of a slice `[]T`. -/
def Codec.slice {α : Type} (c : Codec α) : Codec (Slice α) where
  zero := none
  enc s := match s with
    | none => .null
    | some xs => .arr (xs.map c.enc)
  isEmpty s := s.elems.isEmpty
  dec j cur := match j with
    | .null => .ok none
    | .arr xs => (decodeElems c xs cur.elems).map some
    | _ => .error "json: cannot unmarshal into Go value of slice type"

/-- Members of a JSON object decoded into a map: each value is decoded into a fresh
zero value and assigned to its key. -/
def decodeEntries {α : Type} (c : Codec α) :
    List (String × JSON) → List (String × α) → Except String (List (String × α))
  | [], acc => .ok acc
  | (k, v) :: rest, acc =>
    match c.dec v c.zero with
    | .error e => .error e
    | .ok a => decodeEntries c rest (mapInsert k a acc)

/-- Codec of `map[string]T`. -/
def Codec.map {α : Type} (c : Codec α) : Codec (GoMap α) where
  zero := none
  enc m := match m with
    | none => .null
    | some kvs => .obj (kvs.map fun kv => (kv.1, c.enc kv.2))
  isEmpty m := (m.getD []).isEmpty
  dec j cur := match j with
    | .null => .ok none
    | .obj kvs => (decodeEntries c kvs (cur.getD [])).map some
    | _ => .error "json: cannot unmarshal into Go value of map type"

/-- One exported field of a struct `S` with its `json` tag. -/
structure JsonField (S : Type) where
  name : String
  omitempty : Bool
  enc : S → JSON
  isEmpty : S → Bool
  dec : JSON → S → Except String S

/-- A field of type `α` with tag `json:"name"` or `json:"name,omitempty"`. -/
def fld {S α : Type} (c : Codec α) (name : String) (omitempty : Bool)
    (get : S → α) (set : S → α → S) : JsonField S where
  name := name
  omitempty := omitempty
  enc s := c.enc (get s)
  isEmpty s := c.isEmpty (get s)
  dec j s := (c.dec j (get s)).map (set s)

/-- The field an object key selects: the field with exactly that name, else the first
field whose name matches without regard to case. -/
def findField {S : Type} (fs : List (JsonField S)) (key : String) : Option (JsonField S) :=
  match fs.find? (fun f => f.name == key) with
  | some f => some f
  | none => fs.find? (fun f => foldEq key f.name)

/-- Members of an object decoded in order into the struct value `s`; a key that
selects no field is skipped. -/
def decodeMembers {S : Type} (fs : List (JsonField S)) : List (String × JSON) → S → Except String S
  | [], s => .ok s
  | (k, v) :: rest, s =>
    match findField fs k with
    | none => decodeMembers fs rest s
    | some f =>
      match f.dec v s with
      | .error e => .error e
      | .ok s' => decodeMembers fs rest s'

/-- Decoding of a JSON value into a struct variable: null leaves it as it is, an
object is decoded member by member, anything else is a type error. -/
def decodeStruct {S : Type} (fs : List (JsonField S)) (j : JSON) (s : S) : Except String S :=
  match j with
  | .null => .ok s
  | .obj kvs => decodeMembers fs kvs s
  | _ => .error "json: cannot unmarshal into Go value of struct type"

/-- The members written for a struct value: its fields in order, without the
`omitempty` fields that hold an empty value. -/
def encodeFields {S : Type} (fs : List (JsonField S)) (s : S) : List (String × JSON) :=
  (fs.filter fun f => !(f.omitempty && f.isEmpty s)).map fun f => (f.name, f.enc s)

/-- Codec of a struct type with the given zero value and fields. -/
def Codec.struct {S : Type} (zero : S) (fs : List (JsonField S)) : Codec S where
  zero := zero
  enc s := .obj (encodeFields fs s)
  isEmpty _ := false
  dec j s := decodeStruct fs j s


set_option linter.dupNamespace false

/-! ## Types of `panel.go` -/

/-- Modelled from the spec: the types `FloatOrString`, `BoolString`, `IntString`, `Link`
and `AlertNotification` are declared outside `panel.go` (the spec calls them nullable
numeric, boolean and string wrappers and a link list). A value of one of them is kept as
the JSON value it was read from and is written back as that value. -/
structure External where
  raw : JSON := .null

/-- Modelled from the spec: the codec of the types declared outside `panel.go`, which
reads any JSON value and writes it back. -/
def Codec.external : Codec External where
  zero := {}
  enc x := x.raw
  isEmpty _ := false
  dec j _ := .ok { raw := j }

abbrev FloatOrString := External
abbrev BoolString := External
abbrev IntString := External
abbrev Link := External
abbrev AlertNotification := External

/-- The kind tag `panelType`, an `int8`. -/
abbrev panelType := Int

def CustomType : panelType := 0
def DashlistType : panelType := 1
def GraphType : panelType := 2
def TableType : panelType := 3
def TextType : panelType := 4
def PluginlistType : panelType := 5
def AlertlistType : panelType := 6
def SinglestatType : panelType := 7
def RowType : panelType := 8

def MixedSource : String := "-- Mixed --"

/-- The anonymous struct of `CommonPanel.GridPos`. -/
structure GridPos where
  H : Ptr GoFloat := none
  W : Ptr GoFloat := none
  X : Ptr GoFloat := none
  Y : Ptr GoFloat := none

/-- The anonymous struct of the values of `CommonPanel.ScopedVars`. -/
structure ScopedVar where
  Selected : Bool := false
  Text : String := ""
  Value : String := ""

structure AlertEvaluator where
  Params : Slice GoFloat := none
  Type_ : String := ""
  catchall : GoMap Interface := none

structure AlertOperator where
  Type_ : String := ""
  catchall : GoMap Interface := none

structure AlertQuery where
  Params : Slice String := none
  catchall : GoMap Interface := none

structure AlertReducer where
  Params : Slice String := none
  Type_ : String := ""
  catchall : GoMap Interface := none

structure AlertCondition where
  Evaluator : AlertEvaluator := {}
  Operator : AlertOperator := {}
  Query : AlertQuery := {}
  Reducer : AlertReducer := {}
  Type_ : String := ""
  catchall : GoMap Interface := none

structure Alert where
  Conditions : Slice AlertCondition := none
  ExecutionErrorState : String := ""
  Frequency : String := ""
  Handler : Int := 0
  Name : String := ""
  NoDataState : String := ""
  Notifications : Slice AlertNotification := none
  Message : String := ""
  For : String := ""
  catchall : GoMap Interface := none

structure CommonPanel where
  GridPos : GridPos := {}
  ID : Nat := 0
  Title : String := ""
  Type_ : String := ""
  Collapsed : Ptr Bool := none
  Datasource : Ptr String := none
  Description : String := ""
  Editable : Ptr Bool := none
  Error : Ptr Bool := none
  Height : Ptr FloatOrString := none
  HideTimeOverride : Ptr Bool := none
  IsNew : Ptr Bool := none
  Links : Slice Link := none
  MinSpan : Ptr GoFloat := none
  OfType : panelType := 0
  Renderer : Ptr String := none
  Repeat : Ptr String := none
  RepeatPanelID : Ptr Nat := none
  RepeatedByRow : Bool := false
  ScopedVars : GoMap ScopedVar := none
  Span : GoFloat := .int 0
  Transparent : Bool := false
  Alert : Ptr Alert := none

structure Threshold where
  Value : GoFloat := .int 0
  ColorMode : String := ""
  Op : String := ""
  Fill : Bool := false
  Line : Bool := false
  FillColor : String := ""
  LineColor : String := ""
  Yaxis : String := ""
  catchall : GoMap Interface := none

structure Tooltip where
  Shared : Bool := false
  ValueType : String := ""
  MsResolution : Bool := false
  Sort_ : Int := 0
  catchall : GoMap Interface := none

structure Axis where
  Decimals : Int := 0
  Format : String := ""
  LogBase : Int := 0
  Max : Ptr FloatOrString := none
  Min : Ptr FloatOrString := none
  Mode : String := ""
  Show : Bool := false
  Label : String := ""
  catchall : GoMap Interface := none

structure SeriesOverride where
  Alias : String := ""
  Bars : Ptr Bool := none
  Color : Ptr String := none
  Dashes : Bool := false
  Fill : Ptr Int := none
  FillBelowTo : Ptr String := none
  Legend : Ptr Bool := none
  Lines : Ptr Bool := none
  Linewidth : Ptr Int := none
  Stack : Ptr BoolString := none
  Transform : Ptr String := none
  YAxis : Ptr Int := none
  ZIndex : Ptr Int := none
  NullPointMode : Ptr String := none
  catchall : GoMap Interface := none

/-- The struct `Sort`. -/
structure Sort_ where
  Col : Int := 0
  Desc : Bool := false
  catchall : GoMap Interface := none

structure Legend where
  AlignAsTable : Bool := false
  Avg : Bool := false
  Current : Bool := false
  HideEmpty : Bool := false
  HideZero : Bool := false
  Max : Bool := false
  Min : Bool := false
  RightSide : Bool := false
  Show : Bool := false
  SideWidth : Ptr Nat := none
  Sort_ : String := ""
  SortDesc : Bool := false
  Total : Bool := false
  Values : Bool := false
  catchall : GoMap Interface := none

structure Column where
  TextType : String := ""
  Value : String := ""
  catchall : GoMap Interface := none

structure ColumnStyle where
  Alias : Ptr String := none
  ColorMode : Ptr String := none
  Colors : Ptr (Slice String) := none
  DateFormat : Ptr String := none
  Decimals : Ptr Int := none
  Link : Ptr Bool := none
  LinkTargetBlank : Ptr Bool := none
  LinkTooltip : Ptr String := none
  LinkURL : Ptr String := none
  Pattern : String := ""
  Thresholds : Ptr (Slice String) := none
  Type_ : String := ""
  Unit : Ptr String := none
  catchall : GoMap Interface := none

structure ValueMap where
  Op : String := ""
  TextType : String := ""
  Value : String := ""
  catchall : GoMap Interface := none

structure Gauge where
  MaxValue : GoFloat := .int 0
  MinValue : GoFloat := .int 0
  Show : Bool := false
  ThresholdLabels : Bool := false
  ThresholdMarkers : Bool := false
  catchall : GoMap Interface := none

structure SparkLine where
  FillColor : Ptr String := none
  Full : Bool := false
  LineColor : Ptr String := none
  Show : Bool := false
  YMin : Ptr GoFloat := none
  YMax : Ptr GoFloat := none
  catchall : GoMap Interface := none

structure Metric where
  ID : String := ""
  Field : String := ""
  Type_ : String := ""
  catchall : GoMap Interface := none

structure SettingsType where
  Interval : String := ""
  MinDocCount : Int := 0
  Order : String := ""
  OrderBy : String := ""
  Size : String := ""
  catchall : GoMap Interface := none

structure BucketAgg where
  ID : String := ""
  Field : String := ""
  Type_ : String := ""
  Settings : SettingsType := {}
  catchall : GoMap Interface := none

structure StackdriverAlignOption where
  Label : String := ""
  MetricKinds : Slice String := none
  Text : String := ""
  Value : String := ""
  ValueTypes : Slice String := none
  catchall : GoMap Interface := none

structure StackdriverAlignOptions where
  Expanded : Bool := false
  Label : String := ""
  Options : Slice StackdriverAlignOption := none
  catchall : GoMap Interface := none

structure Target where
  RefID : String := ""
  Datasource : String := ""
  Hide : Ptr Bool := none
  Expr : String := ""
  IntervalFactor : Int := 0
  Interval : String := ""
  Step : Int := 0
  LegendFormat : String := ""
  Instant : Bool := false
  Format : String := ""
  DsType : Ptr String := none
  Metrics : Slice Metric := none
  Query : String := ""
  Alias : String := ""
  RawQuery : Ptr BoolString := none
  TimeField : String := ""
  BucketAggs : Slice BucketAgg := none
  Target : String := ""
  Namespace : String := ""
  MetricName : String := ""
  Statistics : Slice String := none
  Dimensions : GoMap String := none
  Period : String := ""
  Region : String := ""
  AlignOptions : Slice StackdriverAlignOptions := none
  AliasBy : String := ""
  MetricType : String := ""
  MetricKind : String := ""
  Filters : Slice String := none
  AlignmentPeriod : String := ""
  CrossSeriesReducer : String := ""
  PerSeriesAligner : String := ""
  ValueType : String := ""
  GroupBys : Slice String := none
  Data : String := ""
  Type_ : String := ""
  catchall : GoMap Interface := none

structure MapType where
  Name : Ptr String := none
  Value : Ptr Int := none
  catchall : GoMap Interface := none

structure RangeMap where
  From : Ptr String := none
  Text : Ptr String := none
  To : Ptr String := none
  catchall : GoMap Interface := none

structure GraphPanel where
  AliasColors : Interface := .null
  Bars : Bool := false
  DashLength : Ptr Nat := none
  Dashes : Ptr Bool := none
  Decimals : Ptr Nat := none
  Fill : Int := 0
  Legend : Legend := {}
  LeftYAxisLabel : Ptr String := none
  Lines : Bool := false
  Linewidth : Nat := 0
  NullPointMode : String := ""
  Percentage : Bool := false
  Pointradius : GoFloat := .int 0
  Points : Bool := false
  RightYAxisLabel : Ptr String := none
  SeriesOverrides : Slice SeriesOverride := none
  SpaceLength : Ptr Nat := none
  Stack : Bool := false
  SteppedLine : Bool := false
  Targets : Slice Target := none
  Thresholds : Slice Threshold := none
  TimeFrom : Ptr String := none
  TimeShift : Ptr String := none
  Tooltip : Tooltip := {}
  XAxis : Bool := false
  YAxis : Bool := false
  YFormats : Slice String := none
  Xaxis : Axis := {}
  Yaxes : Slice Axis := none
  catchall : GoMap Interface := none

structure TablePanel where
  Columns : Slice Column := none
  Sort_ : Ptr Sort_ := none
  Styles : Slice ColumnStyle := none
  Transform : String := ""
  Targets : Slice Target := none
  Scroll : Bool := false
  catchall : GoMap Interface := none

structure TextPanel where
  Content : String := ""
  Mode : String := ""
  PageSize : Nat := 0
  Scroll : Bool := false
  ShowHeader : Bool := false
  Sort_ : Ptr Sort_ := none
  Styles : Slice ColumnStyle := none
  catchall : GoMap Interface := none

structure SinglestatPanel where
  Colors : Slice String := none
  ColorValue : Bool := false
  ColorBackground : Bool := false
  ColorPostfix : Bool := false
  ColorPrefix : Bool := false
  Decimals : Int := 0
  Format : String := ""
  Gauge : Gauge := {}
  MappingType : Ptr Nat := none
  MappingTypes : Slice (Ptr MapType) := none
  MaxDataPoints : Ptr IntString := none
  NullPointMode : String := ""
  Postfix : Ptr String := none
  PostfixFontSize : Ptr String := none
  Prefix : Ptr String := none
  PrefixFontSize : Ptr String := none
  RangeMaps : Slice (Ptr RangeMap) := none
  SparkLine : SparkLine := {}
  Targets : Slice Target := none
  Thresholds : String := ""
  ValueFontSize : String := ""
  ValueMaps : Slice ValueMap := none
  ValueName : String := ""
  catchall : GoMap Interface := none

structure DashlistPanel where
  Mode : String := ""
  Limit : Nat := 0
  Query : String := ""
  Tags : Slice String := none
  catchall : GoMap Interface := none

structure PluginlistPanel where
  Limit : Int := 0
  catchall : GoMap Interface := none

structure AlertlistPanel where
  OnlyAlertsOnDashboard : Bool := false
  Show : String := ""
  SortOrder : Int := 0
  Limit : Int := 0
  StateFilter : Slice String := none
  NameFilter : String := ""
  DashboardTags : Slice String := none
  catchall : GoMap Interface := none

/-- The struct `RowPanel`, over the type `P` of panels. -/
structure RowPanel (P : Type) where
  Panels : Option (List (Option P)) := none
  catchall : GoMap Interface := none

/-- The type `CustomPanel`, a `map[string]interface{}`. -/
abbrev CustomPanel := GoMap Interface

/-- The struct `Panel`: the common fields and one pointer per kind. -/
inductive Panel where
  | mk (CommonPanel : CommonPanel)
      (GraphPanel : Ptr GraphPanel)
      (TablePanel : Ptr TablePanel)
      (TextPanel : Ptr TextPanel)
      (SinglestatPanel : Ptr SinglestatPanel)
      (DashlistPanel : Ptr DashlistPanel)
      (PluginlistPanel : Ptr PluginlistPanel)
      (RowPanel : Option (RowPanel Panel))
      (AlertlistPanel : Ptr AlertlistPanel)
      (CustomPanel : Ptr CustomPanel)

namespace Panel

def CommonPanel : Panel → Sdk.CommonPanel
  | mk c _ _ _ _ _ _ _ _ _ => c
def GraphPanel : Panel → Ptr Sdk.GraphPanel
  | mk _ g _ _ _ _ _ _ _ _ => g
def TablePanel : Panel → Ptr Sdk.TablePanel
  | mk _ _ t _ _ _ _ _ _ _ => t
def TextPanel : Panel → Ptr Sdk.TextPanel
  | mk _ _ _ t _ _ _ _ _ _ => t
def SinglestatPanel : Panel → Ptr Sdk.SinglestatPanel
  | mk _ _ _ _ s _ _ _ _ _ => s
def DashlistPanel : Panel → Ptr Sdk.DashlistPanel
  | mk _ _ _ _ _ d _ _ _ _ => d
def PluginlistPanel : Panel → Ptr Sdk.PluginlistPanel
  | mk _ _ _ _ _ _ l _ _ _ => l
def RowPanel : Panel → Ptr (Sdk.RowPanel Panel)
  | mk _ _ _ _ _ _ _ r _ _ => r
def AlertlistPanel : Panel → Ptr Sdk.AlertlistPanel
  | mk _ _ _ _ _ _ _ _ a _ => a
def CustomPanel : Panel → Ptr Sdk.CustomPanel
  | mk _ _ _ _ _ _ _ _ _ c => c

/-- The promoted field `p.OfType`. -/
def OfType (p : Panel) : panelType := p.CommonPanel.OfType

/-- The zero value `Panel{}`. -/
def zero : Panel := mk {} none none none none none none none none none

end Panel

/-! ## The `json` tags

One table per struct: the exported fields in the order of the source, each with the
name and the `omitempty` flag of its tag. The unexported `catchall` fields and the field
`OfType`, tagged `json:"-"`, are no JSON fields. -/

def GridPosFields : List (JsonField GridPos) := [
  fld (.ptr .float32) "h" true (·.H) (fun s v => { s with H := v }),
  fld (.ptr .float32) "w" true (·.W) (fun s v => { s with W := v }),
  fld (.ptr .float32) "x" true (·.X) (fun s v => { s with X := v }),
  fld (.ptr .float32) "y" true (·.Y) (fun s v => { s with Y := v })]

def ScopedVarFields : List (JsonField ScopedVar) := [
  fld .bool "selected" false (·.Selected) (fun s v => { s with Selected := v }),
  fld .string "text" false (·.Text) (fun s v => { s with Text := v }),
  fld .string "value" false (·.Value) (fun s v => { s with Value := v })]

def AlertEvaluatorFields : List (JsonField AlertEvaluator) := [
  fld (.slice .float64) "params" true (·.Params) (fun s v => { s with Params := v }),
  fld .string "type" true (·.Type_) (fun s v => { s with Type_ := v })]

def AlertOperatorFields : List (JsonField AlertOperator) := [
  fld .string "type" true (·.Type_) (fun s v => { s with Type_ := v })]

def AlertQueryFields : List (JsonField AlertQuery) := [
  fld (.slice .string) "params" true (·.Params) (fun s v => { s with Params := v })]

def AlertReducerFields : List (JsonField AlertReducer) := [
  fld (.slice .string) "params" true (·.Params) (fun s v => { s with Params := v }),
  fld .string "type" true (·.Type_) (fun s v => { s with Type_ := v })]

def AlertConditionFields : List (JsonField AlertCondition) := [
  fld (.struct {} AlertEvaluatorFields) "evaluator" true (·.Evaluator)
    (fun s v => { s with Evaluator := v }),
  fld (.struct {} AlertOperatorFields) "operator" true (·.Operator)
    (fun s v => { s with Operator := v }),
  fld (.struct {} AlertQueryFields) "query" true (·.Query) (fun s v => { s with Query := v }),
  fld (.struct {} AlertReducerFields) "reducer" true (·.Reducer)
    (fun s v => { s with Reducer := v }),
  fld .string "type" true (·.Type_) (fun s v => { s with Type_ := v })]

def AlertFields : List (JsonField Alert) := [
  fld (.slice (.struct {} AlertConditionFields)) "conditions" true (·.Conditions)
    (fun s v => { s with Conditions := v }),
  fld .string "executionErrorState" true (·.ExecutionErrorState)
    (fun s v => { s with ExecutionErrorState := v }),
  fld .string "frequency" true (·.Frequency) (fun s v => { s with Frequency := v }),
  fld .int "handler" true (·.Handler) (fun s v => { s with Handler := v }),
  fld .string "name" true (·.Name) (fun s v => { s with Name := v }),
  fld .string "noDataState" true (·.NoDataState) (fun s v => { s with NoDataState := v }),
  fld (.slice .external) "notifications" true (·.Notifications)
    (fun s v => { s with Notifications := v }),
  fld .string "message" true (·.Message) (fun s v => { s with Message := v }),
  fld .string "for" true (·.For) (fun s v => { s with For := v })]

def CommonPanelFields : List (JsonField CommonPanel) := [
  fld (.struct {} GridPosFields) "gridPos" false (·.GridPos) (fun s v => { s with GridPos := v }),
  fld .uint "id" false (·.ID) (fun s v => { s with ID := v }),
  fld .string "title" false (·.Title) (fun s v => { s with Title := v }),
  fld .string "type" false (·.Type_) (fun s v => { s with Type_ := v }),
  fld (.ptr .bool) "collapsed" true (·.Collapsed) (fun s v => { s with Collapsed := v }),
  fld (.ptr .string) "datasource" true (·.Datasource) (fun s v => { s with Datasource := v }),
  fld .string "description" true (·.Description) (fun s v => { s with Description := v }),
  fld (.ptr .bool) "editable" true (·.Editable) (fun s v => { s with Editable := v }),
  fld (.ptr .bool) "error" true (·.Error) (fun s v => { s with Error := v }),
  fld (.ptr .external) "height" true (·.Height) (fun s v => { s with Height := v }),
  fld (.ptr .bool) "hideTimeOverride" true (·.HideTimeOverride)
    (fun s v => { s with HideTimeOverride := v }),
  fld (.ptr .bool) "isNew" true (·.IsNew) (fun s v => { s with IsNew := v }),
  fld (.slice .external) "links" true (·.Links) (fun s v => { s with Links := v }),
  fld (.ptr .float32) "minSpan" true (·.MinSpan) (fun s v => { s with MinSpan := v }),
  fld (.ptr .string) "renderer" true (·.Renderer) (fun s v => { s with Renderer := v }),
  fld (.ptr .string) "repeat" true (·.Repeat) (fun s v => { s with Repeat := v }),
  fld (.ptr .uint) "repeatPanelId" true (·.RepeatPanelID)
    (fun s v => { s with RepeatPanelID := v }),
  fld .bool "repeatedByRow" true (·.RepeatedByRow) (fun s v => { s with RepeatedByRow := v }),
  fld (.map (.struct {} ScopedVarFields)) "scopedVars" true (·.ScopedVars)
    (fun s v => { s with ScopedVars := v }),
  fld .float32 "span" true (·.Span) (fun s v => { s with Span := v }),
  fld .bool "transparent" true (·.Transparent) (fun s v => { s with Transparent := v }),
  fld (.ptr (.struct {} AlertFields)) "alert" true (·.Alert) (fun s v => { s with Alert := v })]

def ThresholdFields : List (JsonField Threshold) := [
  fld .float32 "value" false (·.Value) (fun s v => { s with Value := v }),
  fld .string "colorMode" true (·.ColorMode) (fun s v => { s with ColorMode := v }),
  fld .string "op" true (·.Op) (fun s v => { s with Op := v }),
  fld .bool "fill" false (·.Fill) (fun s v => { s with Fill := v }),
  fld .bool "line" false (·.Line) (fun s v => { s with Line := v }),
  fld .string "fillColor" true (·.FillColor) (fun s v => { s with FillColor := v }),
  fld .string "lineColor" true (·.LineColor) (fun s v => { s with LineColor := v }),
  fld .string "yaxis" true (·.Yaxis) (fun s v => { s with Yaxis := v })]

def TooltipFields : List (JsonField Tooltip) := [
  fld .bool "shared" false (·.Shared) (fun s v => { s with Shared := v }),
  fld .string "value_type" false (·.ValueType) (fun s v => { s with ValueType := v }),
  fld .bool "msResolution" true (·.MsResolution) (fun s v => { s with MsResolution := v }),
  fld .int "sort" true (·.Sort_) (fun s v => { s with Sort_ := v })]

def AxisFields : List (JsonField Axis) := [
  fld .int "decimals" true (·.Decimals) (fun s v => { s with Decimals := v }),
  fld .string "format" true (·.Format) (fun s v => { s with Format := v }),
  fld .int "logBase" true (·.LogBase) (fun s v => { s with LogBase := v }),
  fld (.ptr .external) "max" true (·.Max) (fun s v => { s with Max := v }),
  fld (.ptr .external) "min" true (·.Min) (fun s v => { s with Min := v }),
  fld .string "mode" true (·.Mode) (fun s v => { s with Mode := v }),
  fld .bool "show" false (·.Show) (fun s v => { s with Show := v }),
  fld .string "label" true (·.Label) (fun s v => { s with Label := v })]

def SeriesOverrideFields : List (JsonField SeriesOverride) := [
  fld .string "alias" false (·.Alias) (fun s v => { s with Alias := v }),
  fld (.ptr .bool) "bars" true (·.Bars) (fun s v => { s with Bars := v }),
  fld (.ptr .string) "color" true (·.Color) (fun s v => { s with Color := v }),
  fld .bool "dashes" true (·.Dashes) (fun s v => { s with Dashes := v }),
  fld (.ptr .int) "fill" true (·.Fill) (fun s v => { s with Fill := v }),
  fld (.ptr .string) "fillBelowTo" true (·.FillBelowTo) (fun s v => { s with FillBelowTo := v }),
  fld (.ptr .bool) "legend" true (·.Legend) (fun s v => { s with Legend := v }),
  fld (.ptr .bool) "lines" true (·.Lines) (fun s v => { s with Lines := v }),
  fld (.ptr .int) "linewidth" true (·.Linewidth) (fun s v => { s with Linewidth := v }),
  fld (.ptr .external) "stack" true (·.Stack) (fun s v => { s with Stack := v }),
  fld (.ptr .string) "transform" true (·.Transform) (fun s v => { s with Transform := v }),
  fld (.ptr .int) "yaxis" true (·.YAxis) (fun s v => { s with YAxis := v }),
  fld (.ptr .int) "zindex" true (·.ZIndex) (fun s v => { s with ZIndex := v }),
  fld (.ptr .string) "nullPointMode" true (·.NullPointMode)
    (fun s v => { s with NullPointMode := v })]

def Sort_Fields : List (JsonField Sort_) := [
  fld .int "col" false (·.Col) (fun s v => { s with Col := v }),
  fld .bool "desc" false (·.Desc) (fun s v => { s with Desc := v })]

def LegendFields : List (JsonField Legend) := [
  fld .bool "alignAsTable" false (·.AlignAsTable) (fun s v => { s with AlignAsTable := v }),
  fld .bool "avg" false (·.Avg) (fun s v => { s with Avg := v }),
  fld .bool "current" false (·.Current) (fun s v => { s with Current := v }),
  fld .bool "hideEmpty" false (·.HideEmpty) (fun s v => { s with HideEmpty := v }),
  fld .bool "hideZero" false (·.HideZero) (fun s v => { s with HideZero := v }),
  fld .bool "max" false (·.Max) (fun s v => { s with Max := v }),
  fld .bool "min" false (·.Min) (fun s v => { s with Min := v }),
  fld .bool "rightSide" false (·.RightSide) (fun s v => { s with RightSide := v }),
  fld .bool "show" false (·.Show) (fun s v => { s with Show := v }),
  fld (.ptr .uint) "sideWidth" true (·.SideWidth) (fun s v => { s with SideWidth := v }),
  fld .string "sort" true (·.Sort_) (fun s v => { s with Sort_ := v }),
  fld .bool "sortDesc" true (·.SortDesc) (fun s v => { s with SortDesc := v }),
  fld .bool "total" false (·.Total) (fun s v => { s with Total := v }),
  fld .bool "values" false (·.Values) (fun s v => { s with Values := v })]

def ColumnFields : List (JsonField Column) := [
  fld .string "text" false (·.TextType) (fun s v => { s with TextType := v }),
  fld .string "value" false (·.Value) (fun s v => { s with Value := v })]

def ColumnStyleFields : List (JsonField ColumnStyle) := [
  fld (.ptr .string) "alias" false (·.Alias) (fun s v => { s with Alias := v }),
  fld (.ptr .string) "colorMode" true (·.ColorMode) (fun s v => { s with ColorMode := v }),
  fld (.ptr (.slice .string)) "colors" true (·.Colors) (fun s v => { s with Colors := v }),
  fld (.ptr .string) "dateFormat" true (·.DateFormat) (fun s v => { s with DateFormat := v }),
  fld (.ptr .int) "decimals" true (·.Decimals) (fun s v => { s with Decimals := v }),
  fld (.ptr .bool) "link" true (·.Link) (fun s v => { s with Link := v }),
  fld (.ptr .bool) "linkTargetBlank" true (·.LinkTargetBlank)
    (fun s v => { s with LinkTargetBlank := v }),
  fld (.ptr .string) "linkTooltip" true (·.LinkTooltip) (fun s v => { s with LinkTooltip := v }),
  fld (.ptr .string) "linkUrl" true (·.LinkURL) (fun s v => { s with LinkURL := v }),
  fld .string "pattern" false (·.Pattern) (fun s v => { s with Pattern := v }),
  fld (.ptr (.slice .string)) "thresholds" true (·.Thresholds)
    (fun s v => { s with Thresholds := v }),
  fld .string "type" false (·.Type_) (fun s v => { s with Type_ := v }),
  fld (.ptr .string) "unit" true (·.Unit) (fun s v => { s with Unit := v })]

def ValueMapFields : List (JsonField ValueMap) := [
  fld .string "op" false (·.Op) (fun s v => { s with Op := v }),
  fld .string "text" false (·.TextType) (fun s v => { s with TextType := v }),
  fld .string "value" false (·.Value) (fun s v => { s with Value := v })]

def GaugeFields : List (JsonField Gauge) := [
  fld .float32 "maxValue" false (·.MaxValue) (fun s v => { s with MaxValue := v }),
  fld .float32 "minValue" false (·.MinValue) (fun s v => { s with MinValue := v }),
  fld .bool "show" false (·.Show) (fun s v => { s with Show := v }),
  fld .bool "thresholdLabels" false (·.ThresholdLabels)
    (fun s v => { s with ThresholdLabels := v }),
  fld .bool "thresholdMarkers" false (·.ThresholdMarkers)
    (fun s v => { s with ThresholdMarkers := v })]

def SparkLineFields : List (JsonField SparkLine) := [
  fld (.ptr .string) "fillColor" true (·.FillColor) (fun s v => { s with FillColor := v }),
  fld .bool "full" true (·.Full) (fun s v => { s with Full := v }),
  fld (.ptr .string) "lineColor" true (·.LineColor) (fun s v => { s with LineColor := v }),
  fld .bool "show" true (·.Show) (fun s v => { s with Show := v }),
  fld (.ptr .float64) "ymin" true (·.YMin) (fun s v => { s with YMin := v }),
  fld (.ptr .float64) "ymax" true (·.YMax) (fun s v => { s with YMax := v })]

def MetricFields : List (JsonField Metric) := [
  fld .string "id" false (·.ID) (fun s v => { s with ID := v }),
  fld .string "field" false (·.Field) (fun s v => { s with Field := v }),
  fld .string "type" false (·.Type_) (fun s v => { s with Type_ := v })]

def SettingsTypeFields : List (JsonField SettingsType) := [
  fld .string "interval" true (·.Interval) (fun s v => { s with Interval := v }),
  fld .int "min_doc_count" false (·.MinDocCount) (fun s v => { s with MinDocCount := v }),
  fld .string "order" true (·.Order) (fun s v => { s with Order := v }),
  fld .string "orderBy" true (·.OrderBy) (fun s v => { s with OrderBy := v }),
  fld .string "size" true (·.Size) (fun s v => { s with Size := v })]

def BucketAggFields : List (JsonField BucketAgg) := [
  fld .string "id" false (·.ID) (fun s v => { s with ID := v }),
  fld .string "field" false (·.Field) (fun s v => { s with Field := v }),
  fld .string "type" false (·.Type_) (fun s v => { s with Type_ := v }),
  fld (.struct {} SettingsTypeFields) "settings" false (·.Settings)
    (fun s v => { s with Settings := v })]

def StackdriverAlignOptionFields : List (JsonField StackdriverAlignOption) := [
  fld .string "label" false (·.Label) (fun s v => { s with Label := v }),
  fld (.slice .string) "metricKinds" false (·.MetricKinds)
    (fun s v => { s with MetricKinds := v }),
  fld .string "text" false (·.Text) (fun s v => { s with Text := v }),
  fld .string "value" false (·.Value) (fun s v => { s with Value := v }),
  fld (.slice .string) "valueTypes" false (·.ValueTypes) (fun s v => { s with ValueTypes := v })]

def StackdriverAlignOptionsFields : List (JsonField StackdriverAlignOptions) := [
  fld .bool "expanded" false (·.Expanded) (fun s v => { s with Expanded := v }),
  fld .string "label" false (·.Label) (fun s v => { s with Label := v }),
  fld (.slice (.struct {} StackdriverAlignOptionFields)) "options" false (·.Options)
    (fun s v => { s with Options := v })]

def TargetFields : List (JsonField Target) := [
  fld .string "refId" false (·.RefID) (fun s v => { s with RefID := v }),
  fld .string "datasource" true (·.Datasource) (fun s v => { s with Datasource := v }),
  fld (.ptr .bool) "hide" true (·.Hide) (fun s v => { s with Hide := v }),
  fld .string "expr" true (·.Expr) (fun s v => { s with Expr := v }),
  fld .int "intervalFactor" true (·.IntervalFactor) (fun s v => { s with IntervalFactor := v }),
  fld .string "interval" true (·.Interval) (fun s v => { s with Interval := v }),
  fld .int "step" true (·.Step) (fun s v => { s with Step := v }),
  fld .string "legendFormat" true (·.LegendFormat) (fun s v => { s with LegendFormat := v }),
  fld .bool "instant" true (·.Instant) (fun s v => { s with Instant := v }),
  fld .string "format" true (·.Format) (fun s v => { s with Format := v }),
  fld (.ptr .string) "dsType" true (·.DsType) (fun s v => { s with DsType := v }),
  fld (.slice (.struct {} MetricFields)) "metrics" true (·.Metrics)
    (fun s v => { s with Metrics := v }),
  fld .string "query" true (·.Query) (fun s v => { s with Query := v }),
  fld .string "alias" true (·.Alias) (fun s v => { s with Alias := v }),
  fld (.ptr .external) "rawQuery" true (·.RawQuery) (fun s v => { s with RawQuery := v }),
  fld .string "timeField" true (·.TimeField) (fun s v => { s with TimeField := v }),
  fld (.slice (.struct {} BucketAggFields)) "bucketAggs" true (·.BucketAggs)
    (fun s v => { s with BucketAggs := v }),
  fld .string "target" true (·.Target) (fun s v => { s with Target := v }),
  fld .string "namespace" true (·.Namespace) (fun s v => { s with Namespace := v }),
  fld .string "metricName" true (·.MetricName) (fun s v => { s with MetricName := v }),
  fld (.slice .string) "statistics" true (·.Statistics) (fun s v => { s with Statistics := v }),
  fld (.map .string) "dimensions" true (·.Dimensions) (fun s v => { s with Dimensions := v }),
  fld .string "period" true (·.Period) (fun s v => { s with Period := v }),
  fld .string "region" true (·.Region) (fun s v => { s with Region := v }),
  fld (.slice (.struct {} StackdriverAlignOptionsFields)) "alignOptions" true (·.AlignOptions)
    (fun s v => { s with AlignOptions := v }),
  fld .string "aliasBy" true (·.AliasBy) (fun s v => { s with AliasBy := v }),
  fld .string "metricType" true (·.MetricType) (fun s v => { s with MetricType := v }),
  fld .string "metricKind" true (·.MetricKind) (fun s v => { s with MetricKind := v }),
  fld (.slice .string) "filters" true (·.Filters) (fun s v => { s with Filters := v }),
  fld .string "alignmentPeriod" true (·.AlignmentPeriod)
    (fun s v => { s with AlignmentPeriod := v }),
  fld .string "crossSeriesReducer" true (·.CrossSeriesReducer)
    (fun s v => { s with CrossSeriesReducer := v }),
  fld .string "perSeriesAligner" true (·.PerSeriesAligner)
    (fun s v => { s with PerSeriesAligner := v }),
  fld .string "valueType" true (·.ValueType) (fun s v => { s with ValueType := v }),
  fld (.slice .string) "groupBys" true (·.GroupBys) (fun s v => { s with GroupBys := v }),
  fld .string "data" true (·.Data) (fun s v => { s with Data := v }),
  fld .string "type" true (·.Type_) (fun s v => { s with Type_ := v })]

def MapTypeFields : List (JsonField MapType) := [
  fld (.ptr .string) "name" true (·.Name) (fun s v => { s with Name := v }),
  fld (.ptr .int) "value" true (·.Value) (fun s v => { s with Value := v })]

def RangeMapFields : List (JsonField RangeMap) := [
  fld (.ptr .string) "from" true (·.From) (fun s v => { s with From := v }),
  fld (.ptr .string) "text" true (·.Text) (fun s v => { s with Text := v }),
  fld (.ptr .string) "to" true (·.To) (fun s v => { s with To := v })]

def GraphPanelFields : List (JsonField GraphPanel) := [
  fld .iface "aliasColors" false (·.AliasColors) (fun s v => { s with AliasColors := v }),
  fld .bool "bars" false (·.Bars) (fun s v => { s with Bars := v }),
  fld (.ptr .uint) "dashLength" true (·.DashLength) (fun s v => { s with DashLength := v }),
  fld (.ptr .bool) "dashes" true (·.Dashes) (fun s v => { s with Dashes := v }),
  fld (.ptr .uint) "decimals" true (·.Decimals) (fun s v => { s with Decimals := v }),
  fld .int "fill" false (·.Fill) (fun s v => { s with Fill := v }),
  fld (.struct {} LegendFields) "legend" true (·.Legend) (fun s v => { s with Legend := v }),
  fld (.ptr .string) "leftYAxisLabel" true (·.LeftYAxisLabel)
    (fun s v => { s with LeftYAxisLabel := v }),
  fld .bool "lines" false (·.Lines) (fun s v => { s with Lines := v }),
  fld .uint "linewidth" false (·.Linewidth) (fun s v => { s with Linewidth := v }),
  fld .string "nullPointMode" false (·.NullPointMode) (fun s v => { s with NullPointMode := v }),
  fld .bool "percentage" false (·.Percentage) (fun s v => { s with Percentage := v }),
  fld .float32 "pointradius" false (·.Pointradius) (fun s v => { s with Pointradius := v }),
  fld .bool "points" false (·.Points) (fun s v => { s with Points := v }),
  fld (.ptr .string) "rightYAxisLabel" true (·.RightYAxisLabel)
    (fun s v => { s with RightYAxisLabel := v }),
  fld (.slice (.struct {} SeriesOverrideFields)) "seriesOverrides" true (·.SeriesOverrides)
    (fun s v => { s with SeriesOverrides := v }),
  fld (.ptr .uint) "spaceLength" true (·.SpaceLength) (fun s v => { s with SpaceLength := v }),
  fld .bool "stack" false (·.Stack) (fun s v => { s with Stack := v }),
  fld .bool "steppedLine" false (·.SteppedLine) (fun s v => { s with SteppedLine := v }),
  fld (.slice (.struct {} TargetFields)) "targets" true (·.Targets)
    (fun s v => { s with Targets := v }),
  fld (.slice (.struct {} ThresholdFields)) "thresholds" true (·.Thresholds)
    (fun s v => { s with Thresholds := v }),
  fld (.ptr .string) "timeFrom" true (·.TimeFrom) (fun s v => { s with TimeFrom := v }),
  fld (.ptr .string) "timeShift" true (·.TimeShift) (fun s v => { s with TimeShift := v }),
  fld (.struct {} TooltipFields) "tooltip" false (·.Tooltip) (fun s v => { s with Tooltip := v }),
  fld .bool "x-axis" true (·.XAxis) (fun s v => { s with XAxis := v }),
  fld .bool "y-axis" true (·.YAxis) (fun s v => { s with YAxis := v }),
  fld (.slice .string) "y_formats" true (·.YFormats) (fun s v => { s with YFormats := v }),
  fld (.struct {} AxisFields) "xaxis" false (·.Xaxis) (fun s v => { s with Xaxis := v }),
  fld (.slice (.struct {} AxisFields)) "yaxes" false (·.Yaxes) (fun s v => { s with Yaxes := v })]

def TablePanelFields : List (JsonField TablePanel) := [
  fld (.slice (.struct {} ColumnFields)) "columns" false (·.Columns)
    (fun s v => { s with Columns := v }),
  fld (.ptr (.struct {} Sort_Fields)) "sort" true (·.Sort_) (fun s v => { s with Sort_ := v }),
  fld (.slice (.struct {} ColumnStyleFields)) "styles" false (·.Styles)
    (fun s v => { s with Styles := v }),
  fld .string "transform" false (·.Transform) (fun s v => { s with Transform := v }),
  fld (.slice (.struct {} TargetFields)) "targets" true (·.Targets)
    (fun s v => { s with Targets := v }),
  fld .bool "scroll" false (·.Scroll) (fun s v => { s with Scroll := v })]

def TextPanelFields : List (JsonField TextPanel) := [
  fld .string "content" false (·.Content) (fun s v => { s with Content := v }),
  fld .string "mode" false (·.Mode) (fun s v => { s with Mode := v }),
  fld .uint "pageSize" true (·.PageSize) (fun s v => { s with PageSize := v }),
  fld .bool "scroll" true (·.Scroll) (fun s v => { s with Scroll := v }),
  fld .bool "showHeader" true (·.ShowHeader) (fun s v => { s with ShowHeader := v }),
  fld (.ptr (.struct {} Sort_Fields)) "sort" true (·.Sort_) (fun s v => { s with Sort_ := v }),
  fld (.slice (.struct {} ColumnStyleFields)) "styles" true (·.Styles)
    (fun s v => { s with Styles := v })]

def SinglestatPanelFields : List (JsonField SinglestatPanel) := [
  fld (.slice .string) "colors" false (·.Colors) (fun s v => { s with Colors := v }),
  fld .bool "colorValue" false (·.ColorValue) (fun s v => { s with ColorValue := v }),
  fld .bool "colorBackground" false (·.ColorBackground)
    (fun s v => { s with ColorBackground := v }),
  fld .bool "colorPostfix" false (·.ColorPostfix) (fun s v => { s with ColorPostfix := v }),
  fld .bool "colorPrefix" false (·.ColorPrefix) (fun s v => { s with ColorPrefix := v }),
  fld .int "decimals" false (·.Decimals) (fun s v => { s with Decimals := v }),
  fld .string "format" false (·.Format) (fun s v => { s with Format := v }),
  fld (.struct {} GaugeFields) "gauge" true (·.Gauge) (fun s v => { s with Gauge := v }),
  fld (.ptr .uint) "mappingType" true (·.MappingType) (fun s v => { s with MappingType := v }),
  fld (.slice (.ptr (.struct {} MapTypeFields))) "mappingTypes" true (·.MappingTypes)
    (fun s v => { s with MappingTypes := v }),
  fld (.ptr .external) "maxDataPoints" true (·.MaxDataPoints)
    (fun s v => { s with MaxDataPoints := v }),
  fld .string "nullPointMode" false (·.NullPointMode) (fun s v => { s with NullPointMode := v }),
  fld (.ptr .string) "postfix" true (·.Postfix) (fun s v => { s with Postfix := v }),
  fld (.ptr .string) "postfixFontSize" true (·.PostfixFontSize)
    (fun s v => { s with PostfixFontSize := v }),
  fld (.ptr .string) "prefix" true (·.Prefix) (fun s v => { s with Prefix := v }),
  fld (.ptr .string) "prefixFontSize" true (·.PrefixFontSize)
    (fun s v => { s with PrefixFontSize := v }),
  fld (.slice (.ptr (.struct {} RangeMapFields))) "rangeMaps" true (·.RangeMaps)
    (fun s v => { s with RangeMaps := v }),
  fld (.struct {} SparkLineFields) "sparkline" true (·.SparkLine)
    (fun s v => { s with SparkLine := v }),
  fld (.slice (.struct {} TargetFields)) "targets" true (·.Targets)
    (fun s v => { s with Targets := v }),
  fld .string "thresholds" false (·.Thresholds) (fun s v => { s with Thresholds := v }),
  fld .string "valueFontSize" false (·.ValueFontSize) (fun s v => { s with ValueFontSize := v }),
  fld (.slice (.struct {} ValueMapFields)) "valueMaps" false (·.ValueMaps)
    (fun s v => { s with ValueMaps := v }),
  fld .string "valueName" false (·.ValueName) (fun s v => { s with ValueName := v })]

def DashlistPanelFields : List (JsonField DashlistPanel) := [
  fld .string "mode" false (·.Mode) (fun s v => { s with Mode := v }),
  fld .uint "limit" false (·.Limit) (fun s v => { s with Limit := v }),
  fld .string "query" false (·.Query) (fun s v => { s with Query := v }),
  fld (.slice .string) "tags" false (·.Tags) (fun s v => { s with Tags := v })]

def PluginlistPanelFields : List (JsonField PluginlistPanel) := [
  fld .int "limit" true (·.Limit) (fun s v => { s with Limit := v })]

def AlertlistPanelFields : List (JsonField AlertlistPanel) := [
  fld .bool "onlyAlertsOnDashboard" false (·.OnlyAlertsOnDashboard)
    (fun s v => { s with OnlyAlertsOnDashboard := v }),
  fld .string "show" false (·.Show) (fun s v => { s with Show := v }),
  fld .int "sortOrder" false (·.SortOrder) (fun s v => { s with SortOrder := v }),
  fld .int "limit" false (·.Limit) (fun s v => { s with Limit := v }),
  fld (.slice .string) "stateFilter" false (·.StateFilter)
    (fun s v => { s with StateFilter := v }),
  fld .string "nameFilter" true (·.NameFilter) (fun s v => { s with NameFilter := v }),
  fld (.slice .string) "dashboardTags" true (·.DashboardTags)
    (fun s v => { s with DashboardTags := v })]

/-! ## Constructors -/

def newTrue : Ptr Bool := some true

def newFalse : Ptr Bool := some false

/-- The title a constructor stores: `"Panel Title"` in place of the empty string. -/
def titleOrDefault (title : String) : String :=
  if title = "" then "Panel Title" else title

def NewDashlist (title : String) : Panel :=
  let title := titleOrDefault title
  let render := "flot"
  .mk { OfType := DashlistType, Title := title, Type_ := "dashlist", Renderer := some render,
        IsNew := newTrue }
    none none none none (some {}) none none none none

def NewGraph (title : String) : Panel :=
  let title := titleOrDefault title
  let render := "flot"
  .mk { OfType := GraphType, Title := title, Type_ := "graph", Renderer := some render,
        Span := .int 12, IsNew := newTrue }
    (some { NullPointMode := "connected", Pointradius := .int 5, XAxis := true, YAxis := true })
    none none none none none none none none

def NewTable (title : String) : Panel :=
  let title := titleOrDefault title
  let render := "flot"
  .mk { OfType := TableType, Title := title, Type_ := "table", Renderer := some render,
        IsNew := newTrue }
    none (some {}) none none none none none none none

def NewText (title : String) : Panel :=
  let title := titleOrDefault title
  let render := "flot"
  .mk { OfType := TextType, Title := title, Type_ := "text", Renderer := some render,
        IsNew := newTrue }
    none none (some {}) none none none none none none

def NewSinglestat (title : String) : Panel :=
  let title := titleOrDefault title
  let render := "flot"
  .mk { OfType := SinglestatType, Title := title, Type_ := "singlestat",
        Renderer := some render, IsNew := newTrue }
    none none none (some {}) none none none none none

def NewPluginlist (title : String) : Panel :=
  let title := titleOrDefault title
  let render := "flot"
  .mk { OfType := PluginlistType, Title := title, Type_ := "pluginlist",
        Renderer := some render, IsNew := newTrue }
    none none none none none (some {}) none none none

def NewAlertlist (title : String) : Panel :=
  let title := titleOrDefault title
  let render := "flot"
  .mk { OfType := AlertlistType, Title := title, Type_ := "alertlist",
        Renderer := some render, IsNew := newTrue }
    none none none none none none none (some {}) none

def NewCustom (title : String) : Panel :=
  let title := titleOrDefault title
  let render := "flot"
  .mk { OfType := CustomType, Title := title, Type_ := "singlestat",
        Renderer := some render, IsNew := newTrue }
    none none none none none none none none (some (some []))

/-! ## Target lists -/

/-- The panic of a field access through a nil pointer. -/
def nilDeref : String := "invalid memory address or nil pointer dereference"

/-- First byte of the UTF-8 encoding of a code point. -/
def utf8FirstByte (c : Char) : Nat :=
  if c.toNat < 0x80 then c.toNat
  else if c.toNat < 0x800 then 0xC0 + c.toNat / 0x40
  else if c.toNat < 0x10000 then 0xE0 + c.toNat / 0x1000
  else 0xF0 + c.toNat / 0x40000

/-- The function `incRefID`: `refID[0]` is the first byte of the string, and indexing
the empty string panics. -/
def incRefID (refID : String) : Res String :=
  match refID.data with
  | [] => .fault "index out of range [0] with length 0"
  | c :: _ =>
    let firstLetter := utf8FirstByte c
    let ordinal := firstLetter + 1
    .ok (String.mk [Char.ofNat ordinal])

/-- The switch on `p.OfType` that every target helper ends with: `f` runs on the
target list of the graph, singlestat or table panel, and no other kind is touched. -/
def Panel.onTargets (f : Slice Target → Res (Slice Target)) : Panel → Res Panel
  | .mk c g t x s d l r a cu =>
    if c.OfType = GraphType then
      match g with
      | none => .fault nilDeref
      | some gp => (f gp.Targets).bind fun ts =>
          .ok (.mk c (some { gp with Targets := ts }) t x s d l r a cu)
    else if c.OfType = SinglestatType then
      match s with
      | none => .fault nilDeref
      | some sp => (f sp.Targets).bind fun ts =>
          .ok (.mk c g t x (some { sp with Targets := ts }) d l r a cu)
    else if c.OfType = TableType then
      match t with
      | none => .fault nilDeref
      | some tp => (f tp.Targets).bind fun ts =>
          .ok (.mk c g (some { tp with Targets := ts }) x s d l r a cu)
    else .ok (.mk c g t x s d l r a cu)

def Panel.ResetTargets (p : Panel) : Res Panel :=
  p.onTargets fun _ => .ok none

/-- The method `AddTarget`; the argument is the target `*t` of a non-nil pointer. -/
def Panel.AddTarget (p : Panel) (t : Target) : Res Panel :=
  p.onTargets fun targets => .ok (some (targets.elems ++ [t]))

/-- The scan of the closure `setTarget`: the list with the first target of the same
`RefID` replaced, or `none` when the loop ends without a match. -/
def setTargetScan (t : Target) : List Target → Option (List Target)
  | [] => none
  | target :: rest =>
    if t.RefID = target.RefID then some (t :: rest)
    else (setTargetScan t rest).map (target :: ·)

/-- The closure `setTarget` of `SetTarget`. -/
def setTarget (t : Target) (targets : Slice Target) : Slice Target :=
  match setTargetScan t targets.elems with
  | some replaced => some replaced
  | none => some (targets.elems ++ [t])

def Panel.SetTarget (p : Panel) (t : Target) : Res Panel :=
  p.onTargets fun targets => .ok (setTarget t targets)

/-- Inner loop of the closure `repeatDS`, over the datasource names, on the state
`(refID, *targets)`. -/
def repeatDSNames (target : Target) :
    List String → String × List Target → Res (String × List Target)
  | [], st => .ok st
  | ds :: rest, (refID, targets) =>
    let newTarget := { target with RefID := refID, Datasource := ds }
    match incRefID refID with
    | .ok next => repeatDSNames target rest (next, targets ++ [newTarget])
    | .err e => .err e
    | .fault w => .fault w

/-- Outer loop of the closure `repeatDS`, over the original targets. -/
def repeatDSTargets (dsNames : List String) :
    List Target → String × List Target → Res (String × List Target)
  | [], st => .ok st
  | target :: rest, st =>
    match repeatDSNames target dsNames st with
    | .ok st' => repeatDSTargets dsNames rest st'
    | .err e => .err e
    | .fault w => .fault w

/-- The closure `repeatDS` of `RepeatDatasourcesForEachTarget`. -/
def repeatDS (dsNames : List String) (targets : Slice Target) : Res (Slice Target) :=
  let refID := "A"
  let originalTargets := targets.elems
  let cleanedTargets : List Target := []
  (repeatDSTargets dsNames originalTargets (refID, cleanedTargets)).bind fun st => .ok (some st.2)

def Panel.RepeatDatasourcesForEachTarget (p : Panel) (dsNames : List String) : Res Panel :=
  p.onTargets (repeatDS dsNames)

/-- The loop of the closure `repeatTarget` from index `i` on, on the state
`(*targets, lastRefID)`. -/
def repeatTargetLoop (lenTargets : Nat) :
    List String → Nat → List Target × String → Res (List Target × String)
  | [], _, st => .ok st
  | name :: rest, i, (targets, lastRefID) =>
    if i < lenTargets then
      match targets.get? i with
      | none => .fault "index out of range"
      | some target =>
        repeatTargetLoop lenTargets rest (i + 1)
          (targets.set i { target with Datasource := name }, target.RefID)
    else if lenTargets = 0 then .fault "integer divide by zero"
    else
      match targets.get? (i % lenTargets) with
      | none => .fault "index out of range"
      | some newTarget =>
        match incRefID lastRefID with
        | .ok next =>
          repeatTargetLoop lenTargets rest (i + 1)
            (targets ++ [{ newTarget with RefID := next, Datasource := name }], next)
        | .err e => .err e
        | .fault w => .fault w

/-- The closure `repeatTarget` of `RepeatTargetsForDatasources`. -/
def repeatTarget (dsNames : List String) (targets : Slice Target) : Res (Slice Target) :=
  let lastRefID := ""
  let lenTargets := targets.elems.length
  (repeatTargetLoop lenTargets dsNames 0 (targets.elems, lastRefID)).bind fun st =>
    .ok (targets.map fun _ => st.1)

def Panel.RepeatTargetsForDatasources (p : Panel) (dsNames : List String) : Res Panel :=
  p.onTargets (repeatTarget dsNames)

/-- The method `GetTargets`: the list behind the returned pointer, `none` for the nil
pointer. -/
def Panel.GetTargets (p : Panel) : Res (Option (Slice Target)) :=
  if p.OfType = GraphType then
    match p.GraphPanel with
    | none => .fault nilDeref
    | some gp => .ok (some gp.Targets)
  else if p.OfType = SinglestatType then
    match p.SinglestatPanel with
    | none => .fault nilDeref
    | some sp => .ok (some sp.Targets)
  else if p.OfType = TableType then
    match p.TablePanel with
    | none => .fault nilDeref
    | some tp => .ok (some tp.Targets)
  else .ok none

/-! ## Decoding -/

/-- The body of `Panel.UnmarshalJSON` on the well-formed text `b`, given the outcome
`row` of the call `json.Unmarshal(b, &row)` of the case `"row"`: the receiver after the
call, and the returned error. -/
def unmarshalBody (b : JSON) (p : Panel) (row : Except String (RowPanel Panel)) :
    Panel × Option String :=
  match decodeStruct CommonPanelFields b {} with
  | .error e => (p, some e)
  | .ok probe =>
    match p with
    | .mk _ g t x s d l r a cu =>
      if probe.Type_ = "graph" then
        match decodeStruct GraphPanelFields b {} with
        | .ok graph => (.mk { probe with OfType := GraphType } (some graph) t x s d l r a cu, none)
        | .error e => (.mk { probe with OfType := GraphType } g t x s d l r a cu, some e)
      else if probe.Type_ = "table" then
        match decodeStruct TablePanelFields b {} with
        | .ok table => (.mk { probe with OfType := TableType } g (some table) x s d l r a cu, none)
        | .error e => (.mk { probe with OfType := TableType } g t x s d l r a cu, some e)
      else if probe.Type_ = "text" then
        match decodeStruct TextPanelFields b {} with
        | .ok text => (.mk { probe with OfType := TextType } g t (some text) s d l r a cu, none)
        | .error e => (.mk { probe with OfType := TextType } g t x s d l r a cu, some e)
      else if probe.Type_ = "singlestat" then
        match decodeStruct SinglestatPanelFields b {} with
        | .ok singlestat =>
          (.mk { probe with OfType := SinglestatType } g t x (some singlestat) d l r a cu, none)
        | .error e => (.mk { probe with OfType := SinglestatType } g t x s d l r a cu, some e)
      else if probe.Type_ = "dashlist" then
        match decodeStruct DashlistPanelFields b {} with
        | .ok dashlist =>
          (.mk { probe with OfType := DashlistType } g t x s (some dashlist) l r a cu, none)
        | .error e => (.mk { probe with OfType := DashlistType } g t x s d l r a cu, some e)
      else if probe.Type_ = "row" then
        match row with
        | .ok row => (.mk { probe with OfType := RowType } g t x s d l (some row) a cu, none)
        | .error e => (.mk { probe with OfType := RowType } g t x s d l r a cu, some e)
      else
        match (Codec.map Codec.iface).dec b (some []) with
        | .ok custom =>
          (.mk { probe with OfType := CustomType } g t x s d l r a (some custom), none)
        | .error e => (.mk { probe with OfType := CustomType } g t x s d l r a cu, some e)

/-! ## Decoding -/

mutual
/-- The call `json.Unmarshal(b, &row)` on an object with the members `kvs`: the one
field of `RowPanel` is `panels`, whose elements are decoded by `Panel.UnmarshalJSON`. -/
def decodeRowMembers :
    List (String × JSON) → RowPanel Panel → Except String (RowPanel Panel)
  | [], row => .ok row
  | (k, v) :: rest, row =>
    if k == "panels" || foldEq k "panels" then
      match v with
      | .null => decodeRowMembers rest { row with Panels := none }
      | .arr xs =>
        match decodePanelElems xs (Slice.elems row.Panels) with
        | .error e => .error e
        | .ok ps => decodeRowMembers rest { row with Panels := some ps }
      | _ => .error "json: cannot unmarshal into Go struct field RowPanel.panels"
    else decodeRowMembers rest row
/-- Elements of the `panels` array: null gives a nil pointer, any other element is
handed to `UnmarshalJSON` of the panel the slice holds at that index, or of a new one. -/
def decodePanelElems : List JSON → List (Option Panel) → Except String (List (Option Panel))
  | [], _ => .ok []
  | x :: xs, cur =>
    match x with
    | .null =>
      match decodePanelElems xs cur.tail with
      | .error e => .error e
      | .ok ps => .ok (none :: ps)
    | _ =>
      match unmarshalValue x ((cur.headD none).getD Panel.zero) with
      | (_, some e) => .error e
      | (q, none) =>
        match decodePanelElems xs cur.tail with
        | .error e => .error e
        | .ok ps => .ok (some q :: ps)
/-- The method `UnmarshalJSON` on a well-formed text: the receiver after the call and
the returned error. -/
def unmarshalValue : JSON → Panel → Panel × Option String
  | .obj kvs, p => unmarshalBody (.obj kvs) p (decodeRowMembers kvs {})
  | .null, p => unmarshalBody .null p (.ok {})
  | j, p => unmarshalBody j p (.error "json: cannot unmarshal into Go value of type sdk.RowPanel")
end

/-- The method `Panel.UnmarshalJSON` on the receiver `p`: the receiver after the call
and the returned error. A text that is not well-formed JSON fails in the probe. -/
def Panel.UnmarshalJSON (p : Panel) (b : Doc) : Panel × Option String :=
  match b with
  | none => (p, some "invalid character looking for beginning of value")
  | some j => unmarshalValue j p

/-! ## Encoding -/

/-- The order in which a `range` over a map visits the entries. Go leaves the order
unspecified, so it is an input of the model: a rearrangement of the entries. -/
structure RangeOrder where
  visit : List (String × Interface) → List (String × Interface)
  perm : ∀ l, (visit l).Perm l

/-- A key that `customPanelOutput.MarshalJSON` can write between two quotes as it is:
no quote, no backslash and no control character. -/
def rawKeyOK (k : String) : Bool :=
  k.data.all fun c => decide (0x20 ≤ c.toNat) && c.toNat != 0x22 && c.toNat != 0x5C

/-- The method `customPanelOutput.MarshalJSON`: the members of the common panel, then
one member per entry of the map in the order of the `range`. The keys are written
without escaping; the model covers the keys of `rawKeyOK`, and reports the text built
from any other key as rejected by the validity check of `json.Marshal`. -/
def customPanelOutput.MarshalJSON (ord : RangeOrder) (c : CommonPanel) (m : CustomPanel) :
    Res JSON :=
  let entries := ord.visit (m.getD [])
  if entries.all (fun kv => rawKeyOK kv.1) then
    .ok (.obj (encodeFields CommonPanelFields c ++ entries))
  else .err "json: error calling MarshalJSON for type sdk.customPanelOutput: invalid character"

/-- The error that `json.Marshal` returns when `MarshalJSON` of a nested panel fails. -/
def marshalerError (e : String) : String :=
  "json: error calling MarshalJSON for type *sdk.Panel: " ++ e

/-- The body of `Panel.MarshalJSON`: the switch on `p.OfType`. Each case dereferences
the pointer of its kind and encodes the struct that embeds the common panel and the
payload; `nested` is the outcome of encoding the elements of `Panels`, which
`json.Marshal` needs for a row whose field `panels` (tag `omitempty`) is not empty. -/
def marshalBody (ord : RangeOrder) (p : Panel) (nested : Res (List JSON)) : Res JSON :=
  match p with
  | .mk c g t x s d l r a cu =>
    if c.OfType = GraphType then
      match g with
      | none => .fault nilDeref
      | some gp => .ok (.obj (encodeFields CommonPanelFields c ++ encodeFields GraphPanelFields gp))
    else if c.OfType = TableType then
      match t with
      | none => .fault nilDeref
      | some tp => .ok (.obj (encodeFields CommonPanelFields c ++ encodeFields TablePanelFields tp))
    else if c.OfType = TextType then
      match x with
      | none => .fault nilDeref
      | some xp => .ok (.obj (encodeFields CommonPanelFields c ++ encodeFields TextPanelFields xp))
    else if c.OfType = SinglestatType then
      match s with
      | none => .fault nilDeref
      | some sp =>
        .ok (.obj (encodeFields CommonPanelFields c ++ encodeFields SinglestatPanelFields sp))
    else if c.OfType = DashlistType then
      match d with
      | none => .fault nilDeref
      | some dp =>
        .ok (.obj (encodeFields CommonPanelFields c ++ encodeFields DashlistPanelFields dp))
    else if c.OfType = PluginlistType then
      match l with
      | none => .fault nilDeref
      | some lp =>
        .ok (.obj (encodeFields CommonPanelFields c ++ encodeFields PluginlistPanelFields lp))
    else if c.OfType = AlertlistType then
      match a with
      | none => .fault nilDeref
      | some ap =>
        .ok (.obj (encodeFields CommonPanelFields c ++ encodeFields AlertlistPanelFields ap))
    else if c.OfType = RowType then
      match r with
      | none => .fault nilDeref
      | some row =>
        if (Slice.elems row.Panels).isEmpty then .ok (.obj (encodeFields CommonPanelFields c))
        else
          match nested with
          | .ok js => .ok (.obj (encodeFields CommonPanelFields c ++ [("panels", .arr js)]))
          | .err e => .err e
          | .fault w => .fault w
    else if c.OfType = CustomType then
      match cu with
      | none => .fault nilDeref
      | some m => customPanelOutput.MarshalJSON ord c m
    else .err "can't marshal unknown panel type"

/-- The elements of `p.RowPanel.Panels`; none when the row pointer or the slice is nil. -/
def Panel.nestedPanels : Panel → List (Option Panel)
  | .mk _ _ _ _ _ _ _ (some ⟨some ps, _⟩) _ _ => ps
  | _ => []

mutual
/-- The method `Panel.MarshalJSON`. -/
def Panel.MarshalJSON (ord : RangeOrder) : Panel → Res JSON
  | .mk c g t x s d l (some ⟨some ps, ca⟩) a cu =>
    marshalBody ord (.mk c g t x s d l (some ⟨some ps, ca⟩) a cu) (marshalPanels ord ps)
  | .mk c g t x s d l (some ⟨none, ca⟩) a cu =>
    marshalBody ord (.mk c g t x s d l (some ⟨none, ca⟩) a cu) (.ok [])
  | .mk c g t x s d l none a cu =>
    marshalBody ord (.mk c g t x s d l none a cu) (.ok [])
/-- The elements of the field `panels` of a row: a nil pointer is written as null, any
other element by its `MarshalJSON`, whose error ends the encoding. -/
def marshalPanels (ord : RangeOrder) : List (Option Panel) → Res (List JSON)
  | [] => .ok []
  | none :: rest =>
    match marshalPanels ord rest with
    | .ok js => .ok (.null :: js)
    | .err e => .err e
    | .fault w => .fault w
  | some q :: rest =>
    match Panel.MarshalJSON ord q with
    | .ok j =>
      match marshalPanels ord rest with
      | .ok js => .ok (j :: js)
      | .err e => .err e
      | .fault w => .fault w
    | .err e => .err (marshalerError e)
    | .fault w => .fault w
end

/-- The `range` that visits the entries in the order of their keys. -/
def RangeOrder.byKey : RangeOrder := ⟨id, fun _ => List.Perm.refl _⟩

/-- The `range` that visits the entries in the reverse order of their keys. -/
def RangeOrder.reversed : RangeOrder := ⟨List.reverse, fun l => List.reverse_perm l⟩

/-! ## Vocabulary of the properties -/

/-- The tag that the switch of `UnmarshalJSON` assigns to `p.OfType` in the case that
the decoded `type` selects. -/
def switchTag (type_ : String) : panelType :=
  if type_ = "graph" then GraphType
  else if type_ = "table" then TableType
  else if type_ = "text" then TextType
  else if type_ = "singlestat" then SinglestatType
  else if type_ = "dashlist" then DashlistType
  else if type_ = "row" then RowType
  else CustomType

/-- The call `json.Unmarshal(b, &row)` of the case `"row"` on a well-formed text. -/
def unmarshalRow (b : JSON) : Except String (RowPanel Panel) :=
  match b with
  | .obj kvs => decodeRowMembers kvs {}
  | .null => .ok {}
  | _ => .error "json: cannot unmarshal into Go value of type sdk.RowPanel"

/-- The variant pointer that a tag names is populated: the pointer that `MarshalJSON`
dereferences for that tag is not nil. No pointer belongs to a tag outside the nine. -/
def Panel.has (p : Panel) (tag : panelType) : Bool :=
  if tag = GraphType then p.GraphPanel.isSome
  else if tag = TableType then p.TablePanel.isSome
  else if tag = TextType then p.TextPanel.isSome
  else if tag = SinglestatType then p.SinglestatPanel.isSome
  else if tag = DashlistType then p.DashlistPanel.isSome
  else if tag = PluginlistType then p.PluginlistPanel.isSome
  else if tag = AlertlistType then p.AlertlistPanel.isSome
  else if tag = RowType then p.RowPanel.isSome
  else if tag = CustomType then p.CustomPanel.isSome
  else false

/-- Exactly one variant pointer is populated, and it is the one that `OfType` names. -/
def Panel.OneVariant (p : Panel) : Prop := ∀ tag, p.has tag = true ↔ tag = p.OfType

/-- Encoding followed by decoding: `MarshalJSON` of the panel, and `UnmarshalJSON` of
the returned text on a zero panel. -/
def decodeEncoded (ord : RangeOrder) (p : Panel) : Res (Panel × Option String) :=
  (Panel.MarshalJSON ord p).bind fun j => .ok (Panel.UnmarshalJSON Panel.zero (some j))

/-- A panel survives encoding and decoding: `MarshalJSON` returns a text, and
`UnmarshalJSON` of that text returns no error and gives the panel back. -/
def RoundTrips (ord : RangeOrder) (p : Panel) : Prop :=
  decodeEncoded ord p = .ok (p, none)

/-- The identifier that `incRefID` reaches after `k` steps from `"A"`. -/
def refLetter (k : Nat) : String := String.mk [Char.ofNat (65 + k)]

/-- The discriminator that an object carries, read from the members `kvs` with `cur`
as the value so far: the string of the last member whose key is `type`, in any letter
case, and whose value is a string. -/
def docTypeFrom : List (String × JSON) → String → String
  | [], cur => cur
  | (k, v) :: rest, cur =>
    if foldEq k "type" then
      match v with
      | .str s => docTypeFrom rest s
      | _ => docTypeFrom rest cur
    else docTypeFrom rest cur

/-- The `type` string of an object; the empty string when the object has none. -/
def docType (kvs : List (String × JSON)) : String := docTypeFrom kvs ""

/-- The value that an object gives for a key: that of the last member with the key. -/
def lastValue (k : String) (kvs : List (String × JSON)) : Option JSON :=
  lookupKey k kvs.reverse

/-- The members that every constructor panel is encoded with first: the common fields
that the constructors set, under the stored title and the given `type`. -/
def constructorMembers (title type_ : String) : List (String × JSON) :=
  [("gridPos", .obj []), ("id", .num (.int 0)), ("title", .str title), ("type", .str type_),
   ("isNew", .bool true), ("renderer", .str "flot")]

/-- The text of a panel of `NewGraph` with the stored title. -/
def graphDoc (title : String) : JSON :=
  .obj (constructorMembers title "graph" ++
    [("span", .num (.int 12)), ("aliasColors", .null), ("bars", .bool false),
     ("fill", .num (.int 0)),
     ("legend", .obj [("alignAsTable", .bool false), ("avg", .bool false),
       ("current", .bool false), ("hideEmpty", .bool false), ("hideZero", .bool false),
       ("max", .bool false), ("min", .bool false), ("rightSide", .bool false),
       ("show", .bool false), ("total", .bool false), ("values", .bool false)]),
     ("lines", .bool false), ("linewidth", .num (.int 0)), ("nullPointMode", .str "connected"),
     ("percentage", .bool false), ("pointradius", .num (.int 5)), ("points", .bool false),
     ("stack", .bool false), ("steppedLine", .bool false),
     ("tooltip", .obj [("shared", .bool false), ("value_type", .str "")]),
     ("x-axis", .bool true), ("y-axis", .bool true), ("xaxis", .obj [("show", .bool false)]),
     ("yaxes", .null)])

/-- The text of a panel of `NewTable` with the stored title. -/
def tableDoc (title : String) : JSON :=
  .obj (constructorMembers title "table" ++
    [("columns", .null), ("styles", .null), ("transform", .str ""), ("scroll", .bool false)])

/-- The text of a panel of `NewText` with the stored title. -/
def textDoc (title : String) : JSON :=
  .obj (constructorMembers title "text" ++ [("content", .str ""), ("mode", .str "")])

/-- The text of a panel of `NewSinglestat` with the stored title. -/
def singlestatDoc (title : String) : JSON :=
  .obj (constructorMembers title "singlestat" ++
    [("colors", .null), ("colorValue", .bool false), ("colorBackground", .bool false),
     ("colorPostfix", .bool false), ("colorPrefix", .bool false), ("decimals", .num (.int 0)),
     ("format", .str ""),
     ("gauge", .obj [("maxValue", .num (.int 0)), ("minValue", .num (.int 0)),
       ("show", .bool false), ("thresholdLabels", .bool false),
       ("thresholdMarkers", .bool false)]),
     ("nullPointMode", .str ""), ("sparkline", .obj []), ("thresholds", .str ""),
     ("valueFontSize", .str ""), ("valueMaps", .null), ("valueName", .str "")])

/-- The text of a panel of `NewDashlist` with the stored title. -/
def dashlistDoc (title : String) : JSON :=
  .obj (constructorMembers title "dashlist" ++
    [("mode", .str ""), ("limit", .num (.int 0)), ("query", .str ""), ("tags", .null)])

/-- The text of a panel of `NewPluginlist` with the stored title. -/
def pluginlistDoc (title : String) : JSON :=
  .obj (constructorMembers title "pluginlist")

/-- The text of a panel of `NewAlertlist` with the stored title. -/
def alertlistDoc (title : String) : JSON :=
  .obj (constructorMembers title "alertlist" ++
    [("onlyAlertsOnDashboard", .bool false), ("show", .str ""), ("sortOrder", .num (.int 0)),
     ("limit", .num (.int 0)), ("stateFilter", .null)])

/-- The reference id reached from `refID` by `k` calls of `incRefID`. -/
def incRefIDTimes : Nat → String → Res String
  | 0, refID => .ok refID
  | k + 1, refID => (incRefID refID).bind (incRefIDTimes k)

/-- The ordinal of the reference id that `repeatDS` gives the clone number `k`, counted
from 0: the ids start at `"A"` and each is `incRefID` of the one before, so they run
through the ordinals 65 to 128; the first byte of the character 128 is 0xC2, which gives
195, whose first byte 0xC3 gives 196, whose first byte is 0xC3 again. -/
def fanOutOrdinal (k : Nat) : Nat :=
  if k ≤ 63 then 65 + k else if k = 64 then 195 else 196

/-- The reference id of the clone number `k` of `repeatDS`. -/
def fanOutID (k : Nat) : String := String.mk [Char.ofNat (fanOutOrdinal k)]

/-- The reference ids of the targets that `GetTargets` returns, in the order of the list;
none when it returns the nil pointer. -/
def Panel.refIDs (p : Panel) : List String :=
  match p.GetTargets with
  | .ok (some targets) => targets.elems.map fun t => t.RefID
  | _ => []

/-- The members `ms` of an object hold the four required keys with the values of the
common fields `c`. -/
def RequiredKeys (c : CommonPanel) (ms : List (String × JSON)) : Prop :=
  ("gridPos", .obj (encodeFields GridPosFields c.GridPos)) ∈ ms ∧
  ("id", .num (.int c.ID)) ∈ ms ∧ ("title", .str c.Title) ∈ ms ∧ ("type", .str c.Type_) ∈ ms

/-- The members `ms` of an object are a flat merge of the common fields `c` and of a
payload `v` with the fields `fs`: the required keys carry the values of `c`; every field
of `c` and every field of `v` that `omitempty` does not leave out is a member under its
own name, with its value; every key is the name of a field of `c` or of `v`; and no key
is written twice. -/
def FlatMerge {S : Type} (fs : List (JsonField S)) (c : CommonPanel) (v : S)
    (ms : List (String × JSON)) : Prop :=
  RequiredKeys c ms ∧
  (∀ f ∈ CommonPanelFields, (f.omitempty && f.isEmpty c) = false → (f.name, f.enc c) ∈ ms) ∧
  (∀ f ∈ fs, (f.omitempty && f.isEmpty v) = false → (f.name, f.enc v) ∈ ms) ∧
  (∀ kv ∈ ms, kv.1 ∈ CommonPanelFields.map (fun f => f.name) ∨
    kv.1 ∈ fs.map (fun f => f.name)) ∧
  (ms.map Prod.fst).Nodup

mutual
/-- Every number of the value lies within the range of `float64`. -/
def JSON.fitsFloat64 : JSON → Bool
  | .num n => (readFloat binary64 n).isSome
  | .arr xs => fitsFloat64List xs
  | .obj kvs => fitsFloat64Members kvs
  | _ => true
/-- Every number of the elements lies within the range of `float64`. -/
def fitsFloat64List : List JSON → Bool
  | [] => true
  | x :: xs => x.fitsFloat64 && fitsFloat64List xs
/-- Every number of the members lies within the range of `float64`. -/
def fitsFloat64Members : List (String × JSON) → Bool
  | [] => true
  | (_, v) :: rest => v.fitsFloat64 && fitsFloat64Members rest
end

/-- The value `w` is what an `interface{}` holds for the JSON value `j`: null, a boolean
and a string as they are, a number as the `float64` it is read as, an array element by
element, and an object as a map that has one entry for each key of the object, with what
an `interface{}` holds for the last value of that key. -/
inductive Erased : JSON → Interface → Prop where
  | null : Erased .null .null
  | bool (b : Bool) : Erased (.bool b) (.bool b)
  | str (s : String) : Erased (.str s) (.str s)
  | num (n f : JNumber) : readFloat binary64 n = some f → Erased (.num n) (.num f)
  | arr (xs : List JSON) (ys : List Interface) : xs.length = ys.length →
      (∀ (i : Nat) (x : JSON) (y : Interface), xs[i]? = some x → ys[i]? = some y → Erased x y) →
      Erased (.arr xs) (.arr ys)
  | obj (kvs : List (String × JSON)) (m : List (String × Interface)) :
      (m.map Prod.fst).Nodup →
      (∀ k, lastValue k kvs = none → lookupKey k m = none) →
      (∀ k v, lastValue k kvs = some v → ∃ w, lookupKey k m = some w) →
      (∀ k v w, lastValue k kvs = some v → lookupKey k m = some w → Erased v w) →
      Erased (.obj kvs) (.obj m)

/-! # Theorems -/

/-! ## Decoding: control flow -/

theorem unmarshalValue_eq_body (j : JSON) (p : Panel) :
    unmarshalValue j p = unmarshalBody j p (unmarshalRow j) := by
  cases j <;> rfl

theorem unmarshalBody_probe_error (b : JSON) (p : Panel) (row : Except String (RowPanel Panel))
    (e : String) (h : decodeStruct CommonPanelFields b {} = .error e) :
    unmarshalBody b p row = (p, some e) := by
  unfold unmarshalBody
  rw [h]

theorem unmarshalBody_common (b : JSON) (p : Panel) (row : Except String (RowPanel Panel))
    (probe : CommonPanel) (h : decodeStruct CommonPanelFields b {} = .ok probe) :
    (unmarshalBody b p row).1.CommonPanel = { probe with OfType := switchTag probe.Type_ } := by
  unfold unmarshalBody switchTag
  rw [h]
  cases p
  dsimp only
  split_ifs <;> (split <;> rfl)

/-- An error of `UnmarshalJSON` leaves every variant pointer of the receiver as it was. -/
theorem unmarshalBody_error_slots (b : JSON) (p : Panel) (row : Except String (RowPanel Panel))
    (e : String) (h : (unmarshalBody b p row).2 = some e) :
    (unmarshalBody b p row).1.GraphPanel = p.GraphPanel ∧
    (unmarshalBody b p row).1.TablePanel = p.TablePanel ∧
    (unmarshalBody b p row).1.TextPanel = p.TextPanel ∧
    (unmarshalBody b p row).1.SinglestatPanel = p.SinglestatPanel ∧
    (unmarshalBody b p row).1.DashlistPanel = p.DashlistPanel ∧
    (unmarshalBody b p row).1.PluginlistPanel = p.PluginlistPanel ∧
    (unmarshalBody b p row).1.RowPanel = p.RowPanel ∧
    (unmarshalBody b p row).1.AlertlistPanel = p.AlertlistPanel ∧
    (unmarshalBody b p row).1.CustomPanel = p.CustomPanel := by
  revert h
  unfold unmarshalBody
  cases p
  split
  · intro _; exact ⟨rfl, rfl, rfl, rfl, rfl, rfl, rfl, rfl, rfl⟩
  · dsimp only
    split_ifs <;> (split <;> intro h <;> first
      | exact ⟨rfl, rfl, rfl, rfl, rfl, rfl, rfl, rfl, rfl⟩
      | exact absurd h (by simp))

/-! ## Field selection -/

theorem fld_dec_ok {S α : Type} (c : Codec α) (name : String) (o : Bool) (get : S → α)
    (set : S → α → S) (v : JSON) (s s' : S) (h : (fld c name o get set).dec v s = .ok s') :
    ∃ a, c.dec v (get s) = .ok a ∧ s' = set s a := by
  unfold fld at h
  dsimp only at h
  cases hc : c.dec v (get s) with
  | error e => rw [hc] at h; cases h
  | ok a => rw [hc] at h; cases h; exact ⟨a, rfl, rfl⟩

theorem foldEq_self (k : String) : foldEq k k = true := by
  simp [foldEq]

theorem foldEq_trans_left (k a b : String) (h1 : foldEq k a = true) :
    foldEq a b = foldEq k b := by
  simp only [foldEq, beq_iff_eq] at h1
  simp only [foldEq, h1]

theorem find_some_mem {α : Type} (q : α → Bool) (l : List α) (a : α)
    (h : l.find? q = some a) : a ∈ l ∧ q a = true :=
  ⟨List.mem_of_find?_eq_some h, List.find?_some h⟩

theorem findField_some {S : Type} (fs : List (JsonField S)) (k : String) (f : JsonField S)
    (h : findField fs k = some f) : f ∈ fs ∧ foldEq k f.name = true := by
  unfold findField at h
  split at h
  · rename_i g hg
    cases h
    obtain ⟨hm, hq⟩ := find_some_mem _ _ _ hg
    refine ⟨hm, ?_⟩
    have : f.name = k := by simpa using hq
    rw [this]; exact foldEq_self k
  · exact find_some_mem _ _ _ h

theorem findField_none {S : Type} (fs : List (JsonField S)) (k : String)
    (h : findField fs k = none) : ∀ f ∈ fs, foldEq k f.name = false := by
  unfold findField at h
  split at h
  · cases h
  · intro f hf
    have := List.find?_eq_none.mp h f hf
    simpa using this

/-! ## The discriminator of a document -/

/-- Every field of `CommonPanel` other than `type` leaves `Type_` alone, and the field
`type` stores a string value and keeps the old value on null. -/
theorem commonFields_type (f : JsonField CommonPanel) (hf : f ∈ CommonPanelFields) :
    (foldEq f.name "type" = true ∧ ∀ v s s', f.dec v s = .ok s' →
        s'.Type_ = match v with
          | .str t => t
          | _ => s.Type_) ∨
    (foldEq f.name "type" = false ∧ ∀ v s s', f.dec v s = .ok s' → s'.Type_ = s.Type_) := by
  simp only [CommonPanelFields, List.mem_cons, List.mem_singleton, List.not_mem_nil,
    or_false] at hf
  rcases hf with rfl | rfl | rfl | rfl | rfl | rfl | rfl | rfl | rfl | rfl | rfl | rfl | rfl |
    rfl | rfl | rfl | rfl | rfl | rfl | rfl | rfl | rfl
  case inr.inr.inr.inl =>
    left
    refine ⟨rfl, ?_⟩
    intro v s s' h
    obtain ⟨a, ha, rfl⟩ := fld_dec_ok _ _ _ _ _ _ _ _ h
    cases v <;> simp [Codec.string] at ha <;> subst ha <;> rfl
  all_goals
    right
    refine ⟨rfl, ?_⟩
    intro v s s' h
    obtain ⟨a, -, rfl⟩ := fld_dec_ok _ _ _ _ _ _ _ _ h
    rfl

theorem decodeMembers_type (kvs : List (String × JSON)) (s probe : CommonPanel)
    (h : decodeMembers CommonPanelFields kvs s = .ok probe) :
    probe.Type_ = docTypeFrom kvs s.Type_ := by
  induction kvs generalizing s with
  | nil =>
    simp only [decodeMembers] at h
    cases h
    rfl
  | cons kv rest ih =>
    obtain ⟨k, v⟩ := kv
    simp only [decodeMembers] at h
    unfold docTypeFrom
    cases hff : findField CommonPanelFields k with
    | none =>
      rw [hff] at h
      dsimp only at h
      have hno := findField_none _ _ hff _
        (show fld Codec.string "type" false (·.Type_) (fun s v => { s with Type_ := v })
          ∈ CommonPanelFields by simp [CommonPanelFields])
      have hno' : foldEq k "type" = false := hno
      rw [hno']
      exact ih s h
    | some f =>
      rw [hff] at h
      dsimp only at h
      obtain ⟨hm, hk⟩ := findField_some _ _ _ hff
      cases hd : f.dec v s with
      | error e => rw [hd] at h; dsimp only at h; cases h
      | ok s' =>
        rw [hd] at h
        dsimp only at h
        have hrest := ih s' h
        have hfold : foldEq f.name "type" = foldEq k "type" := foldEq_trans_left k f.name "type" hk
        rcases commonFields_type f hm with ⟨ht, hval⟩ | ⟨ht, hval⟩
        · rw [hfold] at ht
          rw [ht]
          have := hval v s s' hd
          cases v <;> simp only [if_true] <;> rw [hrest, this]
        · rw [hfold] at ht
          rw [ht]
          rw [hrest, hval v s s' hd]
          simp

/-- The `type` that the probe decodes is the `type` string of the document. -/
theorem probe_type_eq_docType (kvs : List (String × JSON)) (probe : CommonPanel)
    (h : decodeStruct CommonPanelFields (.obj kvs) {} = .ok probe) :
    probe.Type_ = docType kvs :=
  decodeMembers_type kvs {} probe h

/-! ## The custom bag -/

theorem decodeEntries_iface (kvs : List (String × JSON)) (acc : List (String × Interface)) :
    decodeEntries Codec.iface kvs acc = toInterfaceMap kvs acc := by
  induction kvs generalizing acc with
  | nil => rfl
  | cons kv rest ih =>
    obtain ⟨k, v⟩ := kv
    simp only [decodeEntries, toInterfaceMap, Codec.iface]
    cases toInterface v with
    | error e => rfl
    | ok w => exact ih _

theorem lookupKey_mapInsert {V : Type} (k k' : String) (v : V) (l : List (String × V)) :
    lookupKey k (mapInsert k' v l) = if k = k' then some v else lookupKey k l := by
  induction l with
  | nil => simp [mapInsert, lookupKey]
  | cons kv rest ih =>
    obtain ⟨k2, v2⟩ := kv
    unfold mapInsert
    by_cases h1 : k' = k2
    · subst h1
      simp only [if_true, lookupKey]
      by_cases h0 : k = k' <;> simp [h0]
    · simp only [h1, if_false]
      by_cases h2 : keyLt k' k2 = true
      · simp only [h2, if_true, lookupKey]
      · simp only [h2, lookupKey, ih]
        by_cases h3 : k = k2
        · subst h3
          have : ¬ k = k' := fun h => h1 h.symm
          simp [this]
        · simp [h3]

theorem lookupKey_append {V : Type} (k : String) (l1 l2 : List (String × V)) :
    lookupKey k (l1 ++ l2) = (lookupKey k l1).orElse fun _ => lookupKey k l2 := by
  induction l1 with
  | nil => simp [lookupKey]
  | cons kv rest ih =>
    obtain ⟨k2, v2⟩ := kv
    simp only [List.cons_append, lookupKey]
    by_cases h : k = k2
    · simp [h]
    · simp [h, ih]

theorem lastValue_cons (k k0 : String) (v0 : JSON) (rest : List (String × JSON)) :
    lastValue k ((k0, v0) :: rest)
      = (lastValue k rest).orElse fun _ => if k = k0 then some v0 else none := by
  unfold lastValue
  rw [List.reverse_cons, lookupKey_append]
  rfl

/-! ### The order of the keys of a map -/

theorem runesLt_irrefl (a : List Char) : runesLt a a = false := by
  induction a with
  | nil => rfl
  | cons c rest ih =>
    unfold runesLt
    rw [if_neg (Nat.lt_irrefl _), if_neg (Nat.lt_irrefl _)]
    exact ih

theorem runesLt_trans (a b c : List Char) (h1 : runesLt a b = true) (h2 : runesLt b c = true) :
    runesLt a c = true := by
  induction a generalizing b c with
  | nil =>
    cases b with
    | nil => cases h1
    | cons y ys =>
      cases c with
      | nil => cases h2
      | cons z zs => rfl
  | cons x xs ih =>
    cases b with
    | nil => cases h1
    | cons y ys =>
      cases c with
      | nil => cases h2
      | cons z zs =>
        unfold runesLt at h1 h2 ⊢
        by_cases hxy : x.toNat < y.toNat
        · by_cases hyz : y.toNat < z.toNat
          · rw [if_pos (Nat.lt_trans hxy hyz)]
          · rw [if_neg hyz] at h2
            by_cases hzy : z.toNat < y.toNat
            · rw [if_pos hzy] at h2; cases h2
            · have : x.toNat < z.toNat := by omega
              rw [if_pos this]
        · rw [if_neg hxy] at h1
          by_cases hyx : y.toNat < x.toNat
          · rw [if_pos hyx] at h1; cases h1
          · rw [if_neg hyx] at h1
            by_cases hyz : y.toNat < z.toNat
            · have : x.toNat < z.toNat := by omega
              rw [if_pos this]
            · rw [if_neg hyz] at h2
              by_cases hzy : z.toNat < y.toNat
              · rw [if_pos hzy] at h2; cases h2
              · rw [if_neg hzy] at h2
                have h3 : ¬ x.toNat < z.toNat := by omega
                have h4 : ¬ z.toNat < x.toNat := by omega
                rw [if_neg h3, if_neg h4]
                exact ih ys zs h1 h2

theorem runesLt_total (a b : List Char) (h1 : runesLt a b = false) (h2 : runesLt b a = false) :
    a = b := by
  induction a generalizing b with
  | nil =>
    cases b with
    | nil => rfl
    | cons y ys => cases h1
  | cons x xs ih =>
    cases b with
    | nil => cases h2
    | cons y ys =>
      unfold runesLt at h1 h2
      by_cases hxy : x.toNat < y.toNat
      · rw [if_pos hxy] at h1; cases h1
      · rw [if_neg hxy] at h1
        by_cases hyx : y.toNat < x.toNat
        · rw [if_pos hyx] at h2; cases h2
        · rw [if_neg hyx] at h1
          rw [if_neg hyx, if_neg hxy] at h2
          have hc : x = y := Char.ext (UInt32.ext (by
            show x.toNat = y.toNat
            omega))
          rw [hc, ih ys h1 h2]

/-- The entries of a map are in the strict order of their keys. -/
theorem mapInsert_sorted {V : Type} (k : String) (v : V) (l : List (String × V))
    (h : l.Pairwise fun a b => keyLt a.1 b.1 = true) :
    (mapInsert k v l).Pairwise fun a b => keyLt a.1 b.1 = true := by
  induction l with
  | nil => exact List.pairwise_singleton _ _
  | cons kv rest ih =>
    obtain ⟨k2, v2⟩ := kv
    rw [List.pairwise_cons] at h
    obtain ⟨hhead, htail⟩ := h
    unfold mapInsert
    by_cases h1 : k = k2
    · rw [if_pos h1, List.pairwise_cons]
      subst h1
      exact ⟨hhead, htail⟩
    · rw [if_neg h1]
      by_cases h2 : keyLt k k2 = true
      · rw [if_pos h2, List.pairwise_cons]
        refine ⟨?_, List.pairwise_cons.mpr ⟨hhead, htail⟩⟩
        intro a ha
        rcases List.mem_cons.mp ha with rfl | ha
        · exact h2
        · exact runesLt_trans _ _ _ h2 (hhead a ha)
      · rw [if_neg h2, List.pairwise_cons]
        refine ⟨?_, ih htail⟩
        intro a ha
        have hk : keyLt k2 k = true := by
          cases h3 : keyLt k2 k with
          | true => rfl
          | false =>
            have h2' : keyLt k k2 = false := by simpa using h2
            exact absurd (String.ext (runesLt_total _ _ h2' h3)) h1
        have hmem : a.1 = k ∨ a ∈ rest := by
          clear ih hhead htail h1 h2 hk
          induction rest with
          | nil =>
            simp only [mapInsert, List.mem_singleton] at ha
            left; rw [ha]
          | cons kv3 rest3 ih3 =>
            obtain ⟨k3, v3⟩ := kv3
            unfold mapInsert at ha
            by_cases e1 : k = k3
            · rw [if_pos e1] at ha
              rcases List.mem_cons.mp ha with rfl | ha
              · left; rfl
              · right; exact List.mem_cons_of_mem _ ha
            · rw [if_neg e1] at ha
              by_cases e2 : keyLt k k3 = true
              · rw [if_pos e2] at ha
                rcases List.mem_cons.mp ha with rfl | ha
                · left; rfl
                · right; exact ha
              · rw [if_neg e2] at ha
                rcases List.mem_cons.mp ha with rfl | ha
                · right; exact List.mem_cons_self _ _
                · rcases ih3 ha with h | h
                  · left; exact h
                  · right; exact List.mem_cons_of_mem _ h
        rcases hmem with h | h
        · rw [h]; exact hk
        · exact hhead a h

theorem sorted_nodup {V : Type} (l : List (String × V))
    (h : l.Pairwise fun a b => keyLt a.1 b.1 = true) : (l.map Prod.fst).Nodup := by
  rw [List.Nodup, List.pairwise_map]
  refine h.imp ?_
  intro a b hab heq
  rw [heq] at hab
  unfold keyLt at hab
  rw [runesLt_irrefl] at hab
  cases hab

theorem toInterfaceMap_sorted (kvs : List (String × JSON)) (acc m : List (String × Interface))
    (h : toInterfaceMap kvs acc = .ok m)
    (hacc : acc.Pairwise fun a b => keyLt a.1 b.1 = true) :
    m.Pairwise fun a b => keyLt a.1 b.1 = true := by
  induction kvs generalizing acc with
  | nil =>
    unfold toInterfaceMap at h
    cases h
    exact hacc
  | cons kv rest ih =>
    obtain ⟨k, v⟩ := kv
    unfold toInterfaceMap at h
    cases hv : toInterface v with
    | error e => rw [hv] at h; cases h
    | ok w =>
      rw [hv] at h
      exact ih _ h (mapInsert_sorted k w acc hacc)

/-! ### What an `interface{}` holds -/

theorem toInterface_null : toInterface .null = .ok .null := rfl

theorem toInterface_bool (b : Bool) : toInterface (.bool b) = .ok (.bool b) := rfl

theorem toInterface_str (s : String) : toInterface (.str s) = .ok (.str s) := rfl

theorem toInterface_num (n : JNumber) :
    toInterface (.num n) =
      match readFloat binary64 n with
      | some f => .ok (.num f)
      | none => .error "json: cannot unmarshal number into Go value of type float64" := rfl

theorem toInterface_arr (xs : List JSON) :
    toInterface (.arr xs) =
      match toInterfaceList xs with
      | .ok ys => .ok (.arr ys)
      | .error e => .error e := rfl

theorem toInterface_obj (kvs : List (String × JSON)) :
    toInterface (.obj kvs) =
      match toInterfaceMap kvs [] with
      | .ok m => .ok (.obj m)
      | .error e => .error e := rfl

theorem toInterfaceList_cons (x : JSON) (xs : List JSON) :
    toInterfaceList (x :: xs) =
      match toInterface x with
      | .error e => .error e
      | .ok y =>
        match toInterfaceList xs with
        | .ok ys => .ok (y :: ys)
        | .error e => .error e := rfl

theorem toInterfaceMap_cons (k : String) (v : JSON) (rest : List (String × JSON))
    (acc : List (String × Interface)) :
    toInterfaceMap ((k, v) :: rest) acc =
      match toInterface v with
      | .error e => .error e
      | .ok w => toInterfaceMap rest (mapInsert k w acc) := rfl

mutual
/-- What `toInterface` returns is what an `interface{}` holds for the value. -/
theorem erased_of_toInterface :
    ∀ (j : JSON) (w : Interface), toInterface j = .ok w → Erased j w
  | .null, w, h => by
    rw [toInterface_null] at h
    cases h
    exact .null
  | .bool b, w, h => by
    rw [toInterface_bool] at h
    cases h
    exact .bool b
  | .str s, w, h => by
    rw [toInterface_str] at h
    cases h
    exact .str s
  | .num n, w, h => by
    rw [toInterface_num] at h
    cases hf : readFloat binary64 n with
    | none => rw [hf] at h; cases h
    | some f =>
      rw [hf] at h
      cases h
      exact .num n f hf
  | .arr xs, w, h => by
    rw [toInterface_arr] at h
    cases hl : toInterfaceList xs with
    | error e => rw [hl] at h; cases h
    | ok ys =>
      rw [hl] at h
      cases h
      have := erasedList_of_toInterface xs ys hl
      exact .arr xs ys this.1 this.2
  | .obj kvs, w, h => by
    rw [toInterface_obj] at h
    cases hm : toInterfaceMap kvs [] with
    | error e => rw [hm] at h; cases h
    | ok m =>
      rw [hm] at h
      cases h
      have hk := erasedMap_of_toInterface kvs [] m hm
      refine .obj kvs m (sorted_nodup m (toInterfaceMap_sorted kvs [] m hm List.Pairwise.nil))
        ?_ ?_ ?_
      · intro k hnone
        rw [(hk k).1 hnone]
        rfl
      · intro k v hv
        obtain ⟨w, hw, -⟩ := (hk k).2 v hv
        exact ⟨w, hw⟩
      · intro k v w hv hw
        obtain ⟨w', hw', he⟩ := (hk k).2 v hv
        rw [hw] at hw'
        cases hw'
        exact he
/-- Elementwise. -/
theorem erasedList_of_toInterface :
    ∀ (xs : List JSON) (ys : List Interface), toInterfaceList xs = .ok ys →
      xs.length = ys.length ∧
      ∀ (i : Nat) (x : JSON) (y : Interface), xs[i]? = some x → ys[i]? = some y → Erased x y
  | [], ys, h => by
    have h' : Except.ok [] = Except.ok ys := h
    cases h'
    exact ⟨rfl, fun i x y hx _ => (by simp at hx)⟩
  | x :: xs, ys, h => by
    rw [toInterfaceList_cons] at h
    cases hx : toInterface x with
    | error e => rw [hx] at h; cases h
    | ok y =>
      rw [hx] at h
      dsimp only at h
      cases hl : toInterfaceList xs with
      | error e => rw [hl] at h; cases h
      | ok ys' =>
        rw [hl] at h
        cases h
        have hhead := erased_of_toInterface x y hx
        have htail := erasedList_of_toInterface xs ys' hl
        refine ⟨by simp [htail.1], ?_⟩
        intro i a b ha hb
        cases i with
        | zero =>
          simp only [List.getElem?_cons_zero, Option.some.injEq] at ha hb
          subst ha
          subst hb
          exact hhead
        | succ i' =>
          simp only [List.getElem?_cons_succ] at ha hb
          exact htail.2 i' a b ha hb
/-- Member by member, into the map `acc`. -/
theorem erasedMap_of_toInterface :
    ∀ (kvs : List (String × JSON)) (acc m : List (String × Interface)),
      toInterfaceMap kvs acc = .ok m →
      ∀ k, (lastValue k kvs = none → lookupKey k m = lookupKey k acc) ∧
        ∀ v, lastValue k kvs = some v → ∃ w, lookupKey k m = some w ∧ Erased v w
  | [], acc, m, h => by
    have h' : Except.ok acc = Except.ok m := h
    cases h'
    intro k
    exact ⟨fun _ => rfl, fun v hv => (by cases hv)⟩
  | (k0, v0) :: rest, acc, m, h => by
    rw [toInterfaceMap_cons] at h
    cases hv0 : toInterface v0 with
    | error e => rw [hv0] at h; cases h
    | ok w0 =>
      rw [hv0] at h
      dsimp only at h
      have hhead := erased_of_toInterface v0 w0 hv0
      have htail := erasedMap_of_toInterface rest (mapInsert k0 w0 acc) m h
      intro k
      rw [lastValue_cons]
      cases hl : lastValue k rest with
      | some v =>
        refine ⟨fun hn => (by cases hn), ?_⟩
        intro v' hv'
        have : v = v' := by simpa using hv'
        subst this
        exact (htail k).2 v hl
      | none =>
        have hm := (htail k).1 hl
        rw [lookupKey_mapInsert] at hm
        by_cases hk : k = k0
        · rw [if_pos hk] at hm
          refine ⟨fun hn => (by simp [hk] at hn), ?_⟩
          intro v' hv'
          have : v0 = v' := by simpa [hk] using hv'
          subst this
          exact ⟨w0, hm, hhead⟩
        · rw [if_neg hk] at hm
          refine ⟨fun _ => hm, ?_⟩
          intro v' hv'
          simp [hk] at hv'
end

mutual
/-- The decoding into an `interface{}` fails on the numbers beyond `float64` only. -/
theorem toInterface_ok_iff : ∀ (j : JSON), (∃ w, toInterface j = .ok w) ↔ j.fitsFloat64 = true
  | .null => ⟨fun _ => rfl, fun _ => ⟨_, rfl⟩⟩
  | .bool _ => ⟨fun _ => rfl, fun _ => ⟨_, rfl⟩⟩
  | .str _ => ⟨fun _ => rfl, fun _ => ⟨_, rfl⟩⟩
  | .num n => by
    rw [toInterface_num]
    show _ ↔ (readFloat binary64 n).isSome = true
    cases readFloat binary64 n with
    | none => exact ⟨fun ⟨w, h⟩ => (by cases h), fun h => (by cases h)⟩
    | some f => exact ⟨fun _ => rfl, fun _ => ⟨_, rfl⟩⟩
  | .arr xs => by
    rw [toInterface_arr]
    show _ ↔ fitsFloat64List xs = true
    rw [← toInterfaceList_ok_iff xs]
    cases toInterfaceList xs with
    | error e => exact ⟨fun ⟨w, h⟩ => (by cases h), fun ⟨w, h⟩ => (by cases h)⟩
    | ok ys => exact ⟨fun _ => ⟨_, rfl⟩, fun _ => ⟨_, rfl⟩⟩
  | .obj kvs => by
    rw [toInterface_obj]
    show _ ↔ fitsFloat64Members kvs = true
    rw [← toInterfaceMap_ok_iff kvs []]
    cases toInterfaceMap kvs [] with
    | error e => exact ⟨fun ⟨w, h⟩ => (by cases h), fun ⟨w, h⟩ => (by cases h)⟩
    | ok m => exact ⟨fun _ => ⟨_, rfl⟩, fun _ => ⟨_, rfl⟩⟩
/-- Elementwise. -/
theorem toInterfaceList_ok_iff :
    ∀ (xs : List JSON), (∃ ys, toInterfaceList xs = .ok ys) ↔ fitsFloat64List xs = true
  | [] => ⟨fun _ => rfl, fun _ => ⟨_, rfl⟩⟩
  | x :: xs => by
    rw [toInterfaceList_cons]
    show _ ↔ (x.fitsFloat64 && fitsFloat64List xs) = true
    rw [Bool.and_eq_true, ← toInterface_ok_iff x, ← toInterfaceList_ok_iff xs]
    cases toInterface x with
    | error e => exact ⟨fun ⟨w, h⟩ => (by cases h), fun ⟨⟨w, h⟩, _⟩ => (by cases h)⟩
    | ok y =>
      dsimp only
      cases toInterfaceList xs with
      | error e => exact ⟨fun ⟨w, h⟩ => (by cases h), fun ⟨_, ⟨w, h⟩⟩ => (by cases h)⟩
      | ok ys => exact ⟨fun _ => ⟨⟨_, rfl⟩, ⟨_, rfl⟩⟩, fun _ => ⟨_, rfl⟩⟩
/-- Member by member. -/
theorem toInterfaceMap_ok_iff :
    ∀ (kvs : List (String × JSON)) (acc : List (String × Interface)),
      (∃ m, toInterfaceMap kvs acc = .ok m) ↔ fitsFloat64Members kvs = true
  | [], _ => ⟨fun _ => rfl, fun _ => ⟨_, rfl⟩⟩
  | (k, v) :: rest, acc => by
    rw [toInterfaceMap_cons]
    show _ ↔ (v.fitsFloat64 && fitsFloat64Members rest) = true
    rw [Bool.and_eq_true, ← toInterface_ok_iff v]
    cases toInterface v with
    | error e => exact ⟨fun ⟨w, h⟩ => (by cases h), fun ⟨⟨w, h⟩, _⟩ => (by cases h)⟩
    | ok w =>
      dsimp only
      rw [toInterfaceMap_ok_iff rest (mapInsert k w acc)]
      exact ⟨fun h => ⟨⟨_, rfl⟩, h⟩, fun h => h.2⟩
end

/-- The default case of the switch on an object: the bag is the map of the members, and
the only error is the one of a number beyond `float64`. -/
theorem unmarshalBody_default (kvs : List (String × JSON)) (p : Panel)
    (row : Except String (RowPanel Panel)) (probe : CommonPanel)
    (h : decodeStruct CommonPanelFields (.obj kvs) {} = .ok probe)
    (hty : switchTag probe.Type_ = CustomType) :
    (∀ m, toInterfaceMap kvs [] = .ok m →
      (unmarshalBody (.obj kvs) p row).2 = none ∧
      (unmarshalBody (.obj kvs) p row).1.CustomPanel = some (some m)) ∧
    (∀ e, toInterfaceMap kvs [] = .error e →
      (unmarshalBody (.obj kvs) p row).2 = some e) := by
  have hdec : (Codec.map Codec.iface).dec (.obj kvs) (some [])
      = (toInterfaceMap kvs []).map some := by
    show (decodeEntries Codec.iface kvs []).map some = _
    rw [decodeEntries_iface]
  revert hty
  unfold unmarshalBody switchTag
  rw [h]
  cases p
  dsimp only
  split_ifs <;> intro hty <;> first
    | exact absurd hty (by decide)
    | (rw [hdec]
       refine ⟨?_, ?_⟩
       · intro m hm
         rw [hm]
         exact ⟨rfl, rfl⟩
       · intro e he
         rw [he]
         rfl)

theorem switchTag_custom_of_not_mem (t : String)
    (h : t ∉ ["graph", "table", "text", "singlestat", "dashlist", "row"]) :
    switchTag t = CustomType := by
  simp only [List.mem_cons, List.mem_singleton, List.not_mem_nil, or_false, not_or] at h
  obtain ⟨h1, h2, h3, h4, h5, h6⟩ := h
  simp [switchTag, h1, h2, h3, h4, h5, h6]

/-! ## Claims on decoding -/

/-- C1 (counterexample): the common fields of `{"type":"heatmap","huge":1e400}` parse, and
its `type` is in no case of the switch, yet `UnmarshalJSON` returns an error: the default
case decodes every member into an `interface{}`, and `1e400` is beyond `float64`. -/
theorem unknown_type_can_fail :
    decodeStruct CommonPanelFields
        (.obj [("type", .str "heatmap"), ("huge", .num (.real false 1 400))]) {}
      = .ok { Type_ := "heatmap" } ∧
    docType [("type", .str "heatmap"), ("huge", .num (.real false 1 400))] = "heatmap" ∧
    (Panel.zero.UnmarshalJSON
      (some (.obj [("type", .str "heatmap"), ("huge", .num (.real false 1 400))]))).1.OfType
        = CustomType ∧
    (Panel.zero.UnmarshalJSON
      (some (.obj [("type", .str "heatmap"), ("huge", .num (.real false 1 400))]))).2.isSome
        = true :=
  ⟨rfl, by decide, rfl, rfl⟩

/-- C1 (amended): for every object document whose common fields parse, `UnmarshalJSON` sets
the tag `OfType` from the `type` string of the document by the table `"graph"`, `"table"`,
`"text"`, `"singlestat"`, `"dashlist"`, `"row"`; every other value, a missing type,
`"pluginlist"` and `"alertlist"` included, gives `CustomType`, and then an error is
returned only when a number of the document is beyond the range of `float64`. -/
theorem decode_tag_by_type (p : Panel) (kvs : List (String × JSON)) (probe : CommonPanel)
    (hprobe : decodeStruct CommonPanelFields (.obj kvs) {} = .ok probe) :
    (docType kvs = "graph" → (p.UnmarshalJSON (some (.obj kvs))).1.OfType = GraphType) ∧
    (docType kvs = "table" → (p.UnmarshalJSON (some (.obj kvs))).1.OfType = TableType) ∧
    (docType kvs = "text" → (p.UnmarshalJSON (some (.obj kvs))).1.OfType = TextType) ∧
    (docType kvs = "singlestat" →
      (p.UnmarshalJSON (some (.obj kvs))).1.OfType = SinglestatType) ∧
    (docType kvs = "dashlist" → (p.UnmarshalJSON (some (.obj kvs))).1.OfType = DashlistType) ∧
    (docType kvs = "row" → (p.UnmarshalJSON (some (.obj kvs))).1.OfType = RowType) ∧
    (docType kvs ∉ ["graph", "table", "text", "singlestat", "dashlist", "row"] →
      (p.UnmarshalJSON (some (.obj kvs))).1.OfType = CustomType ∧
      ((p.UnmarshalJSON (some (.obj kvs))).2 = none ↔ fitsFloat64Members kvs = true)) := by
  have hty := probe_type_eq_docType kvs probe hprobe
  have htag : (p.UnmarshalJSON (some (.obj kvs))).1.OfType = switchTag (docType kvs) := by
    show (unmarshalValue (.obj kvs) p).1.CommonPanel.OfType = _
    rw [unmarshalValue_eq_body, unmarshalBody_common _ _ _ probe hprobe, hty]
  refine ⟨?_, ?_, ?_, ?_, ?_, ?_, ?_⟩
  · intro h; rw [htag, h]; rfl
  · intro h; rw [htag, h]; rfl
  · intro h; rw [htag, h]; rfl
  · intro h; rw [htag, h]; rfl
  · intro h; rw [htag, h]; rfl
  · intro h; rw [htag, h]; rfl
  · intro h
    have hc := switchTag_custom_of_not_mem _ h
    refine ⟨by rw [htag, hc], ?_⟩
    show (unmarshalValue (.obj kvs) p).2 = none ↔ _
    rw [unmarshalValue_eq_body, ← toInterfaceMap_ok_iff kvs []]
    have hd := unmarshalBody_default kvs p (unmarshalRow (.obj kvs)) probe hprobe
      (by rw [hty, hc])
    cases hm : toInterfaceMap kvs [] with
    | ok m => exact ⟨fun _ => ⟨m, rfl⟩, fun _ => (hd.1 m hm).1⟩
    | error e =>
      refine ⟨fun hn => ?_, fun ⟨m, hm'⟩ => (by cases hm')⟩
      rw [hd.2 e hm] at hn
      cases hn

theorem decode_tag_by_type_witness :
    decodeStruct CommonPanelFields (.obj [("type", .str "pluginlist"), ("id", .num (.int 7))]) {}
      = .ok { Type_ := "pluginlist", ID := 7 } ∧
    (Panel.zero.UnmarshalJSON
      (some (.obj [("type", .str "pluginlist"), ("id", .num (.int 7))]))).1.OfType = CustomType ∧
    ((Panel.zero.UnmarshalJSON
      (some (.obj [("type", .str "pluginlist"), ("id", .num (.int 7))]))).2 = none ↔
      fitsFloat64Members [("type", .str "pluginlist"), ("id", .num (.int 7))] = true) :=
  ⟨rfl, (decode_tag_by_type Panel.zero [("type", .str "pluginlist"), ("id", .num (.int 7))]
    { Type_ := "pluginlist", ID := 7 } rfl).2.2.2.2.2.2 (by decide)⟩

/-- C4 (counterexample): the document `{"type":"heatmap","n":12345678901234567890}` is
decoded to a custom panel whose bag holds, under `n`, the `float64` nearest to the number,
which `json.Marshal` writes as `12345678901234567000`: not the value of the document. The
document `{"type":"heatmap","a":[1e999]}` is not decoded at all: `1e999` is beyond
`float64`, and `UnmarshalJSON` returns an error. -/
theorem custom_bag_rounds_numbers :
    Panel.zero.UnmarshalJSON
        (some (.obj [("type", .str "heatmap"), ("n", .num (.int 12345678901234567890))]))
      = (Panel.mk { OfType := CustomType, Type_ := "heatmap" } none none none none none none
          none none
          (some (some [("n", .num (.int 12345678901234567000)), ("type", .str "heatmap")])),
        none) ∧
    (Panel.zero.UnmarshalJSON
      (some (.obj [("type", .str "heatmap"),
        ("a", .arr [.num (.real false 1 999)])]))).2.isSome = true :=
  ⟨rfl, rfl⟩

/-- C4 (amended): for every object document whose common fields parse and whose `type`
string is none of `"graph"`, `"table"`, `"text"`, `"singlestat"`, `"dashlist"`, `"row"`:
when every number of the document lies within the range of `float64`, `UnmarshalJSON`
returns no error and gives a panel with the tag `CustomType` whose bag has one entry for
each top-level key of the document, the common keys included, and no other entry; the
entry holds what an `interface{}` holds for the last value of the key (a number as the
nearest `float64`, an array element by element, an object as a map). When a number of the
document is beyond `float64`, it returns an error. -/
theorem decode_custom_bag (p : Panel) (kvs : List (String × JSON)) (probe : CommonPanel)
    (hprobe : decodeStruct CommonPanelFields (.obj kvs) {} = .ok probe)
    (hty : docType kvs ∉ ["graph", "table", "text", "singlestat", "dashlist", "row"]) :
    (p.UnmarshalJSON (some (.obj kvs))).1.OfType = CustomType ∧
    (fitsFloat64Members kvs = true →
      ∃ bag : List (String × Interface),
        (p.UnmarshalJSON (some (.obj kvs))).2 = none ∧
        (p.UnmarshalJSON (some (.obj kvs))).1.CustomPanel = some (some bag) ∧
        (bag.map Prod.fst).Nodup ∧
        (∀ k, lastValue k kvs = none → lookupKey k bag = none) ∧
        (∀ k v, lastValue k kvs = some v → ∃ w, lookupKey k bag = some w ∧ Erased v w)) ∧
    (fitsFloat64Members kvs = false →
      (p.UnmarshalJSON (some (.obj kvs))).2.isSome = true) := by
  have hc := switchTag_custom_of_not_mem _ hty
  have hpt := probe_type_eq_docType kvs probe hprobe
  have htag : (p.UnmarshalJSON (some (.obj kvs))).1.OfType = CustomType := by
    show (unmarshalValue (.obj kvs) p).1.CommonPanel.OfType = _
    rw [unmarshalValue_eq_body, unmarshalBody_common _ _ _ probe hprobe, hpt, hc]
  have hb : p.UnmarshalJSON (some (.obj kvs))
      = unmarshalBody (.obj kvs) p (unmarshalRow (.obj kvs)) := unmarshalValue_eq_body _ p
  have hd := unmarshalBody_default kvs p (unmarshalRow (.obj kvs)) probe hprobe
    (by rw [hpt, hc])
  refine ⟨htag, ?_, ?_⟩
  · intro hfit
    obtain ⟨m, hm⟩ := (toInterfaceMap_ok_iff kvs []).mpr hfit
    have hk := erasedMap_of_toInterface kvs [] m hm
    refine ⟨m, ?_, ?_, sorted_nodup m (toInterfaceMap_sorted kvs [] m hm List.Pairwise.nil),
      ?_, ?_⟩
    · rw [hb]; exact (hd.1 m hm).1
    · rw [hb]; exact (hd.1 m hm).2
    · intro k hnone
      rw [(hk k).1 hnone]
      rfl
    · intro k v hv
      exact (hk k).2 v hv
  · intro hfit
    cases hm : toInterfaceMap kvs [] with
    | ok m =>
      have := (toInterfaceMap_ok_iff kvs []).mp ⟨m, hm⟩
      rw [hfit] at this
      cases this
    | error e =>
      rw [hb, hd.2 e hm]
      rfl

theorem decode_custom_bag_witness :
    ∃ bag : List (String × Interface),
      (Panel.zero.UnmarshalJSON (some (.obj [("type", .str "heatmap"), ("id", .num (.int 7)),
        ("opts", .obj [("a", .arr [.num (.int 1), .num (.real false 5 (-1))])]),
        ("id", .num (.int 8))]))).2 = none ∧
      (Panel.zero.UnmarshalJSON (some (.obj [("type", .str "heatmap"), ("id", .num (.int 7)),
        ("opts", .obj [("a", .arr [.num (.int 1), .num (.real false 5 (-1))])]),
        ("id", .num (.int 8))]))).1.CustomPanel = some (some bag) ∧
      (bag.map Prod.fst).Nodup ∧
      (∀ k, lastValue k [("type", .str "heatmap"), ("id", .num (.int 7)),
        ("opts", .obj [("a", .arr [.num (.int 1), .num (.real false 5 (-1))])]),
        ("id", .num (.int 8))] = none → lookupKey k bag = none) ∧
      (∀ k v, lastValue k [("type", .str "heatmap"), ("id", .num (.int 7)),
        ("opts", .obj [("a", .arr [.num (.int 1), .num (.real false 5 (-1))])]),
        ("id", .num (.int 8))] = some v → ∃ w, lookupKey k bag = some w ∧ Erased v w) :=
  (decode_custom_bag Panel.zero [("type", .str "heatmap"), ("id", .num (.int 7)),
    ("opts", .obj [("a", .arr [.num (.int 1), .num (.real false 5 (-1))])]),
    ("id", .num (.int 8))] { Type_ := "heatmap", ID := 8 } rfl (by decide)).2.1 rfl

/-- C5 (counterexample): the document `{"type":"graph","fill":"x"}` decoded into the
panel `NewText "t"` returns an error, and the receiver is no longer what it was: its tag
is `GraphType` and its title is empty, while its text payload is still in place. -/
theorem decode_error_changes_receiver :
    ((NewText "t").UnmarshalJSON
      (some (.obj [("type", .str "graph"), ("fill", .str "x")]))).2.isSome = true ∧
    ((NewText "t").UnmarshalJSON
      (some (.obj [("type", .str "graph"), ("fill", .str "x")]))).1.OfType = GraphType ∧
    ((NewText "t").UnmarshalJSON
      (some (.obj [("type", .str "graph"), ("fill", .str "x")]))).1.CommonPanel.Title = "" ∧
    ((NewText "t").UnmarshalJSON
      (some (.obj [("type", .str "graph"), ("fill", .str "x")]))).1.TextPanel = some {} ∧
    ((NewText "t").UnmarshalJSON
      (some (.obj [("type", .str "graph"), ("fill", .str "x")]))).1 ≠ NewText "t" :=
  ⟨rfl, rfl, rfl, rfl, fun h => absurd (congrArg Panel.OfType h) (by decide)⟩

/-- C5 (amended): when `UnmarshalJSON` returns an error, every variant pointer of the
receiver is as it was before the call; when the error comes from the probe (the text is
not well-formed, or the common fields do not parse), the whole receiver is unchanged;
when the probe succeeds, the common fields of the receiver are those of the document and
the tag is the one of the decoded `type`. -/
theorem decode_error_keeps_variants (p : Panel) (b : Doc) (e : String)
    (herr : (p.UnmarshalJSON b).2 = some e) :
    ((p.UnmarshalJSON b).1.GraphPanel = p.GraphPanel ∧
     (p.UnmarshalJSON b).1.TablePanel = p.TablePanel ∧
     (p.UnmarshalJSON b).1.TextPanel = p.TextPanel ∧
     (p.UnmarshalJSON b).1.SinglestatPanel = p.SinglestatPanel ∧
     (p.UnmarshalJSON b).1.DashlistPanel = p.DashlistPanel ∧
     (p.UnmarshalJSON b).1.PluginlistPanel = p.PluginlistPanel ∧
     (p.UnmarshalJSON b).1.RowPanel = p.RowPanel ∧
     (p.UnmarshalJSON b).1.AlertlistPanel = p.AlertlistPanel ∧
     (p.UnmarshalJSON b).1.CustomPanel = p.CustomPanel) ∧
    (b = none → (p.UnmarshalJSON b).1 = p) ∧
    (∀ j e', b = some j → decodeStruct CommonPanelFields j {} = .error e' →
      (p.UnmarshalJSON b).1 = p) ∧
    (∀ j probe, b = some j → decodeStruct CommonPanelFields j {} = .ok probe →
      (p.UnmarshalJSON b).1.CommonPanel = { probe with OfType := switchTag probe.Type_ }) := by
  cases b with
  | none =>
    refine ⟨⟨rfl, rfl, rfl, rfl, rfl, rfl, rfl, rfl, rfl⟩, fun _ => rfl, ?_, ?_⟩
    · intro j e' h; cases h
    · intro j probe h; cases h
  | some j =>
    have hb : p.UnmarshalJSON (some j) = unmarshalBody j p (unmarshalRow j) :=
      unmarshalValue_eq_body j p
    rw [hb] at herr ⊢
    refine ⟨unmarshalBody_error_slots j p _ e herr, ?_, ?_, ?_⟩
    · intro h; cases h
    · intro j' e' hj he
      cases hj
      rw [unmarshalBody_probe_error j p _ e' he]
    · intro j' probe hj hp
      cases hj
      exact unmarshalBody_common j p _ probe hp

theorem decode_error_keeps_variants_witness :
    ((NewText "t").UnmarshalJSON
      (some (.obj [("type", .str "graph"), ("fill", .str "x")]))).1.TextPanel
        = (NewText "t").TextPanel :=
  (decode_error_keeps_variants (NewText "t")
    (some (.obj [("type", .str "graph"), ("fill", .str "x")]))
    "json: cannot unmarshal into Go value of type int" rfl).1.2.2.1

/-! ## Claims on encoding and on the round trip -/

theorem marshal_constructors (ord : RangeOrder) (title : String) :
    Panel.MarshalJSON ord (NewGraph title) = .ok (graphDoc (titleOrDefault title)) ∧
    Panel.MarshalJSON ord (NewTable title) = .ok (tableDoc (titleOrDefault title)) ∧
    Panel.MarshalJSON ord (NewText title) = .ok (textDoc (titleOrDefault title)) ∧
    Panel.MarshalJSON ord (NewSinglestat title) = .ok (singlestatDoc (titleOrDefault title)) ∧
    Panel.MarshalJSON ord (NewDashlist title) = .ok (dashlistDoc (titleOrDefault title)) ∧
    Panel.MarshalJSON ord (NewPluginlist title) = .ok (pluginlistDoc (titleOrDefault title)) ∧
    Panel.MarshalJSON ord (NewAlertlist title) = .ok (alertlistDoc (titleOrDefault title)) :=
  ⟨rfl, rfl, rfl, rfl, rfl, rfl, rfl⟩

theorem unmarshal_constructor_docs (title : String) :
    Panel.UnmarshalJSON Panel.zero (some (graphDoc (titleOrDefault title)))
      = (NewGraph title, none) ∧
    Panel.UnmarshalJSON Panel.zero (some (tableDoc (titleOrDefault title)))
      = (NewTable title, none) ∧
    Panel.UnmarshalJSON Panel.zero (some (textDoc (titleOrDefault title)))
      = (NewText title, none) ∧
    Panel.UnmarshalJSON Panel.zero (some (singlestatDoc (titleOrDefault title)))
      = (NewSinglestat title, none) ∧
    Panel.UnmarshalJSON Panel.zero (some (dashlistDoc (titleOrDefault title)))
      = (NewDashlist title, none) :=
  ⟨rfl, rfl, rfl, rfl, rfl⟩

theorem roundTrips_of (ord : RangeOrder) (p : Panel) (j : JSON)
    (h1 : Panel.MarshalJSON ord p = .ok j)
    (h2 : Panel.UnmarshalJSON Panel.zero (some j) = (p, none)) : RoundTrips ord p := by
  unfold RoundTrips decodeEncoded
  rw [h1]
  exact congrArg Res.ok h2

/-- C2 (counterexample): the panels of `NewPluginlist`, `NewAlertlist` and `NewCustom`
do not survive encoding and decoding: the decoded panel has another tag. -/
theorem constructors_not_round_trip :
    ¬ RoundTrips RangeOrder.byKey (NewPluginlist "x") ∧
    ¬ RoundTrips RangeOrder.byKey (NewAlertlist "x") ∧
    ¬ RoundTrips RangeOrder.byKey (NewCustom "x") := by
  refine ⟨?_, ?_, ?_⟩ <;> intro h <;>
    exact absurd (congrArg (fun r => match r with
      | .ok q => q.1.OfType
      | _ => 0) h) (by decide)

/-- C2 (amended): for every title, the panels of `NewGraph`, `NewTable`, `NewText`,
`NewSinglestat` and `NewDashlist` survive encoding and decoding field for field; the
panels of `NewPluginlist` and `NewAlertlist` are encoded and decoded without error, and
come back with the same common fields under the tag `CustomType`, with no plugin-list
or alert-list payload. -/
theorem constructors_round_trip (ord : RangeOrder) (title : String) :
    RoundTrips ord (NewGraph title) ∧
    RoundTrips ord (NewTable title) ∧
    RoundTrips ord (NewText title) ∧
    RoundTrips ord (NewSinglestat title) ∧
    RoundTrips ord (NewDashlist title) ∧
    (∃ q, decodeEncoded ord (NewPluginlist title) = .ok (q, none) ∧
      q.CommonPanel = { (NewPluginlist title).CommonPanel with OfType := CustomType } ∧
      q.PluginlistPanel = none ∧ q.CustomPanel.isSome = true) ∧
    (∃ q, decodeEncoded ord (NewAlertlist title) = .ok (q, none) ∧
      q.CommonPanel = { (NewAlertlist title).CommonPanel with OfType := CustomType } ∧
      q.AlertlistPanel = none ∧ q.CustomPanel.isSome = true) := by
  obtain ⟨m1, m2, m3, m4, m5, m6, m7⟩ := marshal_constructors ord title
  obtain ⟨u1, u2, u3, u4, u5⟩ := unmarshal_constructor_docs title
  refine ⟨roundTrips_of _ _ _ m1 u1, roundTrips_of _ _ _ m2 u2, roundTrips_of _ _ _ m3 u3,
    roundTrips_of _ _ _ m4 u4, roundTrips_of _ _ _ m5 u5, ?_, ?_⟩
  · refine ⟨(Panel.UnmarshalJSON Panel.zero (some (pluginlistDoc (titleOrDefault title)))).1,
      ?_, rfl, rfl, rfl⟩
    unfold decodeEncoded
    rw [m6]
    rfl
  · refine ⟨(Panel.UnmarshalJSON Panel.zero (some (alertlistDoc (titleOrDefault title)))).1,
      ?_, rfl, rfl, rfl⟩
    unfold decodeEncoded
    rw [m7]
    rfl

/-- C3: the text document `{"type":"text","content":"hi","foo":1}` is decoded without
error, but the key `foo` is not kept: the `catchall` of the text payload stays nil, and
the encoding of the decoded panel has no member `foo`. -/
theorem unknown_key_is_dropped :
    Panel.zero.UnmarshalJSON (some (.obj [("type", .str "text"), ("content", .str "hi"),
        ("foo", .num (.int 1))]))
      = (.mk { Type_ := "text", OfType := TextType } none none
          (some { Content := "hi", catchall := none }) none none none none none none, none) ∧
    Panel.MarshalJSON RangeOrder.byKey (.mk { Type_ := "text", OfType := TextType } none none
          (some { Content := "hi", catchall := none }) none none none none none none)
      = .ok (.obj [("gridPos", .obj []), ("id", .num (.int 0)), ("title", .str ""),
          ("type", .str "text"), ("content", .str "hi"), ("mode", .str "")]) ∧
    lookupKey "foo" [("gridPos", JSON.obj []), ("id", .num (.int 0)), ("title", .str ""),
          ("type", .str "text"), ("content", .str "hi"), ("mode", .str "")] = none :=
  ⟨rfl, rfl, rfl⟩

/-- C7: `MarshalJSON` of the zero value `Panel{}` does not return an error: the tag of
the zero value is `CustomType`, and the nil custom payload is dereferenced. -/
theorem encode_zero_panel_faults (ord : RangeOrder) :
    Panel.zero.OfType = CustomType ∧ Panel.MarshalJSON ord Panel.zero = .fault nilDeref :=
  ⟨rfl, rfl⟩

/-! ## Outcomes of encoding -/

theorem MarshalJSON_eq_body (ord : RangeOrder) (p : Panel) :
    Panel.MarshalJSON ord p = marshalBody ord p (marshalPanels ord p.nestedPanels) := by
  obtain ⟨c, g, t, x, s, d, l, r, a, cu⟩ := p
  rcases r with _ | ⟨_ | ps, ca⟩ <;> rfl

theorem marshalPanels_none (ord : RangeOrder) (rest : List (Option Panel)) :
    marshalPanels ord (none :: rest) =
      match marshalPanels ord rest with
      | .ok js => .ok (.null :: js)
      | .err e => .err e
      | .fault w => .fault w := rfl

theorem marshalPanels_some (ord : RangeOrder) (q : Panel) (rest : List (Option Panel)) :
    marshalPanels ord (some q :: rest) =
      match Panel.MarshalJSON ord q with
      | .ok j =>
        match marshalPanels ord rest with
        | .ok js => .ok (j :: js)
        | .err e => .err e
        | .fault w => .fault w
      | .err e => .err (marshalerError e)
      | .fault w => .fault w := rfl

theorem marshalPanels_ok (ord : RangeOrder) (l : List (Option Panel))
    (h : ∀ q, some q ∈ l → ∃ j, Panel.MarshalJSON ord q = .ok j) :
    ∃ js, marshalPanels ord l = .ok js := by
  induction l with
  | nil => exact ⟨[], rfl⟩
  | cons x rest ih =>
    obtain ⟨js, hjs⟩ := ih (fun q hq => h q (List.mem_cons_of_mem _ hq))
    cases x with
    | none => exact ⟨.null :: js, by rw [marshalPanels_none, hjs]⟩
    | some q =>
      obtain ⟨j, hj⟩ := h q (List.mem_cons_self _ _)
      exact ⟨j :: js, by rw [marshalPanels_some, hj, hjs]⟩

theorem customOutput_ok (ord : RangeOrder) (c : CommonPanel) (m : CustomPanel)
    (h : ∀ kv ∈ m.getD [], rawKeyOK kv.1 = true) :
    ∃ j, customPanelOutput.MarshalJSON ord c m = .ok j := by
  unfold customPanelOutput.MarshalJSON
  have hall : (ord.visit (m.getD [])).all (fun kv => rawKeyOK kv.1) = true := by
    rw [List.all_eq_true]
    intro kv hkv
    exact h kv ((ord.perm _).mem_iff.mp hkv)
  simp only [hall, if_true]
  exact ⟨_, rfl⟩

/-- C6 (counterexample): a row panel, with a known tag and a populated row payload, whose
one nested panel has the unknown tag 9: `MarshalJSON` returns an error. -/
theorem encode_row_with_unknown_child_fails :
    (Panel.mk { OfType := RowType, Type_ := "row" } none none none none none none
      (some { Panels := some [some (Panel.mk { OfType := 9 } none none none none none none
        none none none)] }) none none).OfType = RowType ∧
    Panel.MarshalJSON RangeOrder.byKey
      (Panel.mk { OfType := RowType, Type_ := "row" } none none none none none none
        (some { Panels := some [some (Panel.mk { OfType := 9 } none none none none none none
          none none none)] }) none none)
      = .err "json: error calling MarshalJSON for type *sdk.Panel: can't marshal unknown panel type" :=
  ⟨rfl, rfl⟩

/-- C6 (amended): `MarshalJSON` returns the error `"can't marshal unknown panel type"`
and no document for every panel whose tag is outside the nine kinds. For a panel whose
tag is one of graph, table, text, singlestat, dashlist, pluginlist and alertlist and whose
payload of that kind is populated it returns a document; for a custom panel with a
populated bag it returns a document when every key of the bag is free of quotes,
backslashes and control characters; for a row panel with a populated payload it returns
a document when `MarshalJSON` returns one for every nested panel. -/
theorem encode_outcomes (ord : RangeOrder) (p : Panel) :
    (p.OfType ∉ [CustomType, DashlistType, GraphType, TableType, TextType, PluginlistType,
        AlertlistType, SinglestatType, RowType] →
      Panel.MarshalJSON ord p = .err "can't marshal unknown panel type") ∧
    (p.OfType = GraphType → p.GraphPanel.isSome = true →
      ∃ j, Panel.MarshalJSON ord p = .ok j) ∧
    (p.OfType = TableType → p.TablePanel.isSome = true →
      ∃ j, Panel.MarshalJSON ord p = .ok j) ∧
    (p.OfType = TextType → p.TextPanel.isSome = true →
      ∃ j, Panel.MarshalJSON ord p = .ok j) ∧
    (p.OfType = SinglestatType → p.SinglestatPanel.isSome = true →
      ∃ j, Panel.MarshalJSON ord p = .ok j) ∧
    (p.OfType = DashlistType → p.DashlistPanel.isSome = true →
      ∃ j, Panel.MarshalJSON ord p = .ok j) ∧
    (p.OfType = PluginlistType → p.PluginlistPanel.isSome = true →
      ∃ j, Panel.MarshalJSON ord p = .ok j) ∧
    (p.OfType = AlertlistType → p.AlertlistPanel.isSome = true →
      ∃ j, Panel.MarshalJSON ord p = .ok j) ∧
    (p.OfType = CustomType → ∀ bag, p.CustomPanel = some bag →
      (∀ kv ∈ bag.getD [], rawKeyOK kv.1 = true) →
      ∃ j, Panel.MarshalJSON ord p = .ok j) ∧
    (p.OfType = RowType → p.RowPanel.isSome = true →
      (∀ q, some q ∈ p.nestedPanels → ∃ j, Panel.MarshalJSON ord q = .ok j) →
      ∃ j, Panel.MarshalJSON ord p = .ok j) := by
  rw [MarshalJSON_eq_body]
  have hnest := marshalPanels_ok ord p.nestedPanels
  generalize marshalPanels ord p.nestedPanels = nested at hnest ⊢
  generalize p.nestedPanels = np at hnest ⊢
  obtain ⟨c, g, t, x, s, d, l, r, a, cu⟩ := p
  unfold marshalBody
  dsimp only
  refine ⟨?_, ?_, ?_, ?_, ?_, ?_, ?_, ?_, ?_, ?_⟩
  · intro h
    simp only [List.mem_cons, List.mem_singleton, List.not_mem_nil, or_false, not_or] at h
    obtain ⟨h0, h1, h2, h3, h4, h5, h6, h7, h8⟩ := h
    have h0' : c.OfType ≠ CustomType := h0
    have h1' : c.OfType ≠ DashlistType := h1
    have h2' : c.OfType ≠ GraphType := h2
    have h3' : c.OfType ≠ TableType := h3
    have h4' : c.OfType ≠ TextType := h4
    have h5' : c.OfType ≠ PluginlistType := h5
    have h6' : c.OfType ≠ AlertlistType := h6
    have h7' : c.OfType ≠ SinglestatType := h7
    have h8' : c.OfType ≠ RowType := h8
    simp only [if_neg h0', if_neg h1', if_neg h2', if_neg h3', if_neg h4', if_neg h5',
      if_neg h6', if_neg h7', if_neg h8']
  · intro h hs
    have h' : c.OfType = GraphType := h
    cases g with
    | none => cases hs
    | some gp => simp only [if_pos h']; exact ⟨_, rfl⟩
  · intro h hs
    have h' : c.OfType = TableType := h
    cases t with
    | none => cases hs
    | some tp => rw [h']; exact ⟨_, rfl⟩
  · intro h hs
    have h' : c.OfType = TextType := h
    cases x with
    | none => cases hs
    | some xp => rw [h']; exact ⟨_, rfl⟩
  · intro h hs
    have h' : c.OfType = SinglestatType := h
    cases s with
    | none => cases hs
    | some sp => rw [h']; exact ⟨_, rfl⟩
  · intro h hs
    have h' : c.OfType = DashlistType := h
    cases d with
    | none => cases hs
    | some dp => rw [h']; exact ⟨_, rfl⟩
  · intro h hs
    have h' : c.OfType = PluginlistType := h
    cases l with
    | none => cases hs
    | some lp => rw [h']; exact ⟨_, rfl⟩
  · intro h hs
    have h' : c.OfType = AlertlistType := h
    cases a with
    | none => cases hs
    | some ap => rw [h']; exact ⟨_, rfl⟩
  · intro h bag hb hkeys
    have h' : c.OfType = CustomType := h
    have hb' : cu = some bag := hb
    subst hb'
    obtain ⟨j, hj⟩ := customOutput_ok ord c bag hkeys
    rw [h']
    exact ⟨j, hj⟩
  · intro h hs hnested
    have h' : c.OfType = RowType := h
    cases r with
    | none => cases hs
    | some row =>
      obtain ⟨js, hjs⟩ := hnest hnested
      rw [h', hjs]
      dsimp only
      by_cases he : (Slice.elems row.Panels).isEmpty = true
      · exact ⟨_, by
          show (if (Slice.elems row.Panels).isEmpty = true then _ else _) = _
          rw [if_pos he]⟩
      · exact ⟨_, by
          show (if (Slice.elems row.Panels).isEmpty = true then _ else _) = _
          rw [if_neg he]⟩

theorem encode_outcomes_witness :
    ∃ j, Panel.MarshalJSON RangeOrder.byKey (NewGraph "cpu") = .ok j :=
  (encode_outcomes RangeOrder.byKey (NewGraph "cpu")).2.1 rfl rfl

/-! ## The discriminator and the tag -/

theorem unmarshal_ok_common (p : Panel) (b : Doc) (q : Panel)
    (h : p.UnmarshalJSON b = (q, none)) :
    ∃ j probe, b = some j ∧ decodeStruct CommonPanelFields j {} = .ok probe ∧
      q.CommonPanel = { probe with OfType := switchTag probe.Type_ } := by
  cases b with
  | none => cases h
  | some j =>
    have hb : p.UnmarshalJSON (some j) = unmarshalBody j p (unmarshalRow j) :=
      unmarshalValue_eq_body j p
    rw [hb] at h
    cases hp : decodeStruct CommonPanelFields j {} with
    | error e =>
      rw [unmarshalBody_probe_error j p _ e hp] at h
      cases h
    | ok probe =>
      refine ⟨j, probe, rfl, hp, ?_⟩
      have := unmarshalBody_common j p (unmarshalRow j) probe hp
      rw [h] at this
      exact this

theorem unmarshal_ok_tag (p : Panel) (b : Doc) (q : Panel)
    (h : p.UnmarshalJSON b = (q, none)) : q.OfType = switchTag q.CommonPanel.Type_ := by
  obtain ⟨j, probe, -, -, hq⟩ := unmarshal_ok_common p b q h
  show q.CommonPanel.OfType = _
  rw [hq]

theorem switchTag_table (t : String) :
    (switchTag t = GraphType ↔ t = "graph") ∧
    (switchTag t = TableType ↔ t = "table") ∧
    (switchTag t = TextType ↔ t = "text") ∧
    (switchTag t = SinglestatType ↔ t = "singlestat") ∧
    (switchTag t = DashlistType ↔ t = "dashlist") ∧
    (switchTag t = RowType ↔ t = "row") ∧
    (switchTag t = CustomType ↔
      t ∉ ["graph", "table", "text", "singlestat", "dashlist", "row"]) ∧
    switchTag t ≠ PluginlistType ∧ switchTag t ≠ AlertlistType := by
  unfold switchTag
  simp only [List.mem_cons, List.mem_singleton, List.not_mem_nil, or_false, not_or]
  split_ifs with h1 h2 h3 h4 h5 h6 <;>
    simp_all [GraphType, TableType, TextType, SinglestatType, DashlistType, RowType,
      CustomType, PluginlistType, AlertlistType]

/-- C8 (counterexample): the document `{"type":"pluginlist"}` is decoded without error
into a panel with tag `CustomType` whose `Type` is `"pluginlist"`, the discriminator
that `NewPluginlist` pairs with `PluginlistType`; and `NewCustom` pairs the tag
`CustomType` with the `Type` `"singlestat"`. -/
theorem decoded_pluginlist_has_custom_tag :
    (Panel.zero.UnmarshalJSON (some (.obj [("type", .str "pluginlist")]))).2 = none ∧
    (Panel.zero.UnmarshalJSON (some (.obj [("type", .str "pluginlist")]))).1.OfType
      = CustomType ∧
    (Panel.zero.UnmarshalJSON (some (.obj [("type", .str "pluginlist")]))).1.CommonPanel.Type_
      = "pluginlist" ∧
    (NewPluginlist "").CommonPanel.Type_ = "pluginlist" ∧
    (NewPluginlist "").OfType = PluginlistType ∧
    (NewCustom "").CommonPanel.Type_ = "singlestat" ∧
    (NewCustom "").OfType = CustomType :=
  ⟨rfl, rfl, rfl, rfl, rfl, rfl, rfl⟩

/-- C8 (amended): every constructor other than `NewCustom` returns a panel whose `Type`
is the discriminator of the kind in `OfType`; and for every panel that a successful
`UnmarshalJSON` produces, `OfType` is `GraphType`, `TableType`, `TextType`,
`SinglestatType`, `DashlistType` or `RowType` exactly when `Type` is `"graph"`,
`"table"`, `"text"`, `"singlestat"`, `"dashlist"` or `"row"`, it is `CustomType` exactly
when `Type` is any other string, `"pluginlist"` and `"alertlist"` included, and it is
never `PluginlistType` or `AlertlistType`. -/
theorem type_agrees_with_tag (title : String) (p : Panel) (b : Doc) (q : Panel) :
    ((NewGraph title).CommonPanel.Type_ = "graph" ∧ (NewGraph title).OfType = GraphType) ∧
    ((NewTable title).CommonPanel.Type_ = "table" ∧ (NewTable title).OfType = TableType) ∧
    ((NewText title).CommonPanel.Type_ = "text" ∧ (NewText title).OfType = TextType) ∧
    ((NewSinglestat title).CommonPanel.Type_ = "singlestat" ∧
      (NewSinglestat title).OfType = SinglestatType) ∧
    ((NewDashlist title).CommonPanel.Type_ = "dashlist" ∧
      (NewDashlist title).OfType = DashlistType) ∧
    ((NewPluginlist title).CommonPanel.Type_ = "pluginlist" ∧
      (NewPluginlist title).OfType = PluginlistType) ∧
    ((NewAlertlist title).CommonPanel.Type_ = "alertlist" ∧
      (NewAlertlist title).OfType = AlertlistType) ∧
    (p.UnmarshalJSON b = (q, none) →
      (q.OfType = GraphType ↔ q.CommonPanel.Type_ = "graph") ∧
      (q.OfType = TableType ↔ q.CommonPanel.Type_ = "table") ∧
      (q.OfType = TextType ↔ q.CommonPanel.Type_ = "text") ∧
      (q.OfType = SinglestatType ↔ q.CommonPanel.Type_ = "singlestat") ∧
      (q.OfType = DashlistType ↔ q.CommonPanel.Type_ = "dashlist") ∧
      (q.OfType = RowType ↔ q.CommonPanel.Type_ = "row") ∧
      (q.OfType = CustomType ↔
        q.CommonPanel.Type_ ∉ ["graph", "table", "text", "singlestat", "dashlist", "row"]) ∧
      q.OfType ≠ PluginlistType ∧ q.OfType ≠ AlertlistType) := by
  refine ⟨⟨rfl, rfl⟩, ⟨rfl, rfl⟩, ⟨rfl, rfl⟩, ⟨rfl, rfl⟩, ⟨rfl, rfl⟩, ⟨rfl, rfl⟩, ⟨rfl, rfl⟩, ?_⟩
  intro h
  rw [unmarshal_ok_tag p b q h]
  exact switchTag_table _

theorem type_agrees_with_tag_witness :
    (Panel.mk { Type_ := "alertlist", OfType := CustomType } none none none none none none
        none none (some (some [("type", .str "alertlist")]))).OfType = CustomType ↔
      (Panel.mk { Type_ := "alertlist", OfType := CustomType } none none none none none none
        none none (some (some [("type", .str "alertlist")]))).CommonPanel.Type_
        ∉ ["graph", "table", "text", "singlestat", "dashlist", "row"] :=
  ((type_agrees_with_tag "" Panel.zero (some (.obj [("type", .str "alertlist")]))
    (Panel.mk { Type_ := "alertlist", OfType := CustomType } none none none none none none
        none none (some (some [("type", .str "alertlist")])))).2.2.2.2.2.2.2 rfl).2.2.2.2.2.2.1

/-! ## One populated variant -/

theorem has_setGraph (c c' : CommonPanel) (g : Ptr GraphPanel) (t : Ptr TablePanel)
    (x : Ptr TextPanel) (s : Ptr SinglestatPanel) (d : Ptr DashlistPanel)
    (l : Ptr PluginlistPanel) (r : Option (RowPanel Panel)) (a : Ptr AlertlistPanel)
    (cu : Ptr CustomPanel) (v : GraphPanel) (tag : panelType) (hc : c'.OfType = GraphType) :
    (Panel.mk c' (some v) t x s d l r a cu).has tag =
      ((Panel.mk c g t x s d l r a cu).has tag ||
        decide (tag = (Panel.mk c' (some v) t x s d l r a cu).OfType)) := by
  show _ = (_ || decide (tag = c'.OfType))
  rw [hc]
  unfold Panel.has
  by_cases h : tag = GraphType
  · subst h
    simp only [eq_self_iff_true, decide_True, Bool.or_true]
    rfl
  · simp only [h, if_false, decide_False, Bool.or_false]
    rfl

theorem has_setTable (c c' : CommonPanel) (g : Ptr GraphPanel) (t : Ptr TablePanel)
    (x : Ptr TextPanel) (s : Ptr SinglestatPanel) (d : Ptr DashlistPanel)
    (l : Ptr PluginlistPanel) (r : Option (RowPanel Panel)) (a : Ptr AlertlistPanel)
    (cu : Ptr CustomPanel) (v : TablePanel) (tag : panelType) (hc : c'.OfType = TableType) :
    (Panel.mk c' g (some v) x s d l r a cu).has tag =
      ((Panel.mk c g t x s d l r a cu).has tag ||
        decide (tag = (Panel.mk c' g (some v) x s d l r a cu).OfType)) := by
  show _ = (_ || decide (tag = c'.OfType))
  rw [hc]
  unfold Panel.has
  by_cases h : tag = TableType
  · subst h
    simp only [eq_self_iff_true, decide_True, Bool.or_true]
    rfl
  · simp only [h, if_false, decide_False, Bool.or_false]
    rfl

theorem has_setText (c c' : CommonPanel) (g : Ptr GraphPanel) (t : Ptr TablePanel)
    (x : Ptr TextPanel) (s : Ptr SinglestatPanel) (d : Ptr DashlistPanel)
    (l : Ptr PluginlistPanel) (r : Option (RowPanel Panel)) (a : Ptr AlertlistPanel)
    (cu : Ptr CustomPanel) (v : TextPanel) (tag : panelType) (hc : c'.OfType = TextType) :
    (Panel.mk c' g t (some v) s d l r a cu).has tag =
      ((Panel.mk c g t x s d l r a cu).has tag ||
        decide (tag = (Panel.mk c' g t (some v) s d l r a cu).OfType)) := by
  show _ = (_ || decide (tag = c'.OfType))
  rw [hc]
  unfold Panel.has
  by_cases h : tag = TextType
  · subst h
    simp only [eq_self_iff_true, decide_True, Bool.or_true]
    rfl
  · simp only [h, if_false, decide_False, Bool.or_false]
    rfl

theorem has_setSinglestat (c c' : CommonPanel) (g : Ptr GraphPanel) (t : Ptr TablePanel)
    (x : Ptr TextPanel) (s : Ptr SinglestatPanel) (d : Ptr DashlistPanel)
    (l : Ptr PluginlistPanel) (r : Option (RowPanel Panel)) (a : Ptr AlertlistPanel)
    (cu : Ptr CustomPanel) (v : SinglestatPanel) (tag : panelType) (hc : c'.OfType = SinglestatType) :
    (Panel.mk c' g t x (some v) d l r a cu).has tag =
      ((Panel.mk c g t x s d l r a cu).has tag ||
        decide (tag = (Panel.mk c' g t x (some v) d l r a cu).OfType)) := by
  show _ = (_ || decide (tag = c'.OfType))
  rw [hc]
  unfold Panel.has
  by_cases h : tag = SinglestatType
  · subst h
    simp only [eq_self_iff_true, decide_True, Bool.or_true]
    rfl
  · simp only [h, if_false, decide_False, Bool.or_false]
    rfl

theorem has_setDashlist (c c' : CommonPanel) (g : Ptr GraphPanel) (t : Ptr TablePanel)
    (x : Ptr TextPanel) (s : Ptr SinglestatPanel) (d : Ptr DashlistPanel)
    (l : Ptr PluginlistPanel) (r : Option (RowPanel Panel)) (a : Ptr AlertlistPanel)
    (cu : Ptr CustomPanel) (v : DashlistPanel) (tag : panelType) (hc : c'.OfType = DashlistType) :
    (Panel.mk c' g t x s (some v) l r a cu).has tag =
      ((Panel.mk c g t x s d l r a cu).has tag ||
        decide (tag = (Panel.mk c' g t x s (some v) l r a cu).OfType)) := by
  show _ = (_ || decide (tag = c'.OfType))
  rw [hc]
  unfold Panel.has
  by_cases h : tag = DashlistType
  · subst h
    simp only [eq_self_iff_true, decide_True, Bool.or_true]
    rfl
  · simp only [h, if_false, decide_False, Bool.or_false]
    rfl

theorem has_setRow (c c' : CommonPanel) (g : Ptr GraphPanel) (t : Ptr TablePanel)
    (x : Ptr TextPanel) (s : Ptr SinglestatPanel) (d : Ptr DashlistPanel)
    (l : Ptr PluginlistPanel) (r : Option (RowPanel Panel)) (a : Ptr AlertlistPanel)
    (cu : Ptr CustomPanel) (v : RowPanel Panel) (tag : panelType) (hc : c'.OfType = RowType) :
    (Panel.mk c' g t x s d l (some v) a cu).has tag =
      ((Panel.mk c g t x s d l r a cu).has tag ||
        decide (tag = (Panel.mk c' g t x s d l (some v) a cu).OfType)) := by
  show _ = (_ || decide (tag = c'.OfType))
  rw [hc]
  unfold Panel.has
  by_cases h : tag = RowType
  · subst h
    simp only [eq_self_iff_true, decide_True, Bool.or_true]
    rfl
  · simp only [h, if_false, decide_False, Bool.or_false]
    rfl

theorem has_setCustom (c c' : CommonPanel) (g : Ptr GraphPanel) (t : Ptr TablePanel)
    (x : Ptr TextPanel) (s : Ptr SinglestatPanel) (d : Ptr DashlistPanel)
    (l : Ptr PluginlistPanel) (r : Option (RowPanel Panel)) (a : Ptr AlertlistPanel)
    (cu : Ptr CustomPanel) (v : CustomPanel) (tag : panelType) (hc : c'.OfType = CustomType) :
    (Panel.mk c' g t x s d l r a (some v)).has tag =
      ((Panel.mk c g t x s d l r a cu).has tag ||
        decide (tag = (Panel.mk c' g t x s d l r a (some v)).OfType)) := by
  show _ = (_ || decide (tag = c'.OfType))
  rw [hc]
  unfold Panel.has
  by_cases h : tag = CustomType
  · subst h
    simp only [eq_self_iff_true, decide_True, Bool.or_true]
    rfl
  · simp only [h, if_false, decide_False, Bool.or_false]
    rfl

theorem has_setPluginlist (c c' : CommonPanel) (g : Ptr GraphPanel) (t : Ptr TablePanel)
    (x : Ptr TextPanel) (s : Ptr SinglestatPanel) (d : Ptr DashlistPanel)
    (l : Ptr PluginlistPanel) (r : Option (RowPanel Panel)) (a : Ptr AlertlistPanel)
    (cu : Ptr CustomPanel) (v : PluginlistPanel) (tag : panelType) (hc : c'.OfType = PluginlistType) :
    (Panel.mk c' g t x s d (some v) r a cu).has tag =
      ((Panel.mk c g t x s d l r a cu).has tag ||
        decide (tag = (Panel.mk c' g t x s d (some v) r a cu).OfType)) := by
  show _ = (_ || decide (tag = c'.OfType))
  rw [hc]
  unfold Panel.has
  by_cases h : tag = PluginlistType
  · subst h
    simp only [eq_self_iff_true, decide_True, Bool.or_true]
    rfl
  · simp only [h, if_false, decide_False, Bool.or_false]
    rfl

theorem has_setAlertlist (c c' : CommonPanel) (g : Ptr GraphPanel) (t : Ptr TablePanel)
    (x : Ptr TextPanel) (s : Ptr SinglestatPanel) (d : Ptr DashlistPanel)
    (l : Ptr PluginlistPanel) (r : Option (RowPanel Panel)) (a : Ptr AlertlistPanel)
    (cu : Ptr CustomPanel) (v : AlertlistPanel) (tag : panelType) (hc : c'.OfType = AlertlistType) :
    (Panel.mk c' g t x s d l r (some v) cu).has tag =
      ((Panel.mk c g t x s d l r a cu).has tag ||
        decide (tag = (Panel.mk c' g t x s d l r (some v) cu).OfType)) := by
  show _ = (_ || decide (tag = c'.OfType))
  rw [hc]
  unfold Panel.has
  by_cases h : tag = AlertlistType
  · subst h
    simp only [eq_self_iff_true, decide_True, Bool.or_true]
    rfl
  · simp only [h, if_false, decide_False, Bool.or_false]
    rfl

theorem unmarshalBody_ok_has (b : JSON) (p : Panel) (row : Except String (RowPanel Panel))
    (q : Panel) (h : unmarshalBody b p row = (q, none)) (tag : panelType) :
    q.has tag = (p.has tag || decide (tag = q.OfType)) := by
  revert h
  unfold unmarshalBody
  generalize decodeStruct CommonPanelFields b {} = pr
  generalize decodeStruct GraphPanelFields b {} = r1
  generalize decodeStruct TablePanelFields b {} = r2
  generalize decodeStruct TextPanelFields b {} = r3
  generalize decodeStruct SinglestatPanelFields b {} = r4
  generalize decodeStruct DashlistPanelFields b {} = r5
  generalize (Codec.map Codec.iface).dec b (some []) = r6
  obtain ⟨c, g, t, x, s, d, l, r, a, cu⟩ := p
  cases pr with
  | error e => intro h; exact absurd (congrArg Prod.snd h) (by simp)
  | ok probe =>
    dsimp only
    split_ifs
    · cases r1 <;> intro h <;> dsimp only at h <;> cases h
      exact has_setGraph c _ g t x s d l r a cu _ tag rfl
    · cases r2 <;> intro h <;> dsimp only at h <;> cases h
      exact has_setTable c _ g t x s d l r a cu _ tag rfl
    · cases r3 <;> intro h <;> dsimp only at h <;> cases h
      exact has_setText c _ g t x s d l r a cu _ tag rfl
    · cases r4 <;> intro h <;> dsimp only at h <;> cases h
      exact has_setSinglestat c _ g t x s d l r a cu _ tag rfl
    · cases r5 <;> intro h <;> dsimp only at h <;> cases h
      exact has_setDashlist c _ g t x s d l r a cu _ tag rfl
    · cases row <;> intro h <;> dsimp only at h <;> cases h
      exact has_setRow c _ g t x s d l r a cu _ tag rfl
    · cases r6 <;> intro h <;> dsimp only at h <;> cases h
      exact has_setCustom c _ g t x s d l r a cu _ tag rfl

theorem unmarshal_ok_has (p : Panel) (b : Doc) (q : Panel)
    (h : p.UnmarshalJSON b = (q, none)) (tag : panelType) :
    q.has tag = (p.has tag || decide (tag = q.OfType)) := by
  cases b with
  | none => exact absurd (congrArg Prod.snd h) (by simp [Panel.UnmarshalJSON])
  | some j =>
    have hb : p.UnmarshalJSON (some j) = unmarshalBody j p (unmarshalRow j) :=
      unmarshalValue_eq_body j p
    rw [hb] at h
    exact unmarshalBody_ok_has j p _ q h tag

theorem has_none (c : CommonPanel) (tag : panelType) :
    (Panel.mk c none none none none none none none none none).has tag = false := by
  unfold Panel.has
  split_ifs <;> rfl

theorem oneVariant_of_has (p : Panel)
    (h : ∀ tag, p.has tag = (false || decide (tag = p.OfType))) : p.OneVariant := by
  intro tag
  rw [h tag]
  simp

theorem constructors_oneVariant (title : String) :
    (NewGraph title).OneVariant ∧ (NewTable title).OneVariant ∧ (NewText title).OneVariant ∧
    (NewSinglestat title).OneVariant ∧ (NewDashlist title).OneVariant ∧
    (NewPluginlist title).OneVariant ∧ (NewAlertlist title).OneVariant ∧
    (NewCustom title).OneVariant := by
  refine ⟨?_, ?_, ?_, ?_, ?_, ?_, ?_, ?_⟩ <;> apply oneVariant_of_has <;> intro tag
  · exact (has_setGraph {} _ none none none none none none none none none _ tag rfl).trans
      (by rw [has_none]; rfl)
  · exact (has_setTable {} _ none none none none none none none none none _ tag rfl).trans
      (by rw [has_none]; rfl)
  · exact (has_setText {} _ none none none none none none none none none _ tag rfl).trans
      (by rw [has_none]; rfl)
  · exact (has_setSinglestat {} _ none none none none none none none none none _ tag rfl).trans
      (by rw [has_none]; rfl)
  · exact (has_setDashlist {} _ none none none none none none none none none _ tag rfl).trans
      (by rw [has_none]; rfl)
  · exact (has_setPluginlist {} _ none none none none none none none none none _ tag rfl).trans
      (by rw [has_none]; rfl)
  · exact (has_setAlertlist {} _ none none none none none none none none none _ tag rfl).trans
      (by rw [has_none]; rfl)
  · exact (has_setCustom {} _ none none none none none none none none none _ tag rfl).trans
      (by rw [has_none]; rfl)

theorem onTargets_has (f : Slice Target → Res (Slice Target)) (p q : Panel)
    (h : p.onTargets f = .ok q) : q.OfType = p.OfType ∧ ∀ tag, q.has tag = p.has tag := by
  revert h
  obtain ⟨c, g, t, x, s, d, l, r, a, cu⟩ := p
  unfold Panel.onTargets
  dsimp only
  split_ifs
  · cases g with
    | none => intro h; cases h
    | some gp =>
      dsimp only
      cases f gp.Targets <;> simp only [Res.bind] <;> intro h <;> cases h
      exact ⟨rfl, fun _ => rfl⟩
  · cases s with
    | none => intro h; cases h
    | some sp =>
      dsimp only
      cases f sp.Targets <;> simp only [Res.bind] <;> intro h <;> cases h
      exact ⟨rfl, fun _ => rfl⟩
  · cases t with
    | none => intro h; cases h
    | some tp =>
      dsimp only
      cases f tp.Targets <;> simp only [Res.bind] <;> intro h <;> cases h
      exact ⟨rfl, fun _ => rfl⟩
  · intro h; cases h
    exact ⟨rfl, fun _ => rfl⟩

theorem onTargets_oneVariant (f : Slice Target → Res (Slice Target)) (p q : Panel)
    (hp : p.OneVariant) (h : p.onTargets f = .ok q) : q.OneVariant := by
  obtain ⟨h1, h2⟩ := onTargets_has f p q h
  intro tag
  rw [h2 tag, h1]
  exact hp tag

theorem onTargets_ok (f : Slice Target → Res (Slice Target)) (p : Panel)
    (hp : p.OneVariant) (hf : ∀ ts, ∃ ts', f ts = .ok ts') :
    ∃ q, p.onTargets f = .ok q := by
  obtain ⟨c, g, t, x, s, d, l, r, a, cu⟩ := p
  unfold Panel.onTargets
  dsimp only
  split_ifs with h1 h2 h3
  · have hg : g.isSome = true := (hp GraphType).mpr h1.symm
    cases g with
    | none => cases hg
    | some gp =>
      obtain ⟨ts', hts⟩ := hf gp.Targets
      dsimp only
      rw [hts]
      exact ⟨_, rfl⟩
  · have hs : s.isSome = true := (hp SinglestatType).mpr h2.symm
    cases s with
    | none => cases hs
    | some sp =>
      obtain ⟨ts', hts⟩ := hf sp.Targets
      dsimp only
      rw [hts]
      exact ⟨_, rfl⟩
  · have ht : t.isSome = true := (hp TableType).mpr h3.symm
    cases t with
    | none => cases ht
    | some tp =>
      obtain ⟨ts', hts⟩ := hf tp.Targets
      dsimp only
      rw [hts]
      exact ⟨_, rfl⟩
  · exact ⟨_, rfl⟩

/-! ## `RepeatDatasourcesForEachTarget` -/

theorem incRefID_refLetter (k : Nat) (hk : k ≤ 62) :
    incRefID (refLetter k) = .ok (refLetter (k + 1)) := by
  interval_cases k <;> rfl

theorem onTargets_getTargets (f : Slice Target → Res (Slice Target)) (p : Panel)
    (ts ts' : Slice Target) (hg : p.GetTargets = .ok (some ts)) (hf : f ts = .ok ts') :
    ∃ q, p.onTargets f = .ok q ∧ q.GetTargets = .ok (some ts') := by
  revert hg
  obtain ⟨c, g, t, x, s, d, l, r, a, cu⟩ := p
  unfold Panel.onTargets Panel.GetTargets
  dsimp only [Panel.OfType, Panel.CommonPanel, Panel.GraphPanel, Panel.SinglestatPanel,
    Panel.TablePanel]
  split_ifs with h1 h2 h3
  · cases g with
    | none => intro hg; cases hg
    | some gp =>
      intro hg
      dsimp only at hg ⊢
      cases hg
      rw [hf]
      refine ⟨_, rfl, ?_⟩
      dsimp only
      rw [if_pos h1]
  · cases s with
    | none => intro hg; cases hg
    | some sp =>
      intro hg
      dsimp only at hg ⊢
      cases hg
      rw [hf]
      refine ⟨_, rfl, ?_⟩
      dsimp only
      rw [if_neg h1, if_pos h2]
  · cases t with
    | none => intro hg; cases hg
    | some tp =>
      intro hg
      dsimp only at hg ⊢
      cases hg
      rw [hf]
      refine ⟨_, rfl, ?_⟩
      dsimp only
      rw [if_neg h1, if_neg h2, if_pos h3]
  · intro hg; cases hg

theorem repeatDSNames_spec (target : Target) (ds : List String) (k : Nat) (acc : List Target)
    (hk : k + ds.length ≤ 63) :
    ∃ out, repeatDSNames target ds (refLetter k, acc)
        = .ok (refLetter (k + ds.length), acc ++ out) ∧
      out.length = ds.length ∧
      ∀ j d, ds[j]? = some d →
        out[j]? = some { target with RefID := refLetter (k + j), Datasource := d } := by
  induction ds generalizing k acc with
  | nil => exact ⟨[], by simp [repeatDSNames], rfl, by simp⟩
  | cons d rest ih =>
    simp only [List.length_cons] at hk
    obtain ⟨out, h1, h2, h3⟩ := ih (k + 1)
      (acc ++ [{ target with RefID := refLetter k, Datasource := d }]) (by omega)
    refine ⟨{ target with RefID := refLetter k, Datasource := d } :: out, ?_, ?_, ?_⟩
    · unfold repeatDSNames
      dsimp only
      rw [incRefID_refLetter k (by omega)]
      dsimp only
      rw [h1]
      simp only [List.length_cons, List.append_assoc, List.singleton_append]
      rw [show k + 1 + rest.length = k + (rest.length + 1) by omega]
    · simp [h2]
    · intro j d' hj
      cases j with
      | zero =>
        simp only [List.getElem?_cons_zero, Option.some.injEq] at hj
        subst hj
        simp only [List.getElem?_cons_zero, Nat.add_zero]
      | succ j' =>
        simp only [List.getElem?_cons_succ] at hj ⊢
        rw [h3 j' d' hj, show k + 1 + j' = k + (j' + 1) by omega]

theorem repeatDSTargets_spec (ds : List String) (ts : List Target) (k : Nat)
    (acc : List Target) (hk : k + ts.length * ds.length ≤ 63) :
    ∃ out, repeatDSTargets ds ts (refLetter k, acc)
        = .ok (refLetter (k + ts.length * ds.length), acc ++ out) ∧
      out.length = ts.length * ds.length ∧
      ∀ i j t d, ts[i]? = some t → ds[j]? = some d →
        out[i * ds.length + j]?
          = some { t with RefID := refLetter (k + (i * ds.length + j)), Datasource := d } := by
  induction ts generalizing k acc with
  | nil => exact ⟨[], by simp [repeatDSTargets], by simp, by simp⟩
  | cons t rest ih =>
    have hlen : (t :: rest).length * ds.length = ds.length + rest.length * ds.length := by
      simp only [List.length_cons]; ring
    rw [hlen] at hk
    obtain ⟨out1, a1, a2, a3⟩ := repeatDSNames_spec t ds k acc (by omega)
    obtain ⟨out2, b1, b2, b3⟩ := ih (k + ds.length) (acc ++ out1) (by omega)
    refine ⟨out1 ++ out2, ?_, ?_, ?_⟩
    · unfold repeatDSTargets
      rw [a1]
      dsimp only
      rw [b1, hlen, List.append_assoc, Nat.add_assoc]
    · rw [List.length_append, a2, b2, hlen]
    · intro i j t' d hi hj
      have hjlt : j < ds.length := by
        rcases Nat.lt_or_ge j ds.length with h | h
        · exact h
        · rw [List.getElem?_eq_none h] at hj; cases hj
      cases i with
      | zero =>
        simp only [List.getElem?_cons_zero, Option.some.injEq] at hi
        subst hi
        simp only [Nat.zero_mul, Nat.zero_add]
        rw [List.getElem?_append_left (by omega)]
        exact a3 j d hj
      | succ i' =>
        simp only [List.getElem?_cons_succ] at hi
        have hidx : (i' + 1) * ds.length + j = out1.length + (i' * ds.length + j) := by
          rw [a2]; ring
        rw [hidx, List.getElem?_append_right (by omega)]
        simp only [Nat.add_sub_cancel_left]
        rw [b3 i' j t' d hi hj]
        rw [show k + ds.length + (i' * ds.length + j) = k + (out1.length + (i' * ds.length + j))
          by rw [a2]; omega]

/-- C10: on a graph, singlestat or table panel whose target list holds `t_0..t_(n-1)`
(`GetTargets` returns a list for these kinds only), and for names `d_0..d_(m-1)` with `n*m <= 26`, `RepeatDatasourcesForEachTarget` completes and
replaces the list by one of exactly `n*m` targets, whose entry at index `i*m+j` is `t_i`
with `Datasource` `d_j` and with `RefID` the letter number `i*m+j` counted from `"A"`. -/
theorem fanOut_is_cartesian (p : Panel) (targets : Slice Target) (dsNames : List String)
    (hlist : p.GetTargets = .ok (some targets))
    (hsize : targets.elems.length * dsNames.length ≤ 26) :
    ∃ q out, p.RepeatDatasourcesForEachTarget dsNames = .ok q ∧
      q.GetTargets = .ok (some (some out)) ∧
      out.length = targets.elems.length * dsNames.length ∧
      ∀ i j t d, targets.elems[i]? = some t → dsNames[j]? = some d →
        out[i * dsNames.length + j]?
          = some { t with RefID := refLetter (i * dsNames.length + j), Datasource := d } := by
  obtain ⟨out, h1, h2, h3⟩ := repeatDSTargets_spec dsNames targets.elems 0 [] (by omega)
  have hf : repeatDS dsNames targets = .ok (some out) := by
    unfold repeatDS
    dsimp only
    rw [show ("A" : String) = refLetter 0 from rfl, h1]
    rfl
  obtain ⟨q, hq1, hq2⟩ := onTargets_getTargets (repeatDS dsNames) p targets (some out) hlist hf
  refine ⟨q, out, hq1, hq2, h2, ?_⟩
  intro i j t d hi hj
  rw [h3 i j t d hi hj, Nat.zero_add]

theorem fanOut_is_cartesian_witness :
    ∃ q out, (Panel.mk { OfType := GraphType, Type_ := "graph" }
        (some { Targets := some [{ RefID := "X", Expr := "up" }, { RefID := "Y", Expr := "down" }] })
        none none none none none none none none).RepeatDatasourcesForEachTarget ["p", "q", "r"]
        = .ok q ∧
      q.GetTargets = .ok (some (some out)) ∧
      out.length = 2 * 3 ∧
      ∀ i j t d, [({ RefID := "X", Expr := "up" } : Target), { RefID := "Y", Expr := "down" }][i]?
          = some t → ["p", "q", "r"][j]? = some d →
        out[i * 3 + j]? = some { t with RefID := refLetter (i * 3 + j), Datasource := d } :=
  fanOut_is_cartesian _ (some [{ RefID := "X", Expr := "up" }, { RefID := "Y", Expr := "down" }])
    ["p", "q", "r"] rfl (by decide)

/-! ## The invariant of the variant pointers -/

theorem incRefID_total (refID : String) (h : refID.data ≠ []) :
    ∃ next, incRefID refID = .ok next ∧ next.data ≠ [] := by
  unfold incRefID
  cases hd : refID.data with
  | nil => exact absurd hd h
  | cons c rest => exact ⟨_, rfl, by simp⟩

theorem repeatDSNames_total (target : Target) (ds : List String) (st : String × List Target)
    (h : st.1.data ≠ []) :
    ∃ st', repeatDSNames target ds st = .ok st' ∧ st'.1.data ≠ [] := by
  induction ds generalizing st with
  | nil => exact ⟨st, by simp [repeatDSNames], h⟩
  | cons d rest ih =>
    obtain ⟨refID, acc⟩ := st
    obtain ⟨next, h1, h2⟩ := incRefID_total refID h
    unfold repeatDSNames
    dsimp only
    rw [h1]
    exact ih (next, _) h2

theorem repeatDSTargets_total (ds : List String) (ts : List Target) (st : String × List Target)
    (h : st.1.data ≠ []) :
    ∃ st', repeatDSTargets ds ts st = .ok st' ∧ st'.1.data ≠ [] := by
  induction ts generalizing st with
  | nil => exact ⟨st, by simp [repeatDSTargets], h⟩
  | cons t rest ih =>
    obtain ⟨st1, h1, h2⟩ := repeatDSNames_total t ds st h
    unfold repeatDSTargets
    rw [h1]
    exact ih st1 h2

theorem repeatDS_total (ds : List String) (ts : Slice Target) :
    ∃ ts', repeatDS ds ts = .ok ts' := by
  obtain ⟨st, h1, -⟩ := repeatDSTargets_total ds ts.elems ("A", []) (by decide)
  unfold repeatDS
  dsimp only
  rw [h1]
  exact ⟨_, rfl⟩

/-- C9: the panel of `NewText "t"` has exactly one payload populated, the text payload
that its tag names. `UnmarshalJSON` of the document `{"type":"graph"}` into it returns no
error; the panel it leaves has the tag `GraphType`, the common fields of the document, a
new graph payload, and still the text payload of `NewText "t"`: two payloads are
populated, so the property "exactly one payload, the one of the tag" is lost by a
successful decode, against the comment on `Panel` ("Should be initialized only one type
of panels"). -/
theorem decode_into_other_kind_keeps_old_variant :
    (NewText "t").OneVariant ∧
    (NewText "t").TextPanel = some {} ∧
    Panel.UnmarshalJSON (NewText "t") (some (.obj [("type", .str "graph")]))
      = (Panel.mk { OfType := GraphType, Type_ := "graph" } (some {}) none (some {}) none
          none none none none none, none) ∧
    (Panel.UnmarshalJSON (NewText "t") (some (.obj [("type", .str "graph")]))).1.TextPanel
      = (NewText "t").TextPanel ∧
    (Panel.UnmarshalJSON (NewText "t") (some (.obj [("type", .str "graph")]))).1.has GraphType
      = true ∧
    (Panel.UnmarshalJSON (NewText "t") (some (.obj [("type", .str "graph")]))).1.has TextType
      = true ∧
    ¬ (Panel.UnmarshalJSON (NewText "t") (some (.obj [("type", .str "graph")]))).1.OneVariant :=
  ⟨(constructors_oneVariant "t").2.2.1, rfl, rfl, rfl, rfl, rfl,
    fun h => absurd ((h TextType).mp rfl) (by decide)⟩

/-- The operations that keep the property "exactly one payload is populated, the one
that `OfType` names": every constructor returns a panel with it; on a panel with it
`ResetTargets`, `AddTarget`, `SetTarget` and `RepeatDatasourcesForEachTarget` complete and
keep it, and `RepeatTargetsForDatasources` keeps it whenever it completes. A successful
`UnmarshalJSON` gives a panel with the property when the receiver had no payload
populated, or when the receiver had the property and the document is of the kind of the
receiver; into any receiver it populates the payload of the new tag and no other. -/
theorem one_variant_invariant (title : String) (p : Panel) (hp : p.OneVariant) (t : Target)
    (dsNames : List String) (b : Doc) :
    ((NewGraph title).OneVariant ∧ (NewTable title).OneVariant ∧ (NewText title).OneVariant ∧
      (NewSinglestat title).OneVariant ∧ (NewDashlist title).OneVariant ∧
      (NewPluginlist title).OneVariant ∧ (NewAlertlist title).OneVariant ∧
      (NewCustom title).OneVariant) ∧
    (∃ q, p.ResetTargets = .ok q ∧ q.OneVariant) ∧
    (∃ q, p.AddTarget t = .ok q ∧ q.OneVariant) ∧
    (∃ q, p.SetTarget t = .ok q ∧ q.OneVariant) ∧
    (∃ q, p.RepeatDatasourcesForEachTarget dsNames = .ok q ∧ q.OneVariant) ∧
    (∀ q, p.RepeatTargetsForDatasources dsNames = .ok q → q.OneVariant) ∧
    (∀ q, p.UnmarshalJSON b = (q, none) → q.OfType = p.OfType → q.OneVariant) ∧
    (∀ r q : Panel, (∀ tag, r.has tag = false) → r.UnmarshalJSON b = (q, none) → q.OneVariant) ∧
    (∀ r q : Panel, r.UnmarshalJSON b = (q, none) →
      ∀ tag, q.has tag = (r.has tag || decide (tag = q.OfType))) := by
  refine ⟨constructors_oneVariant title, ?_, ?_, ?_, ?_, ?_, ?_, ?_, ?_⟩
  · obtain ⟨q, hq⟩ := onTargets_ok (fun _ => .ok none) p hp (fun _ => ⟨_, rfl⟩)
    exact ⟨q, hq, onTargets_oneVariant _ p q hp hq⟩
  · obtain ⟨q, hq⟩ := onTargets_ok (fun targets => .ok (some (targets.elems ++ [t]))) p hp
      (fun _ => ⟨_, rfl⟩)
    exact ⟨q, hq, onTargets_oneVariant _ p q hp hq⟩
  · obtain ⟨q, hq⟩ := onTargets_ok (fun targets => .ok (setTarget t targets)) p hp
      (fun _ => ⟨_, rfl⟩)
    exact ⟨q, hq, onTargets_oneVariant _ p q hp hq⟩
  · obtain ⟨q, hq⟩ := onTargets_ok (repeatDS dsNames) p hp (repeatDS_total dsNames)
    exact ⟨q, hq, onTargets_oneVariant _ p q hp hq⟩
  · intro q hq
    exact onTargets_oneVariant _ p q hp hq
  · intro q hq hsame tag
    rw [unmarshal_ok_has p b q hq tag, hsame]
    have := hp tag
    constructor
    · intro h
      simp only [Bool.or_eq_true, decide_eq_true_eq] at h
      rcases h with h | h
      · exact this.mp h
      · exact h
    · intro h
      simp [h]
  · intro r q hr hq
    apply oneVariant_of_has
    intro tag
    rw [unmarshal_ok_has r b q hq tag, hr tag]
  · intro r q hq tag
    exact unmarshal_ok_has r b q hq tag

theorem one_variant_invariant_witness :
    ∃ q, (NewGraph "cpu").AddTarget { RefID := "A", Expr := "up" } = .ok q ∧ q.OneVariant :=
  (one_variant_invariant "" (NewGraph "cpu") (constructors_oneVariant "cpu").1
    { RefID := "A", Expr := "up" } [] none).2.2.1

/-! ## Target helpers -/

theorem getTargets_cases (p : Panel) (ts : Slice Target) (h : p.GetTargets = .ok (some ts)) :
    (p.OfType = GraphType ∧ ∃ gp, p.GraphPanel = some gp ∧ gp.Targets = ts) ∨
    (p.OfType = SinglestatType ∧ ∃ sp, p.SinglestatPanel = some sp ∧ sp.Targets = ts) ∨
    (p.OfType = TableType ∧ ∃ tp, p.TablePanel = some tp ∧ tp.Targets = ts) := by
  revert h
  unfold Panel.GetTargets
  split_ifs with h1 h2 h3
  · cases hg : p.GraphPanel with
    | none => intro h; cases h
    | some gp =>
      intro h
      dsimp only at h
      cases h
      exact Or.inl ⟨h1, gp, rfl, rfl⟩
  · cases hg : p.SinglestatPanel with
    | none => intro h; cases h
    | some sp =>
      intro h
      dsimp only at h
      cases h
      exact Or.inr (Or.inl ⟨h2, sp, rfl, rfl⟩)
  · cases hg : p.TablePanel with
    | none => intro h; cases h
    | some tp =>
      intro h
      dsimp only at h
      cases h
      exact Or.inr (Or.inr ⟨h3, tp, rfl, rfl⟩)
  · intro h; cases h

theorem onTargets_other (f : Slice Target → Res (Slice Target)) (p : Panel)
    (h1 : p.OfType ≠ GraphType) (h2 : p.OfType ≠ SinglestatType) (h3 : p.OfType ≠ TableType) :
    p.onTargets f = .ok p := by
  obtain ⟨c, g, t, x, s, d, l, r, a, cu⟩ := p
  have h1' : c.OfType ≠ GraphType := h1
  have h2' : c.OfType ≠ SinglestatType := h2
  have h3' : c.OfType ≠ TableType := h3
  unfold Panel.onTargets
  dsimp only
  rw [if_neg h1', if_neg h2', if_neg h3']

theorem onTargets_graph (f : Slice Target → Res (Slice Target)) (c : CommonPanel)
    (gp : GraphPanel) (t : Ptr TablePanel) (x : Ptr TextPanel) (s : Ptr SinglestatPanel)
    (d : Ptr DashlistPanel) (l : Ptr PluginlistPanel) (r : Option (RowPanel Panel))
    (a : Ptr AlertlistPanel) (cu : Ptr CustomPanel) (ts : Slice Target)
    (hc : c.OfType = GraphType) (hf : f gp.Targets = .ok ts) :
    (Panel.mk c (some gp) t x s d l r a cu).onTargets f
      = .ok (Panel.mk c (some { gp with Targets := ts }) t x s d l r a cu) := by
  unfold Panel.onTargets
  dsimp only
  rw [if_pos hc, hf]
  rfl

theorem onTargets_singlestat (f : Slice Target → Res (Slice Target)) (c : CommonPanel)
    (g : Ptr GraphPanel) (t : Ptr TablePanel) (x : Ptr TextPanel) (sp : SinglestatPanel)
    (d : Ptr DashlistPanel) (l : Ptr PluginlistPanel) (r : Option (RowPanel Panel))
    (a : Ptr AlertlistPanel) (cu : Ptr CustomPanel) (ts : Slice Target)
    (hc : c.OfType = SinglestatType) (hf : f sp.Targets = .ok ts) :
    (Panel.mk c g t x (some sp) d l r a cu).onTargets f
      = .ok (Panel.mk c g t x (some { sp with Targets := ts }) d l r a cu) := by
  unfold Panel.onTargets
  dsimp only
  rw [if_neg (by rw [hc]; decide), if_pos hc, hf]
  rfl

theorem onTargets_table (f : Slice Target → Res (Slice Target)) (c : CommonPanel)
    (g : Ptr GraphPanel) (tp : TablePanel) (x : Ptr TextPanel) (s : Ptr SinglestatPanel)
    (d : Ptr DashlistPanel) (l : Ptr PluginlistPanel) (r : Option (RowPanel Panel))
    (a : Ptr AlertlistPanel) (cu : Ptr CustomPanel) (ts : Slice Target)
    (hc : c.OfType = TableType) (hf : f tp.Targets = .ok ts) :
    (Panel.mk c g (some tp) x s d l r a cu).onTargets f
      = .ok (Panel.mk c g (some { tp with Targets := ts }) x s d l r a cu) := by
  unfold Panel.onTargets
  dsimp only
  rw [if_neg (by rw [hc]; decide), if_neg (by rw [hc]; decide), if_pos hc, hf]
  rfl

theorem setTargetScan_none (t : Target) (l : List Target)
    (h : ∀ x ∈ l, x.RefID ≠ t.RefID) : setTargetScan t l = none := by
  induction l with
  | nil => rfl
  | cons x rest ih =>
    have hx : ¬ t.RefID = x.RefID := fun e => h x (List.mem_cons_self _ _) e.symm
    simp only [setTargetScan, if_neg hx, ih (fun y hy => h y (List.mem_cons_of_mem _ hy)),
      Option.map_none']

theorem setTargetScan_first (t : Target) (l : List Target) (i : Nat) (x : Target)
    (hi : l[i]? = some x) (hx : x.RefID = t.RefID)
    (hfirst : ∀ j y, j < i → l[j]? = some y → y.RefID ≠ t.RefID) :
    setTargetScan t l = some (l.set i t) := by
  induction l generalizing i with
  | nil => simp at hi
  | cons y rest ih =>
    cases i with
    | zero =>
      simp only [List.getElem?_cons_zero, Option.some.injEq] at hi
      subst hi
      simp only [setTargetScan, if_pos hx.symm, List.set_cons_zero]
    | succ i' =>
      simp only [List.getElem?_cons_succ] at hi
      have hy : ¬ t.RefID = y.RefID :=
        fun e => hfirst 0 y (Nat.succ_pos _) (by simp) e.symm
      have hrest := ih i' hi (fun j z hj hz => hfirst (j + 1) z (by omega) (by simpa using hz))
      simp only [setTargetScan, if_neg hy, hrest, Option.map_some', List.set_cons_succ]

/-! ## Claims on the target helpers -/

/-- C12: on a graph, singlestat or table panel with the target list `targets`, `SetTarget`
completes; when a target of the list has the `RefID` of `t`, the new list is the old one
with the first such target replaced by `t`, of the same length and with every other entry
unchanged; when none has it, the new list is the old one with `t` appended. -/
theorem setTarget_upsert (p : Panel) (targets : Slice Target) (t : Target)
    (hlist : p.GetTargets = .ok (some targets)) :
    ∃ q out, p.SetTarget t = .ok q ∧ q.GetTargets = .ok (some (some out)) ∧
      (∀ i x, targets.elems[i]? = some x → x.RefID = t.RefID →
        (∀ j y, j < i → targets.elems[j]? = some y → y.RefID ≠ t.RefID) →
        out = targets.elems.set i t ∧ out.length = targets.elems.length) ∧
      ((∀ x ∈ targets.elems, x.RefID ≠ t.RefID) → out = targets.elems ++ [t]) := by
  cases hscan : setTargetScan t targets.elems with
  | none =>
    have hf : (fun ts => Res.ok (setTarget t ts)) targets
        = .ok (some (targets.elems ++ [t])) := by
      simp only [setTarget, hscan]
    obtain ⟨q, hq1, hq2⟩ :=
      onTargets_getTargets (fun ts => Res.ok (setTarget t ts)) p targets _ hlist hf
    refine ⟨q, _, hq1, hq2, ?_, fun _ => rfl⟩
    intro i x hi hx hfirst
    rw [setTargetScan_first t _ i x hi hx hfirst] at hscan
    cases hscan
  | some replaced =>
    have hf : (fun ts => Res.ok (setTarget t ts)) targets = .ok (some replaced) := by
      simp only [setTarget, hscan]
    obtain ⟨q, hq1, hq2⟩ :=
      onTargets_getTargets (fun ts => Res.ok (setTarget t ts)) p targets _ hlist hf
    refine ⟨q, _, hq1, hq2, ?_, ?_⟩
    · intro i x hi hx hfirst
      rw [setTargetScan_first t _ i x hi hx hfirst] at hscan
      cases hscan
      exact ⟨rfl, List.length_set _ _ _⟩
    · intro hnone
      rw [setTargetScan_none t _ hnone] at hscan
      cases hscan

theorem setTarget_upsert_witness :
    ∃ q out, (Panel.mk { OfType := TableType, Type_ := "table" } none
        (some { Targets := some [{ RefID := "A", Expr := "up" }, { RefID := "B" }] })
        none none none none none none none).SetTarget { RefID := "B", Expr := "down" } = .ok q ∧
      q.GetTargets = .ok (some (some out)) ∧
      (∀ i x, (Slice.elems (some [({ RefID := "A", Expr := "up" } : Target), { RefID := "B" }]))[i]?
          = some x → x.RefID = ({ RefID := "B", Expr := "down" } : Target).RefID →
        (∀ j y, j < i →
          (Slice.elems (some [({ RefID := "A", Expr := "up" } : Target), { RefID := "B" }]))[j]?
            = some y → y.RefID ≠ ({ RefID := "B", Expr := "down" } : Target).RefID) →
        out = (Slice.elems (some [({ RefID := "A", Expr := "up" } : Target),
            { RefID := "B" }])).set i { RefID := "B", Expr := "down" } ∧
          out.length
            = (Slice.elems (some [({ RefID := "A", Expr := "up" } : Target),
                { RefID := "B" }])).length) ∧
      ((∀ x ∈ Slice.elems (some [({ RefID := "A", Expr := "up" } : Target), { RefID := "B" }]),
          x.RefID ≠ ({ RefID := "B", Expr := "down" } : Target).RefID) →
        out = Slice.elems (some [({ RefID := "A", Expr := "up" } : Target), { RefID := "B" }])
          ++ [{ RefID := "B", Expr := "down" }]) :=
  setTarget_upsert _ (some [{ RefID := "A", Expr := "up" }, { RefID := "B" }])
    { RefID := "B", Expr := "down" } rfl

/-- C13: on a graph, singlestat or table panel with a populated payload, `AddTarget`
completes and changes the panel in one place only: the new target list is the old list
followed by `t` as given, whether or not a target of the list has the `RefID` of `t`. -/
theorem addTarget_appends (c : CommonPanel) (g : Ptr GraphPanel) (tb : Ptr TablePanel)
    (x : Ptr TextPanel) (s : Ptr SinglestatPanel) (d : Ptr DashlistPanel)
    (l : Ptr PluginlistPanel) (r : Option (RowPanel Panel)) (a : Ptr AlertlistPanel)
    (cu : Ptr CustomPanel) (t : Target) :
    (c.OfType = GraphType → ∀ gp, g = some gp →
      (Panel.mk c g tb x s d l r a cu).AddTarget t = .ok (Panel.mk c
        (some { gp with Targets := some (gp.Targets.elems ++ [t]) }) tb x s d l r a cu)) ∧
    (c.OfType = SinglestatType → ∀ sp, s = some sp →
      (Panel.mk c g tb x s d l r a cu).AddTarget t = .ok (Panel.mk c g tb x
        (some { sp with Targets := some (sp.Targets.elems ++ [t]) }) d l r a cu)) ∧
    (c.OfType = TableType → ∀ tp, tb = some tp →
      (Panel.mk c g tb x s d l r a cu).AddTarget t = .ok (Panel.mk c g
        (some { tp with Targets := some (tp.Targets.elems ++ [t]) }) x s d l r a cu)) := by
  refine ⟨?_, ?_, ?_⟩
  · intro hc gp hg
    subst hg
    exact onTargets_graph _ c gp tb x s d l r a cu _ hc rfl
  · intro hc sp hs
    subst hs
    exact onTargets_singlestat _ c g tb x sp d l r a cu _ hc rfl
  · intro hc tp ht
    subst ht
    exact onTargets_table _ c g tp x s d l r a cu _ hc rfl

theorem addTarget_appends_witness :
    (Panel.mk { OfType := GraphType, Type_ := "graph" }
        (some { Targets := some [{ RefID := "A" }] })
        none none none none none none none none).AddTarget { RefID := "A", Expr := "up" }
      = .ok (Panel.mk { OfType := GraphType, Type_ := "graph" }
        (some { Targets := some [{ RefID := "A" }, { RefID := "A", Expr := "up" }] })
        none none none none none none none none) :=
  (addTarget_appends { OfType := GraphType, Type_ := "graph" }
    (some { Targets := some [{ RefID := "A" }] }) none none none none none none none none
    { RefID := "A", Expr := "up" }).1 rfl _ rfl

/-- C14: on the graph panel whose list holds one target with `RefID` `"A"`, `AddTarget`
of a target with `RefID` `"A"` appends it with that same `RefID`: nothing is incremented,
and the list then holds two targets `"A"`. -/
theorem addTarget_keeps_colliding_refID :
    (Panel.mk { OfType := GraphType, Type_ := "graph" }
        (some { Targets := some [{ RefID := "A", Expr := "up" }] })
        none none none none none none none none).AddTarget { RefID := "A", Expr := "down" }
      = .ok (Panel.mk { OfType := GraphType, Type_ := "graph" }
        (some { Targets := some [{ RefID := "A", Expr := "up" },
          { RefID := "A", Expr := "down" }] })
        none none none none none none none none) :=
  rfl

/-- C15: for every panel whose tag is not graph, singlestat or table, each of
`ResetTargets`, `AddTarget`, `SetTarget`, `RepeatDatasourcesForEachTarget` and
`RepeatTargetsForDatasources`, with any arguments, completes and returns the panel as it
was. -/
theorem target_helpers_skip_other_kinds (p : Panel) (t : Target) (dsNames : List String)
    (h1 : p.OfType ≠ GraphType) (h2 : p.OfType ≠ SinglestatType) (h3 : p.OfType ≠ TableType) :
    p.ResetTargets = .ok p ∧ p.AddTarget t = .ok p ∧ p.SetTarget t = .ok p ∧
    p.RepeatDatasourcesForEachTarget dsNames = .ok p ∧
    p.RepeatTargetsForDatasources dsNames = .ok p :=
  ⟨onTargets_other _ p h1 h2 h3, onTargets_other _ p h1 h2 h3, onTargets_other _ p h1 h2 h3,
    onTargets_other _ p h1 h2 h3, onTargets_other _ p h1 h2 h3⟩

theorem target_helpers_skip_other_kinds_witness :
    (NewText "notes").ResetTargets = .ok (NewText "notes") ∧
    (NewText "notes").AddTarget { RefID := "A" } = .ok (NewText "notes") ∧
    (NewText "notes").SetTarget { RefID := "A" } = .ok (NewText "notes") ∧
    (NewText "notes").RepeatDatasourcesForEachTarget ["x"] = .ok (NewText "notes") ∧
    (NewText "notes").RepeatTargetsForDatasources ["x"] = .ok (NewText "notes") :=
  target_helpers_skip_other_kinds (NewText "notes") { RefID := "A" } ["x"]
    (by decide) (by decide) (by decide)

/-- C16: on a graph, singlestat or table panel with a populated payload, `ResetTargets`
completes and changes the panel in one place only: the target list of the payload of
that kind becomes the nil slice, whatever it held; the common fields, the tag, the other
fields of the payload and the other variant pointers are as before. -/
theorem resetTargets_clears (c : CommonPanel) (g : Ptr GraphPanel) (tb : Ptr TablePanel)
    (x : Ptr TextPanel) (s : Ptr SinglestatPanel) (d : Ptr DashlistPanel)
    (l : Ptr PluginlistPanel) (r : Option (RowPanel Panel)) (a : Ptr AlertlistPanel)
    (cu : Ptr CustomPanel) :
    (c.OfType = GraphType → ∀ gp, g = some gp →
      (Panel.mk c g tb x s d l r a cu).ResetTargets
        = .ok (Panel.mk c (some { gp with Targets := none }) tb x s d l r a cu)) ∧
    (c.OfType = SinglestatType → ∀ sp, s = some sp →
      (Panel.mk c g tb x s d l r a cu).ResetTargets
        = .ok (Panel.mk c g tb x (some { sp with Targets := none }) d l r a cu)) ∧
    (c.OfType = TableType → ∀ tp, tb = some tp →
      (Panel.mk c g tb x s d l r a cu).ResetTargets
        = .ok (Panel.mk c g (some { tp with Targets := none }) x s d l r a cu)) := by
  refine ⟨?_, ?_, ?_⟩
  · intro hc gp hg
    subst hg
    exact onTargets_graph _ c gp tb x s d l r a cu _ hc rfl
  · intro hc sp hs
    subst hs
    exact onTargets_singlestat _ c g tb x sp d l r a cu _ hc rfl
  · intro hc tp ht
    subst ht
    exact onTargets_table _ c g tp x s d l r a cu _ hc rfl

theorem resetTargets_clears_witness :
    (Panel.mk { OfType := SinglestatType, Type_ := "singlestat", Title := "load" } none none
        none (some { Format := "short", Targets := some [{ RefID := "A" }, { RefID := "B" }] })
        none none none none none).ResetTargets
      = .ok (Panel.mk { OfType := SinglestatType, Type_ := "singlestat", Title := "load" } none
        none none (some { Format := "short", Targets := none }) none none none none none) :=
  (resetTargets_clears { OfType := SinglestatType, Type_ := "singlestat", Title := "load" } none
    none none (some { Format := "short", Targets := some [{ RefID := "A" }, { RefID := "B" }] })
    none none none none none).2.1 rfl _ rfl

/-- C18: `GetTargets` returns the target list of the graph, singlestat or table payload
when the tag is `GraphType`, `SinglestatType` or `TableType` (and that payload is
populated), and the nil pointer for every other tag, known or not. The list it returns is
the one the helpers act on: after `AddTarget`, `SetTarget` or `ResetTargets` it returns
the list that the helper has made of it. -/
theorem getTargets_active_list (p : Panel) (t : Target) :
    (p.OfType = GraphType → ∀ gp, p.GraphPanel = some gp →
      p.GetTargets = .ok (some gp.Targets)) ∧
    (p.OfType = SinglestatType → ∀ sp, p.SinglestatPanel = some sp →
      p.GetTargets = .ok (some sp.Targets)) ∧
    (p.OfType = TableType → ∀ tp, p.TablePanel = some tp →
      p.GetTargets = .ok (some tp.Targets)) ∧
    (p.OfType ≠ GraphType → p.OfType ≠ SinglestatType → p.OfType ≠ TableType →
      p.GetTargets = .ok none) ∧
    (∀ ts, p.GetTargets = .ok (some ts) →
      (∃ q, p.AddTarget t = .ok q ∧ q.GetTargets = .ok (some (some (ts.elems ++ [t])))) ∧
      (∃ q, p.SetTarget t = .ok q ∧ q.GetTargets = .ok (some (setTarget t ts))) ∧
      (∃ q, p.ResetTargets = .ok q ∧ q.GetTargets = .ok (some none))) := by
  refine ⟨?_, ?_, ?_, ?_, ?_⟩
  · intro h gp hg
    unfold Panel.GetTargets
    rw [if_pos h, hg]
  · intro h sp hs
    unfold Panel.GetTargets
    rw [if_neg (by rw [h]; decide), if_pos h, hs]
  · intro h tp ht
    unfold Panel.GetTargets
    rw [if_neg (by rw [h]; decide), if_neg (by rw [h]; decide), if_pos h, ht]
  · intro h1 h2 h3
    unfold Panel.GetTargets
    rw [if_neg h1, if_neg h2, if_neg h3]
  · intro ts hts
    exact ⟨onTargets_getTargets _ p ts _ hts rfl, onTargets_getTargets _ p ts _ hts rfl,
      onTargets_getTargets _ p ts _ hts rfl⟩

theorem getTargets_active_list_witness :
    (NewGraph "cpu").GetTargets = .ok (some none) ∧ (NewText "notes").GetTargets = .ok none :=
  ⟨(getTargets_active_list (NewGraph "cpu") {}).1 rfl _ rfl,
   (getTargets_active_list (NewText "notes") {}).2.2.2.1 (by decide) (by decide) (by decide)⟩

/-! ## `incRefID` and the constructors -/

theorem toNat_ofNat_small (n : Nat) (h : n ≤ 256) : (Char.ofNat n).toNat = n := by
  interval_cases n <;> rfl

theorem utf8FirstByte_le (c : Char) : utf8FirstByte c ≤ 255 := by
  have hv := c.valid
  unfold utf8FirstByte
  have hlt : c.toNat < 0x110000 := by
    rcases hv with h | ⟨_, h⟩
    · exact Nat.lt_trans h (by decide)
    · exact h
  split_ifs <;> omega

/-- C17 (counterexample): the id `"é"` (U+00E9, ordinal 233) is incremented to `"Ä"`
(U+00C4, ordinal 196), one more than the first byte 0xC3 of the id, not to the character
of ordinal 234. -/
theorem incRefID_non_ascii :
    incRefID "é" = .ok "Ä" ∧ "é" = String.mk [Char.ofNat 233] ∧
    "Ä" = String.mk [Char.ofNat 196] ∧ utf8FirstByte (Char.ofNat 233) = 0xC3 :=
  ⟨rfl, by decide, by decide, by decide⟩

/-- C17 (amended): `incRefID` adds one to the first byte of the id: for every non-empty id
the result is a one-character string whose character has ordinal exactly one more than
the first byte of the UTF-8 form of the id, which is the ordinal of the first character
when that character is ASCII; the rest of the id is ignored. So `"A"` gives `"B"`, `"B"`
gives `"C"`, and `"Y"` gives `"Z"`. -/
theorem incRefID_adds_one_to_first_byte (refID : String) (c : Char) (rest : List Char)
    (h : refID.data = c :: rest) :
    incRefID refID = .ok (String.mk [Char.ofNat (utf8FirstByte c + 1)]) ∧
    (Char.ofNat (utf8FirstByte c + 1)).toNat = utf8FirstByte c + 1 ∧
    (c.toNat < 128 → utf8FirstByte c = c.toNat) ∧
    incRefID "A" = .ok "B" ∧ incRefID "B" = .ok "C" ∧ incRefID "Y" = .ok "Z" := by
  refine ⟨?_, toNat_ofNat_small _ (by have := utf8FirstByte_le c; omega), ?_, rfl, rfl, rfl⟩
  · unfold incRefID
    rw [h]
  · intro hc
    unfold utf8FirstByte
    rw [if_pos hc]

theorem incRefID_adds_one_to_first_byte_witness :
    incRefID "Query" = .ok (String.mk [Char.ofNat (utf8FirstByte (Char.ofNat 81) + 1)]) :=
  (incRefID_adds_one_to_first_byte "Query" (Char.ofNat 81) _ rfl).1

/-- C19: every kind constructor returns a panel whose title is `"Panel Title"` when the
given title is empty and the given title otherwise; and the graph payload of `NewGraph`
has the null-point mode `"connected"` and both axes shown. -/
theorem constructor_defaults (title : String) :
    ((title = "" → (NewGraph title).CommonPanel.Title = "Panel Title") ∧
      (title ≠ "" → (NewGraph title).CommonPanel.Title = title)) ∧
    ((title = "" → (NewTable title).CommonPanel.Title = "Panel Title") ∧
      (title ≠ "" → (NewTable title).CommonPanel.Title = title)) ∧
    ((title = "" → (NewText title).CommonPanel.Title = "Panel Title") ∧
      (title ≠ "" → (NewText title).CommonPanel.Title = title)) ∧
    ((title = "" → (NewSinglestat title).CommonPanel.Title = "Panel Title") ∧
      (title ≠ "" → (NewSinglestat title).CommonPanel.Title = title)) ∧
    ((title = "" → (NewDashlist title).CommonPanel.Title = "Panel Title") ∧
      (title ≠ "" → (NewDashlist title).CommonPanel.Title = title)) ∧
    ((title = "" → (NewPluginlist title).CommonPanel.Title = "Panel Title") ∧
      (title ≠ "" → (NewPluginlist title).CommonPanel.Title = title)) ∧
    ((title = "" → (NewAlertlist title).CommonPanel.Title = "Panel Title") ∧
      (title ≠ "" → (NewAlertlist title).CommonPanel.Title = title)) ∧
    ((title = "" → (NewCustom title).CommonPanel.Title = "Panel Title") ∧
      (title ≠ "" → (NewCustom title).CommonPanel.Title = title)) ∧
    (∃ gp, (NewGraph title).GraphPanel = some gp ∧ gp.NullPointMode = "connected" ∧
      gp.XAxis = true ∧ gp.YAxis = true) := by
  have h1 : title = "" → titleOrDefault title = "Panel Title" := by
    intro h; unfold titleOrDefault; rw [if_pos h]
  have h2 : title ≠ "" → titleOrDefault title = title := by
    intro h; unfold titleOrDefault; rw [if_neg h]
  exact ⟨⟨h1, h2⟩, ⟨h1, h2⟩, ⟨h1, h2⟩, ⟨h1, h2⟩, ⟨h1, h2⟩, ⟨h1, h2⟩, ⟨h1, h2⟩, ⟨h1, h2⟩,
    ⟨_, rfl, rfl, rfl, rfl⟩⟩

theorem constructor_defaults_witness :
    (NewGraph "").CommonPanel.Title = "Panel Title" ∧ (NewGraph "cpu").CommonPanel.Title = "cpu" :=
  ⟨(constructor_defaults "").1.1 rfl, (constructor_defaults "cpu").1.2 (by decide)⟩

/-! ## `RepeatTargetsForDatasources` -/

theorem repeatTargetLoop_nil (n i : Nat) (st : List Target × String) :
    repeatTargetLoop n [] i st = .ok st := by
  unfold repeatTargetLoop
  rfl

theorem repeatTargetLoop_overwrite (n : Nat) (ds1 ds2 : List String) (pre cur : List Target)
    (last : String) (hn : n = pre.length + cur.length) (hlen : ds1.length ≤ cur.length) :
    ∃ cur' last',
      repeatTargetLoop n (ds1 ++ ds2) pre.length (pre ++ cur, last)
        = repeatTargetLoop n ds2 (pre.length + ds1.length) (pre ++ cur', last') ∧
      cur'.length = cur.length ∧
      (∀ (j : Nat) (d : String) (t : Target), ds1[j]? = some d → cur[j]? = some t →
        cur'[j]? = some { t with Datasource := d }) ∧
      (∀ j, ds1.length ≤ j → cur'[j]? = cur[j]?) ∧
      (∀ t, ds1 ≠ [] → cur[ds1.length - 1]? = some t → last' = t.RefID) ∧
      (ds1 = [] → last' = last) := by
  induction ds1 generalizing pre cur last with
  | nil =>
    exact ⟨cur, last, by simp, rfl, by simp, fun _ _ => rfl, fun _ h => absurd rfl h,
      fun _ => rfl⟩
  | cons d rest ih =>
    cases cur with
    | nil => simp at hlen
    | cons t cur0 =>
      simp only [List.length_cons] at hlen hn
      obtain ⟨cur0', last', e1, e2, e3, e4, e5, e6⟩ :=
        ih (pre ++ [{ t with Datasource := d }]) cur0 t.RefID
          (by simp only [List.length_append, List.length_singleton]; omega) (by omega)
      refine ⟨{ t with Datasource := d } :: cur0', last', ?_, ?_, ?_, ?_, ?_, ?_⟩
      · have hlt : pre.length < n := by omega
        have hget : (pre ++ t :: cur0).get? pre.length = some t := by
          rw [List.get?_eq_getElem?, List.getElem?_append_right (Nat.le_refl _)]
          simp
        have hset : (pre ++ t :: cur0).set pre.length { t with Datasource := d }
            = (pre ++ [{ t with Datasource := d }]) ++ cur0 := by
          simp [List.set_append_right]
        simp only [List.cons_append]
        rw [repeatTargetLoop]
        simp only [if_pos hlt, hget, hset]
        have hl : (pre ++ [{ t with Datasource := d }]).length = pre.length + 1 := by simp
        rw [hl] at e1
        rw [e1]
        simp only [List.length_cons, List.append_assoc, List.singleton_append]
        rw [show pre.length + 1 + rest.length = pre.length + (rest.length + 1) by omega]
      · simp [e2]
      · intro j d' t' hj ht
        cases j with
        | zero =>
          simp only [List.getElem?_cons_zero, Option.some.injEq] at hj ht ⊢
          subst hj ht
          rfl
        | succ j' =>
          simp only [List.getElem?_cons_succ] at hj ht ⊢
          exact e3 j' d' t' hj ht
      · intro j hj
        simp only [List.length_cons] at hj
        cases j with
        | zero => omega
        | succ j' =>
          simp only [List.getElem?_cons_succ]
          exact e4 j' (by omega)
      · intro t' _ ht
        simp only [List.length_cons, Nat.add_sub_cancel] at ht
        cases rest with
        | nil =>
          simp only [List.length_nil, List.getElem?_cons_zero, Option.some.injEq] at ht
          subst ht
          exact e6 rfl
        | cons d2 rest2 =>
          simp only [List.length_cons, List.getElem?_cons_succ] at ht
          exact e5 t' (by simp) (by simpa using ht)
      · intro h; cases h

theorem repeatTargetLoop_extend (n : Nat) (ds : List String) (cur : List Target)
    (last : String) (i : Nat) (hn0 : 0 < n) (hcur : n ≤ cur.length) (hi : n ≤ i)
    (hlast : last.data ≠ []) :
    ∃ ext last', repeatTargetLoop n ds i (cur, last) = .ok (cur ++ ext, last') ∧
      ext.length = ds.length ∧
      ∀ (j : Nat) (d : String), ds[j]? = some d →
        ∃ (id : String) (t0 : Target), incRefIDTimes (j + 1) last = .ok id ∧
        cur[(i + j) % n]? = some t0 ∧
        ext[j]? = some { t0 with RefID := id, Datasource := d } := by
  induction ds generalizing cur last i with
  | nil => exact ⟨[], last, by simp [repeatTargetLoop_nil], rfl, by simp⟩
  | cons d rest ih =>
    have hmod : i % n < cur.length := Nat.lt_of_lt_of_le (Nat.mod_lt _ hn0) hcur
    obtain ⟨t0, ht0⟩ : ∃ t0, cur[i % n]? = some t0 :=
      ⟨cur[i % n], List.getElem?_eq_getElem hmod⟩
    obtain ⟨next, hnext, hne⟩ := incRefID_total last hlast
    obtain ⟨ext', last', e1, e2, e3⟩ :=
      ih (cur ++ [{ t0 with RefID := next, Datasource := d }]) next (i + 1)
        (by simp only [List.length_append, List.length_singleton]; omega) (by omega) hne
    refine ⟨{ t0 with RefID := next, Datasource := d } :: ext', last', ?_, ?_, ?_⟩
    · rw [repeatTargetLoop]
      have h1 : ¬ i < n := by omega
      have h2 : ¬ n = 0 := by omega
      have hget : cur.get? (i % n) = some t0 := by simpa using ht0
      simp only [if_neg h1, if_neg h2, hget, hnext]
      rw [e1]
      simp
    · simp [e2]
    · intro j d' hj
      cases j with
      | zero =>
        simp only [List.getElem?_cons_zero, Option.some.injEq] at hj
        subst hj
        refine ⟨next, t0, ?_, by simpa using ht0, by simp⟩
        simp only [incRefIDTimes, hnext, Res.bind]
      | succ j' =>
        simp only [List.getElem?_cons_succ] at hj
        obtain ⟨id, t1, f1, f2, f3⟩ := e3 j' d' hj
        refine ⟨id, t1, ?_, ?_, by simpa using f3⟩
        · rw [incRefIDTimes, hnext]
          exact f1
        · have hlt : (i + 1 + j') % n < cur.length :=
            Nat.lt_of_lt_of_le (Nat.mod_lt _ hn0) hcur
          rw [List.getElem?_append_left hlt] at f2
          rw [show i + (j' + 1) = i + 1 + j' by omega]
          exact f2

theorem repeatTarget_spec (targets : List Target) (ds : List String) (tlast : Target)
    (hlast : targets[targets.length - 1]? = some tlast)
    (hid : targets.length < ds.length → tlast.RefID.data ≠ []) :
    ∃ out, repeatTarget ds (some targets) = .ok (some out) ∧
      out.length = max targets.length ds.length ∧
      (∀ (i : Nat) (t : Target) (d : String), targets[i]? = some t → ds[i]? = some d →
        out[i]? = some { t with Datasource := d }) ∧
      (∀ i, ds.length ≤ i → i < targets.length → out[i]? = targets[i]?) ∧
      (∀ (i : Nat) (t : Target) (d : String), targets.length ≤ i → ds[i]? = some d →
        targets[i % targets.length]? = some t →
        ∃ id : String, incRefIDTimes (i - targets.length + 1) tlast.RefID = .ok id ∧
          out[i]? = some { t with RefID := id, Datasource := d }) := by
  have hn0 : 0 < targets.length := by
    rcases Nat.eq_zero_or_pos targets.length with h | h
    · rw [List.getElem?_eq_none (by omega)] at hlast; cases hlast
    · exact h
  rcases Nat.lt_or_ge targets.length ds.length with hm | hm
  · -- more names than targets: the first names overwrite, the others clone
    obtain ⟨cur', last', e1, e2, e3, e4, e5, -⟩ :=
      repeatTargetLoop_overwrite targets.length (ds.take targets.length)
        (ds.drop targets.length) [] targets "" (by simp) (by simp)
    have htake : (ds.take targets.length).length = targets.length := by simp; omega
    have hne : ds.take targets.length ≠ [] := by
      intro h; rw [h] at htake; simp at htake; omega
    have hl : last' = tlast.RefID := e5 tlast hne (by rw [htake]; exact hlast)
    obtain ⟨ext, last2, f1, f2, f3⟩ :=
      repeatTargetLoop_extend targets.length (ds.drop targets.length) cur' last'
        targets.length hn0 (by omega) (Nat.le_refl _) (by rw [hl]; exact hid hm)
    simp only [List.take_append_drop, List.length_nil, List.nil_append, Nat.zero_add,
      htake] at e1
    refine ⟨cur' ++ ext, ?_, ?_, ?_, ?_, ?_⟩
    · unfold repeatTarget
      simp only [Slice.elems, Option.getD_some]
      rw [e1, f1]
      rfl
    · rw [List.length_append, e2, f2, List.length_drop]
      omega
    · intro i t d hi hd
      have hilt : i < targets.length := by
        rcases Nat.lt_or_ge i targets.length with h | h
        · exact h
        · rw [List.getElem?_eq_none h] at hi; cases hi
      rw [List.getElem?_append_left (by omega)]
      exact e3 i d t (by rw [List.getElem?_take_of_lt hilt]; exact hd) hi
    · intro i h1 h2
      omega
    · intro i t d hi hd ht
      obtain ⟨id, t0, g1, g2, g3⟩ := f3 (i - targets.length) d
        (by rw [List.getElem?_drop, show targets.length + (i - targets.length) = i by omega]
            exact hd)
      rw [show targets.length + (i - targets.length) = i by omega] at g2
      have hmod : i % targets.length < targets.length := Nat.mod_lt _ hn0
      have hd2 : ∃ d2, (ds.take targets.length)[i % targets.length]? = some d2 :=
        ⟨_, List.getElem?_eq_getElem (by omega)⟩
      obtain ⟨d2, hd2⟩ := hd2
      have hc := e3 (i % targets.length) d2 t hd2 ht
      rw [hc] at g2
      cases g2
      refine ⟨id, by rw [← hl]; exact g1, ?_⟩
      rw [List.getElem?_append_right (by omega), e2, g3]
  · -- no more names than targets: the names overwrite, the other targets stay
    obtain ⟨cur', last', e1, e2, e3, e4, -, -⟩ :=
      repeatTargetLoop_overwrite targets.length ds [] [] targets "" (by simp) hm
    simp only [List.append_nil, List.length_nil, List.nil_append, Nat.zero_add,
      repeatTargetLoop_nil] at e1
    refine ⟨cur', ?_, ?_, ?_, ?_, ?_⟩
    · unfold repeatTarget
      simp only [Slice.elems, Option.getD_some]
      rw [e1]
      rfl
    · rw [e2]; omega
    · intro i t d hi hd
      exact e3 i d t hd hi
    · intro i h1 _
      exact e4 i h1
    · intro i t d hi hd _
      have : i < ds.length := by
        rcases Nat.lt_or_ge i ds.length with h | h
        · exact h
        · rw [List.getElem?_eq_none h] at hd; cases hd
      omega

/-- C11 (counterexample): on the graph panel whose one target has the empty `RefID`, the
call with two names does not complete: the clone for the second name needs the
increment of the empty id, and `incRefID` indexes its first byte. -/
theorem repeat_faults_on_empty_refID :
    (Panel.mk { OfType := GraphType, Type_ := "graph" }
        (some { Targets := some [{ RefID := "", Expr := "up" }] })
        none none none none none none none none).RepeatTargetsForDatasources ["x", "y"]
      = .fault "index out of range [0] with length 0" :=
  rfl

/-- C11 (amended): on a graph, singlestat or table panel whose target list holds
`t_0..t_(n-1)` with `n >= 1`, and for names `d_0..d_(m-1)`, where the `RefID` of `t_(n-1)`
is not empty when `m > n`: `RepeatTargetsForDatasources` completes and leaves a list of
`max(n, m)` targets; entry `i < min(n, m)` is `t_i` with `Datasource` `d_i`; entry `i`
with `m <= i < n` is `t_i`; entry `i` with `n <= i < m` is `t_(i mod n)` with
`Datasource` `d_i` and with `RefID` the `RefID` of `t_(n-1)` incremented `i-n+1` times. -/
theorem repeat_aligns_by_position (p : Panel) (targets : Slice Target) (dsNames : List String)
    (tlast : Target) (hlist : p.GetTargets = .ok (some targets))
    (hlast : targets.elems[targets.elems.length - 1]? = some tlast)
    (hid : targets.elems.length < dsNames.length → tlast.RefID.data ≠ []) :
    ∃ q out, p.RepeatTargetsForDatasources dsNames = .ok q ∧
      q.GetTargets = .ok (some (some out)) ∧
      out.length = max targets.elems.length dsNames.length ∧
      (∀ (i : Nat) (t : Target) (d : String), targets.elems[i]? = some t →
        dsNames[i]? = some d → out[i]? = some { t with Datasource := d }) ∧
      (∀ i, dsNames.length ≤ i → i < targets.elems.length → out[i]? = targets.elems[i]?) ∧
      (∀ (i : Nat) (t : Target) (d : String), targets.elems.length ≤ i →
        dsNames[i]? = some d → targets.elems[i % targets.elems.length]? = some t →
        ∃ id : String, incRefIDTimes (i - targets.elems.length + 1) tlast.RefID = .ok id ∧
          out[i]? = some { t with RefID := id, Datasource := d }) := by
  cases targets with
  | none => simp [Slice.elems] at hlast
  | some l =>
    obtain ⟨out, h1, h2, h3, h4, h5⟩ := repeatTarget_spec l dsNames tlast hlast hid
    obtain ⟨q, hq1, hq2⟩ :=
      onTargets_getTargets (repeatTarget dsNames) p (some l) (some out) hlist h1
    exact ⟨q, out, hq1, hq2, h2, h3, h4, h5⟩

theorem repeat_aligns_by_position_witness :
    ∃ q out, (Panel.mk { OfType := GraphType, Type_ := "graph" }
        (some { Targets := some [{ RefID := "A" }, { RefID := "B" }, { RefID := "C" }] })
        none none none none none none none none).RepeatTargetsForDatasources
          ["p", "q", "r", "s", "t"] = .ok q ∧
      q.GetTargets = .ok (some (some out)) ∧
      out.length = max (Slice.elems (some [({ RefID := "A" } : Target), { RefID := "B" },
        { RefID := "C" }])).length ["p", "q", "r", "s", "t"].length ∧
      (∀ (i : Nat) (t : Target) (d : String),
        (Slice.elems (some [({ RefID := "A" } : Target), { RefID := "B" },
          { RefID := "C" }]))[i]? = some t →
        ["p", "q", "r", "s", "t"][i]? = some d → out[i]? = some { t with Datasource := d }) ∧
      (∀ i, ["p", "q", "r", "s", "t"].length ≤ i →
        i < (Slice.elems (some [({ RefID := "A" } : Target), { RefID := "B" },
          { RefID := "C" }])).length →
        out[i]? = (Slice.elems (some [({ RefID := "A" } : Target), { RefID := "B" },
          { RefID := "C" }]))[i]?) ∧
      (∀ (i : Nat) (t : Target) (d : String),
        (Slice.elems (some [({ RefID := "A" } : Target), { RefID := "B" },
          { RefID := "C" }])).length ≤ i →
        ["p", "q", "r", "s", "t"][i]? = some d →
        (Slice.elems (some [({ RefID := "A" } : Target), { RefID := "B" },
          { RefID := "C" }]))[i % (Slice.elems (some [({ RefID := "A" } : Target),
            { RefID := "B" }, { RefID := "C" }])).length]? = some t →
        ∃ id : String, incRefIDTimes (i - (Slice.elems (some [({ RefID := "A" } : Target),
            { RefID := "B" }, { RefID := "C" }])).length + 1)
              ({ RefID := "C" } : Target).RefID = .ok id ∧
          out[i]? = some { t with RefID := id, Datasource := d }) :=
  repeat_aligns_by_position _ (some [{ RefID := "A" }, { RefID := "B" }, { RefID := "C" }])
    ["p", "q", "r", "s", "t"] { RefID := "C" } rfl rfl (fun _ => by decide)

/-! ## Rows -/

theorem decodeMembers_append {S : Type} (fs : List (JsonField S)) (l1 l2 : List (String × JSON))
    (s : S) :
    decodeMembers fs (l1 ++ l2) s =
      match decodeMembers fs l1 s with
      | .ok s' => decodeMembers fs l2 s'
      | .error e => .error e := by
  induction l1 generalizing s with
  | nil => simp [decodeMembers]
  | cons kv rest ih =>
    obtain ⟨k, v⟩ := kv
    simp only [List.cons_append, decodeMembers]
    cases findField fs k with
    | none => exact ih s
    | some f =>
      dsimp only
      cases f.dec v s with
      | error e => rfl
      | ok s' => exact ih s'

theorem encodeFields_key {S : Type} (fs : List (JsonField S)) (s : S) (kv : String × JSON)
    (h : kv ∈ encodeFields fs s) : ∃ f ∈ fs, kv.1 = f.name := by
  unfold encodeFields at h
  simp only [List.mem_map, List.mem_filter] at h
  obtain ⟨f, ⟨hf, -⟩, rfl⟩ := h
  exact ⟨f, hf, rfl⟩

theorem commonFields_not_panels (f : JsonField CommonPanel) (hf : f ∈ CommonPanelFields) :
    (f.name == "panels" || foldEq f.name "panels") = false := by
  have hall : (CommonPanelFields.all fun f => !(f.name == "panels" || foldEq f.name "panels"))
      = true := by rfl
  have := List.all_eq_true.mp hall f hf
  simpa using this

theorem decodeRowMembers_nil (row : RowPanel Panel) : decodeRowMembers [] row = .ok row := rfl

theorem decodeRowMembers_cons (k : String) (v : JSON) (rest : List (String × JSON))
    (row : RowPanel Panel) :
    decodeRowMembers ((k, v) :: rest) row =
      if k == "panels" || foldEq k "panels" then
        match v with
        | .null => decodeRowMembers rest { row with Panels := none }
        | .arr xs =>
          match decodePanelElems xs (Slice.elems row.Panels) with
          | .error e => .error e
          | .ok ps => decodeRowMembers rest { row with Panels := some ps }
        | _ => .error "json: cannot unmarshal into Go struct field RowPanel.panels"
      else decodeRowMembers rest row := by
  cases v <;> rfl

theorem decodeRowMembers_skip (l1 l2 : List (String × JSON)) (row : RowPanel Panel)
    (h : ∀ kv ∈ l1, (kv.1 == "panels" || foldEq kv.1 "panels") = false) :
    decodeRowMembers (l1 ++ l2) row = decodeRowMembers l2 row := by
  induction l1 with
  | nil => rfl
  | cons kv rest ih =>
    obtain ⟨k, v⟩ := kv
    have hk : (k == "panels" || foldEq k "panels") = false := h (k, v) (List.mem_cons_self _ _)
    rw [List.cons_append, decodeRowMembers_cons, hk]
    simp only [Bool.false_eq_true, if_false]
    exact ih (fun kv hkv => h kv (List.mem_cons_of_mem _ hkv))

theorem decodePanelElems_nil (cur : List (Option Panel)) : decodePanelElems [] cur = .ok [] :=
  rfl

theorem decodePanelElems_obj (kvs : List (String × JSON)) (xs : List JSON)
    (cur : List (Option Panel)) :
    decodePanelElems (.obj kvs :: xs) cur =
      match unmarshalValue (.obj kvs) ((cur.headD none).getD Panel.zero) with
      | (_, some e) => .error e
      | (q, none) =>
        match decodePanelElems xs cur.tail with
        | .error e => .error e
        | .ok ps => .ok (some q :: ps) := rfl

theorem obj_of_ok_eq (kvs : List (String × JSON)) (j : JSON)
    (h : Res.ok (JSON.obj kvs) = Res.ok j) : ∃ kvs', j = .obj kvs' :=
  ⟨kvs, (Res.ok.inj h).symm⟩

theorem marshalBody_ok_obj (ord : RangeOrder) (p : Panel) (nested : Res (List JSON)) (j : JSON)
    (h : marshalBody ord p nested = .ok j) : ∃ kvs, j = .obj kvs := by
  obtain ⟨c, g, t, x, s, d, l, r, a, cu⟩ := p
  unfold marshalBody at h
  dsimp only at h
  by_cases h0 : c.OfType = GraphType
  · rw [if_pos h0] at h
    cases g with
    | none => exact absurd h (by simp)
    | some v => exact obj_of_ok_eq _ j h
  rw [if_neg h0] at h
  by_cases h1 : c.OfType = TableType
  · rw [if_pos h1] at h
    cases t with
    | none => exact absurd h (by simp)
    | some v => exact obj_of_ok_eq _ j h
  rw [if_neg h1] at h
  by_cases h2 : c.OfType = TextType
  · rw [if_pos h2] at h
    cases x with
    | none => exact absurd h (by simp)
    | some v => exact obj_of_ok_eq _ j h
  rw [if_neg h2] at h
  by_cases h3 : c.OfType = SinglestatType
  · rw [if_pos h3] at h
    cases s with
    | none => exact absurd h (by simp)
    | some v => exact obj_of_ok_eq _ j h
  rw [if_neg h3] at h
  by_cases h4 : c.OfType = DashlistType
  · rw [if_pos h4] at h
    cases d with
    | none => exact absurd h (by simp)
    | some v => exact obj_of_ok_eq _ j h
  rw [if_neg h4] at h
  by_cases h5 : c.OfType = PluginlistType
  · rw [if_pos h5] at h
    cases l with
    | none => exact absurd h (by simp)
    | some v => exact obj_of_ok_eq _ j h
  rw [if_neg h5] at h
  by_cases h6 : c.OfType = AlertlistType
  · rw [if_pos h6] at h
    cases a with
    | none => exact absurd h (by simp)
    | some v => exact obj_of_ok_eq _ j h
  rw [if_neg h6] at h
  by_cases h7 : c.OfType = RowType
  · rw [if_pos h7] at h
    cases r with
    | none => exact absurd h (by simp)
    | some row =>
      dsimp only at h
      by_cases he : (Slice.elems row.Panels).isEmpty = true
      · rw [if_pos he] at h
        exact obj_of_ok_eq _ j h
      · rw [if_neg he] at h
        cases nested with
        | ok js => exact obj_of_ok_eq _ j h
        | err e => exact absurd h (by simp)
        | fault w => exact absurd h (by simp)
  rw [if_neg h7] at h
  by_cases h8 : c.OfType = CustomType
  · rw [if_pos h8] at h
    cases cu with
    | none => exact absurd h (by simp)
    | some m =>
      dsimp only at h
      unfold customPanelOutput.MarshalJSON at h
      dsimp only at h
      by_cases hk : ((ord.visit (m.getD [])).all fun kv => rawKeyOK kv.1) = true
      · rw [if_pos hk] at h
        exact obj_of_ok_eq _ j h
      · rw [if_neg hk] at h
        exact absurd h (by simp)
  rw [if_neg h8] at h
  exact absurd h (by simp)

theorem marshal_ok_obj (ord : RangeOrder) (p : Panel) (j : JSON)
    (h : Panel.MarshalJSON ord p = .ok j) : ∃ kvs, j = .obj kvs := by
  rw [MarshalJSON_eq_body] at h
  exact marshalBody_ok_obj ord p _ j h

theorem roundTrips_iff (ord : RangeOrder) (p : Panel) :
    RoundTrips ord p ↔
      ∃ j, Panel.MarshalJSON ord p = .ok j ∧ Panel.UnmarshalJSON Panel.zero (some j) = (p, none) := by
  unfold RoundTrips decodeEncoded
  constructor
  · intro h
    cases hm : Panel.MarshalJSON ord p with
    | ok j =>
      rw [hm] at h
      simp only [Res.bind] at h
      exact ⟨j, rfl, by injection h⟩
    | err e => rw [hm] at h; simp only [Res.bind] at h; cases h
    | fault w => rw [hm] at h; simp only [Res.bind] at h; cases h
  · rintro ⟨j, h1, h2⟩
    rw [h1]
    exact congrArg Res.ok h2

/-! ## Rows: decoding of an encoded row -/

theorem probe_of_row_doc (c : CommonPanel) (v : JSON) :
    decodeStruct CommonPanelFields
        (.obj (encodeFields CommonPanelFields c ++ [("panels", v)])) {}
      = decodeStruct CommonPanelFields (.obj (encodeFields CommonPanelFields c)) {} := by
  show decodeMembers CommonPanelFields (encodeFields CommonPanelFields c ++ [("panels", v)]) {}
    = decodeMembers CommonPanelFields (encodeFields CommonPanelFields c) {}
  rw [decodeMembers_append]
  cases decodeMembers CommonPanelFields (encodeFields CommonPanelFields c) {} with
  | error e => rfl
  | ok s => rfl

/-- The call `json.Unmarshal(b, &row)` on the text of a row with two nested panels: each
element goes through `UnmarshalJSON` on a new panel, and its error ends the decoding. -/
theorem row_of_row_doc (c : CommonPanel) (kg kt : List (String × JSON)) :
    decodeRowMembers (encodeFields CommonPanelFields c ++ [("panels", .arr [.obj kg, .obj kt])])
        {} =
      match unmarshalValue (.obj kg) Panel.zero with
      | (_, some e) => .error e
      | (g, none) =>
        match unmarshalValue (.obj kt) Panel.zero with
        | (_, some e) => .error e
        | (t, none) => .ok { Panels := some [some g, some t] } := by
  rw [decodeRowMembers_skip]
  · rw [decodeRowMembers_cons]
    have hk : ("panels" == "panels" || foldEq "panels" "panels") = true := by decide
    rw [if_pos hk]
    dsimp only
    have h0 : Slice.elems ({} : RowPanel Panel).Panels = [] := rfl
    rw [h0, decodePanelElems_obj]
    have hz : ((([] : List (Option Panel)).headD none).getD Panel.zero) = Panel.zero := rfl
    rw [hz]
    obtain ⟨g, eg⟩ := unmarshalValue (.obj kg) Panel.zero
    cases eg with
    | some e => rfl
    | none =>
      dsimp only
      rw [decodePanelElems_obj]
      have hz2 : (((([] : List (Option Panel)).tail).headD none).getD Panel.zero)
          = Panel.zero := rfl
      rw [hz2]
      obtain ⟨t, et⟩ := unmarshalValue (.obj kt) Panel.zero
      cases et with
      | some e => rfl
      | none =>
        dsimp only
        rw [decodePanelElems_nil]
        rfl
  · intro kv hkv
    obtain ⟨f, hf, hname⟩ := encodeFields_key _ _ _ hkv
    rw [hname]
    exact commonFields_not_panels f hf

/-- The case `"row"` of the switch on a zero receiver. -/
theorem unmarshalBody_row (b : JSON) (probe : CommonPanel)
    (row : Except String (RowPanel Panel)) (hty : probe.Type_ = "row")
    (hp : decodeStruct CommonPanelFields b {} = .ok probe) :
    unmarshalBody b Panel.zero row =
      match row with
      | .ok r =>
        (Panel.mk { probe with OfType := RowType } none none none none none none (some r)
          none none, none)
      | .error e =>
        (Panel.mk { probe with OfType := RowType } none none none none none none none
          none none, some e) := by
  unfold unmarshalBody
  rw [hp]
  dsimp only [Panel.zero]
  rw [hty]
  rw [if_neg (by decide), if_neg (by decide), if_neg (by decide), if_neg (by decide),
    if_neg (by decide), if_pos rfl]

/-! ## The `type` of an encoded panel -/

theorem docTypeFrom_cons (k : String) (v : JSON) (rest : List (String × JSON)) (cur : String) :
    docTypeFrom ((k, v) :: rest) cur =
      if foldEq k "type" then
        match v with
        | .str s => docTypeFrom rest s
        | _ => docTypeFrom rest cur
      else docTypeFrom rest cur := by
  cases v <;> rfl

theorem docTypeFrom_skip (l : List (String × JSON)) (cur : String)
    (h : ∀ kv ∈ l, foldEq kv.1 "type" = false) : docTypeFrom l cur = cur := by
  induction l generalizing cur with
  | nil => rfl
  | cons kv rest ih =>
    obtain ⟨k, v⟩ := kv
    have hk : foldEq k "type" = false := h (k, v) (List.mem_cons_self _ _)
    rw [docTypeFrom_cons, hk]
    exact ih cur (fun kv hkv => h kv (List.mem_cons_of_mem _ hkv))

theorem docTypeFrom_append (l1 l2 : List (String × JSON)) (cur : String) :
    docTypeFrom (l1 ++ l2) cur = docTypeFrom l2 (docTypeFrom l1 cur) := by
  induction l1 generalizing cur with
  | nil => rfl
  | cons kv rest ih =>
    obtain ⟨k, v⟩ := kv
    rw [List.cons_append, docTypeFrom_cons, docTypeFrom_cons]
    cases foldEq k "type" with
    | false => exact ih cur
    | true =>
      cases v <;> exact ih _

theorem encodeFields_common (c : CommonPanel) :
    encodeFields CommonPanelFields c
      = ("gridPos", .obj (encodeFields GridPosFields c.GridPos)) :: ("id", .num (.int c.ID))
        :: ("title", .str c.Title) :: ("type", .str c.Type_)
        :: encodeFields (CommonPanelFields.drop 4) c := rfl

/-- The `type` string of an encoded panel is the `Type` of its common fields, when no key
of the members that follow the common fields is `type` in any letter case. -/
theorem docType_encoded (c : CommonPanel) (extra : List (String × JSON))
    (h : ∀ kv ∈ extra, foldEq kv.1 "type" = false) :
    docType (encodeFields CommonPanelFields c ++ extra) = c.Type_ := by
  unfold docType
  rw [docTypeFrom_append, docTypeFrom_skip extra _ h, encodeFields_common]
  have h4 : docTypeFrom
      (("gridPos", JSON.obj (encodeFields GridPosFields c.GridPos)) :: ("id", .num (.int c.ID))
        :: ("title", .str c.Title) :: ("type", .str c.Type_)
        :: encodeFields (CommonPanelFields.drop 4) c) ""
      = docTypeFrom (encodeFields (CommonPanelFields.drop 4) c) c.Type_ := rfl
  rw [h4]
  apply docTypeFrom_skip
  intro kv hkv
  obtain ⟨f, hf, hname⟩ := encodeFields_key _ _ _ hkv
  rw [hname]
  have hall : ((CommonPanelFields.drop 4).all fun f => !foldEq f.name "type") = true := by rfl
  have := List.all_eq_true.mp hall f hf
  simpa using this

theorem payload_keys_not_type {S : Type} (fs : List (JsonField S)) (s : S)
    (hall : (fs.all fun f => !foldEq f.name "type") = true) :
    ∀ kv ∈ encodeFields fs s, foldEq kv.1 "type" = false := by
  intro kv hkv
  obtain ⟨f, hf, hname⟩ := encodeFields_key _ _ _ hkv
  rw [hname]
  have := List.all_eq_true.mp hall f hf
  simpa using this

/-- The tag of the panel that `UnmarshalJSON` gives for an object is the one of the `type`
string of the object. -/
theorem unmarshal_ok_docType (kvs : List (String × JSON)) (q : Panel)
    (h : Panel.UnmarshalJSON Panel.zero (some (.obj kvs)) = (q, none)) :
    q.OfType = switchTag (docType kvs) := by
  obtain ⟨j, probe, hj, hp, hq⟩ := unmarshal_ok_common _ _ _ h
  cases hj
  show q.CommonPanel.OfType = _
  rw [hq, probe_type_eq_docType kvs probe hp]

/-- C20 (counterexample): the graph panel that `RepeatDatasourcesForEachTarget` with no
names leaves has an empty, non-nil target list. A row that holds it, followed by the panel
of `NewTable`, is encoded without error, and the text is decoded without error, but the
nested graph that comes back is the panel of `NewGraph`, whose target list is nil: the
field `targets,omitempty` was not written, so the graph payload is not the one that was
encoded. -/
theorem row_child_payload_changes :
    (NewGraph "g").RepeatDatasourcesForEachTarget []
      = .ok (Panel.mk
          { OfType := GraphType, Title := "g", Type_ := "graph", Renderer := some "flot",
            Span := .int 12, IsNew := newTrue }
          (some { NullPointMode := "connected", Pointradius := .int 5, XAxis := true,
                  YAxis := true, Targets := some [] })
          none none none none none none none none) ∧
    decodeEncoded RangeOrder.byKey
      (Panel.mk { OfType := RowType, Type_ := "row" } none none none none none none
        (some { Panels := some [
          some (Panel.mk
            { OfType := GraphType, Title := "g", Type_ := "graph", Renderer := some "flot",
              Span := .int 12, IsNew := newTrue }
            (some { NullPointMode := "connected", Pointradius := .int 5, XAxis := true,
                    YAxis := true, Targets := some [] })
            none none none none none none none none),
          some (NewTable "t")] }) none none)
      = .ok (Panel.mk { OfType := RowType, Type_ := "row" } none none none none none none
          (some { Panels := some [some (NewGraph "g"), some (NewTable "t")] }) none none,
        none) ∧
    Panel.GetTargets (Panel.mk
        { OfType := GraphType, Title := "g", Type_ := "graph", Renderer := some "flot",
          Span := .int 12, IsNew := newTrue }
        (some { NullPointMode := "connected", Pointradius := .int 5, XAxis := true,
                YAxis := true, Targets := some [] })
        none none none none none none none none) = .ok (some (some [])) ∧
    (NewGraph "g").GetTargets = .ok (some none) := by
  refine ⟨rfl, ?_, rfl, rfl⟩
  have hm : Panel.MarshalJSON RangeOrder.byKey
      (Panel.mk { OfType := RowType, Type_ := "row" } none none none none none none
        (some { Panels := some [
          some (Panel.mk
            { OfType := GraphType, Title := "g", Type_ := "graph", Renderer := some "flot",
              Span := .int 12, IsNew := newTrue }
            (some { NullPointMode := "connected", Pointradius := .int 5, XAxis := true,
                    YAxis := true, Targets := some [] })
            none none none none none none none none),
          some (NewTable "t")] }) none none)
      = .ok (.obj [("gridPos", .obj []), ("id", .num (.int 0)), ("title", .str ""),
          ("type", .str "row"), ("panels", .arr [graphDoc "g", tableDoc "t"])]) := rfl
  unfold decodeEncoded
  rw [hm]
  have hu : Panel.UnmarshalJSON Panel.zero
      (some (.obj [("gridPos", .obj []), ("id", .num (.int 0)), ("title", .str ""),
          ("type", .str "row"), ("panels", .arr [graphDoc "g", tableDoc "t"])]))
      = (Panel.mk { OfType := RowType, Type_ := "row" } none none none none none none
          (some { Panels := some [some (NewGraph "g"), some (NewTable "t")] }) none none,
        none) := rfl
  exact congrArg Res.ok hu


/-! ## Texts that are not objects -/

theorem unmarshal_not_object (j : JSON) (p : Panel) (e : String)
    (h : decodeStruct CommonPanelFields j {} = .error e) :
    Panel.UnmarshalJSON p (some j) = (p, some e) := by
  show unmarshalValue j p = _
  rw [unmarshalValue_eq_body]
  exact unmarshalBody_probe_error j p _ e h

/-- C22 (counterexample): the text `null` is not an object, and `UnmarshalJSON` of it
returns no error: the probe leaves the common fields at their zero values, the empty
`type` selects the default case, the receiver gets the tag `CustomType` and, as its bag,
a pointer to the nil map. -/
theorem decode_null_succeeds :
    Panel.UnmarshalJSON Panel.zero (some .null)
      = (Panel.mk { OfType := CustomType } none none none none none none none none (some none),
        none) :=
  rfl

/-- C22 (amended): for every text that is not well-formed JSON and for every JSON array,
string, number and boolean, `UnmarshalJSON` returns an error and leaves the receiver as it
was. For the text `null` it returns no error: the receiver gets the zero common fields,
the tag `CustomType` and a pointer to the nil map as its bag, and keeps its other variant
pointers. -/
theorem decode_rejects_non_objects (p : Panel) (b : Doc)
    (h : b = none ∨ (∃ xs, b = some (.arr xs)) ∨ (∃ s, b = some (.str s)) ∨
      (∃ n, b = some (.num n)) ∨ (∃ v, b = some (.bool v))) :
    (∃ e, Panel.UnmarshalJSON p b = (p, some e)) ∧
    Panel.UnmarshalJSON p (some .null)
      = (Panel.mk { OfType := CustomType } p.GraphPanel p.TablePanel p.TextPanel
          p.SinglestatPanel p.DashlistPanel p.PluginlistPanel p.RowPanel p.AlertlistPanel
          (some none), none) := by
  refine ⟨?_, ?_⟩
  · rcases h with h | ⟨xs, h⟩ | ⟨s, h⟩ | ⟨n, h⟩ | ⟨v, h⟩ <;> subst h
    · exact ⟨_, rfl⟩
    · exact ⟨_, unmarshal_not_object (.arr xs) p _ rfl⟩
    · exact ⟨_, unmarshal_not_object (.str s) p _ rfl⟩
    · exact ⟨_, unmarshal_not_object (.num n) p _ rfl⟩
    · exact ⟨_, unmarshal_not_object (.bool v) p _ rfl⟩
  · obtain ⟨c, g, t, x, s, d, l, r, a, cu⟩ := p
    rfl

theorem decode_rejects_non_objects_witness :
    (∃ e, Panel.UnmarshalJSON (NewText "notes") (some (.arr [.obj [("type", .str "graph")]]))
      = (NewText "notes", some e)) ∧
    Panel.UnmarshalJSON (NewText "notes") (some .null)
      = (Panel.mk { OfType := CustomType } (NewText "notes").GraphPanel
          (NewText "notes").TablePanel (NewText "notes").TextPanel
          (NewText "notes").SinglestatPanel (NewText "notes").DashlistPanel
          (NewText "notes").PluginlistPanel (NewText "notes").RowPanel
          (NewText "notes").AlertlistPanel (some none), none) :=
  decode_rejects_non_objects (NewText "notes") (some (.arr [.obj [("type", .str "graph")]]))
    (Or.inr (Or.inl ⟨_, rfl⟩))

/-! ## Faults of `RepeatTargetsForDatasources` -/

/-- C26: `RepeatTargetsForDatasources` does not complete on these two panels. The panel of
`NewGraph` has no targets, and with one name the loop takes `0 % 0`: the call stops with
a division by zero. On the table panel whose one target has the empty `RefID`, the second
of two names needs the increment of that id, and `incRefID` indexes the first byte of the
empty string. -/
theorem repeat_targets_faults :
    (NewGraph "g").GetTargets = .ok (some none) ∧
    (NewGraph "g").RepeatTargetsForDatasources ["x"] = .fault "integer divide by zero" ∧
    (Panel.mk { OfType := TableType, Type_ := "table" } none
        (some { Targets := some [{ Expr := "up" }] })
        none none none none none none none).RepeatTargetsForDatasources ["x", "y"]
      = .fault "index out of range [0] with length 0" :=
  ⟨rfl, rfl, rfl⟩

/-! ## The custom bag in the output -/

theorem visit_singleton (ord : RangeOrder) (kv : String × Interface) :
    ord.visit [kv] = [kv] :=
  List.perm_singleton.mp (ord.perm [kv])

theorem visit_short (ord : RangeOrder) (l : List (String × Interface)) (h : l.length ≤ 1) :
    ord.visit l = l := by
  match l, h with
  | [], _ => exact List.perm_nil.mp (ord.perm [])
  | [kv], _ => exact visit_singleton ord kv

theorem visit_all (ord : RangeOrder) (l : List (String × Interface))
    (f : String × Interface → Bool) : (ord.visit l).all f = l.all f := by
  rw [Bool.eq_iff_iff, List.all_eq_true, List.all_eq_true]
  exact ⟨fun h x hx => h x ((ord.perm l).mem_iff.mpr hx),
    fun h x hx => h x ((ord.perm l).mem_iff.mp hx)⟩

/-- C21: the text `{"title":"old"}` has no `type`, so `UnmarshalJSON` takes the default
case, and the bag of the panel it returns holds the key `title`, which is the key of a
common field. `MarshalJSON` of that panel writes `title` twice, in any order of the map
`range`. When the title of the panel is then set to `"new"`, `MarshalJSON` writes the new
title first and the one of the bag after it, and `UnmarshalJSON` of that text gives a
panel with the title `"old"`. -/
theorem decoded_custom_repeats_common_keys (ord : RangeOrder) :
    Panel.UnmarshalJSON Panel.zero (some (.obj [("title", .str "old")]))
      = (Panel.mk { OfType := CustomType, Title := "old" } none none none none none none none
          none (some (some [("title", .str "old")])), none) ∧
    Panel.MarshalJSON ord
        (Panel.mk { OfType := CustomType, Title := "old" } none none none none none none none
          none (some (some [("title", .str "old")])))
      = .ok (.obj [("gridPos", .obj []), ("id", .num (.int 0)), ("title", .str "old"),
          ("type", .str ""), ("title", .str "old")]) ∧
    Panel.MarshalJSON ord
        (Panel.mk { OfType := CustomType, Title := "new" } none none none none none none none
          none (some (some [("title", .str "old")])))
      = .ok (.obj [("gridPos", .obj []), ("id", .num (.int 0)), ("title", .str "new"),
          ("type", .str ""), ("title", .str "old")]) ∧
    Panel.UnmarshalJSON Panel.zero
        (some (.obj [("gridPos", .obj []), ("id", .num (.int 0)), ("title", .str "new"),
          ("type", .str ""), ("title", .str "old")]))
      = (Panel.mk { OfType := CustomType, Title := "old" } none none none none none none none
          none (some (some [("gridPos", .obj []), ("id", .num (.int 0)),
            ("title", .str "old"), ("type", .str "")])), none) := by
  refine ⟨rfl, ?_, ?_, rfl⟩
  · show customPanelOutput.MarshalJSON ord _ _ = _
    unfold customPanelOutput.MarshalJSON
    dsimp only [Option.getD]
    rw [visit_singleton]
    rfl
  · show customPanelOutput.MarshalJSON ord _ _ = _
    unfold customPanelOutput.MarshalJSON
    dsimp only [Option.getD]
    rw [visit_singleton]
    rfl

/-! ## Encoding and the order of the map range -/

theorem marshalPanels_congr (ord1 ord2 : RangeOrder) (l : List (Option Panel))
    (h : ∀ q, some q ∈ l → Panel.MarshalJSON ord1 q = Panel.MarshalJSON ord2 q) :
    marshalPanels ord1 l = marshalPanels ord2 l := by
  induction l with
  | nil => rfl
  | cons x rest ih =>
    have hrest := ih (fun q hq => h q (List.mem_cons_of_mem _ hq))
    cases x with
    | none => rw [marshalPanels_none, marshalPanels_none, hrest]
    | some q =>
      rw [marshalPanels_some, marshalPanels_some, h q (List.mem_cons_self _ _), hrest]

theorem marshalBody_plain (ord1 ord2 : RangeOrder) (p : Panel) (n1 n2 : Res (List JSON))
    (hc : p.OfType ≠ CustomType) (hr : p.OfType ≠ RowType) :
    marshalBody ord1 p n1 = marshalBody ord2 p n2 := by
  obtain ⟨c, g, t, x, s, d, l, r, a, cu⟩ := p
  have hc' : c.OfType ≠ CustomType := hc
  have hr' : c.OfType ≠ RowType := hr
  unfold marshalBody
  dsimp only
  rw [if_neg hr', if_neg hc', if_neg hr', if_neg hc']

theorem marshalBody_row (ord1 ord2 : RangeOrder) (p : Panel) (n : Res (List JSON))
    (hr : p.OfType = RowType) :
    marshalBody ord1 p n = marshalBody ord2 p n := by
  obtain ⟨c, g, t, x, s, d, l, r, a, cu⟩ := p
  have hr' : c.OfType = RowType := hr
  unfold marshalBody
  dsimp only
  rw [hr']
  rfl

theorem marshal_custom (ord : RangeOrder) (p : Panel) (m : CustomPanel)
    (hc : p.OfType = CustomType) (hm : p.CustomPanel = some m) :
    Panel.MarshalJSON ord p = customPanelOutput.MarshalJSON ord p.CommonPanel m := by
  rw [MarshalJSON_eq_body]
  generalize marshalPanels ord p.nestedPanels = n
  obtain ⟨c, g, t, x, s, d, l, r, a, cu⟩ := p
  have hc' : c.OfType = CustomType := hc
  have hm' : cu = some m := hm
  subst hm'
  unfold marshalBody
  dsimp only
  rw [hc']
  rfl

/-- C24 (counterexample): the text `{"type":"heatmap","cards":1}` is decoded to a custom
panel whose bag holds the keys `cards` and `type`. `MarshalJSON` of that panel writes
`cards` before `type` when the `range` visits the map in the order of the keys, and
`type` before `cards` when it visits it in the reverse order: two runs can return two
different texts. -/
theorem encode_depends_on_range_order :
    Panel.UnmarshalJSON Panel.zero
        (some (.obj [("type", .str "heatmap"), ("cards", .num (.int 1))]))
      = (Panel.mk { OfType := CustomType, Type_ := "heatmap" } none none none none none none
          none none (some (some [("cards", .num (.int 1)), ("type", .str "heatmap")])),
        none) ∧
    Panel.MarshalJSON RangeOrder.byKey
        (Panel.mk { OfType := CustomType, Type_ := "heatmap" } none none none none none none
          none none (some (some [("cards", .num (.int 1)), ("type", .str "heatmap")])))
      = .ok (.obj [("gridPos", .obj []), ("id", .num (.int 0)), ("title", .str ""),
          ("type", .str "heatmap"), ("cards", .num (.int 1)), ("type", .str "heatmap")]) ∧
    Panel.MarshalJSON RangeOrder.reversed
        (Panel.mk { OfType := CustomType, Type_ := "heatmap" } none none none none none none
          none none (some (some [("cards", .num (.int 1)), ("type", .str "heatmap")])))
      = .ok (.obj [("gridPos", .obj []), ("id", .num (.int 0)), ("title", .str ""),
          ("type", .str "heatmap"), ("type", .str "heatmap"), ("cards", .num (.int 1))]) ∧
    Panel.MarshalJSON RangeOrder.byKey
        (Panel.mk { OfType := CustomType, Type_ := "heatmap" } none none none none none none
          none none (some (some [("cards", .num (.int 1)), ("type", .str "heatmap")])))
      ≠ Panel.MarshalJSON RangeOrder.reversed
        (Panel.mk { OfType := CustomType, Type_ := "heatmap" } none none none none none none
          none none (some (some [("cards", .num (.int 1)), ("type", .str "heatmap")]))) := by
  refine ⟨rfl, rfl, rfl, ?_⟩
  intro h
  have h' := congrArg (fun r : Res JSON =>
    match r with
    | .ok (.obj kvs) => kvs.map Prod.fst
    | _ => []) h
  exact absurd h' (by decide)

/-- C24 (amended): `MarshalJSON` returns the same outcome in every order of the map
`range` for every panel whose tag is neither `CustomType` nor `RowType`, for a row panel
whose nested panels each have that property, and for a custom panel whose bag holds at
most one key. For a custom panel with a larger bag the texts of two runs hold the same
members: the common fields first, in the same order, then the entries of the bag in the
order of the `range` of that run. -/
theorem encode_deterministic_up_to_bag_order (ord1 ord2 : RangeOrder) (p : Panel) :
    (p.OfType ≠ CustomType → p.OfType ≠ RowType →
      Panel.MarshalJSON ord1 p = Panel.MarshalJSON ord2 p) ∧
    (p.OfType = RowType →
      (∀ q, some q ∈ p.nestedPanels → Panel.MarshalJSON ord1 q = Panel.MarshalJSON ord2 q) →
      Panel.MarshalJSON ord1 p = Panel.MarshalJSON ord2 p) ∧
    (p.OfType = CustomType → ∀ bag, p.CustomPanel = some bag → (bag.getD []).length ≤ 1 →
      Panel.MarshalJSON ord1 p = Panel.MarshalJSON ord2 p) ∧
    (p.OfType = CustomType → ∀ bag, p.CustomPanel = some bag →
      ∀ j1, Panel.MarshalJSON ord1 p = .ok j1 →
        j1 = .obj (encodeFields CommonPanelFields p.CommonPanel ++ ord1.visit (bag.getD [])) ∧
        Panel.MarshalJSON ord2 p
          = .ok (.obj (encodeFields CommonPanelFields p.CommonPanel
              ++ ord2.visit (bag.getD []))) ∧
        (ord1.visit (bag.getD [])).Perm (ord2.visit (bag.getD []))) := by
  refine ⟨?_, ?_, ?_, ?_⟩
  · intro hc hr
    rw [MarshalJSON_eq_body, MarshalJSON_eq_body]
    exact marshalBody_plain ord1 ord2 p _ _ hc hr
  · intro hr hn
    rw [MarshalJSON_eq_body, MarshalJSON_eq_body, marshalPanels_congr ord1 ord2 _ hn]
    exact marshalBody_row ord1 ord2 p _ hr
  · intro hc bag hb hlen
    rw [marshal_custom ord1 p bag hc hb, marshal_custom ord2 p bag hc hb]
    unfold customPanelOutput.MarshalJSON
    dsimp only
    rw [visit_short ord1 _ hlen, visit_short ord2 _ hlen]
  · intro hc bag hb j1 h1
    rw [marshal_custom ord1 p bag hc hb] at h1
    rw [marshal_custom ord2 p bag hc hb]
    unfold customPanelOutput.MarshalJSON at h1 ⊢
    dsimp only at h1 ⊢
    rw [visit_all] at h1 ⊢
    by_cases hall : (bag.getD []).all (fun kv => rawKeyOK kv.1) = true
    · rw [if_pos hall] at h1 ⊢
      exact ⟨(Res.ok.inj h1).symm, rfl, (ord1.perm _).trans (ord2.perm _).symm⟩
    · rw [if_neg hall] at h1
      exact absurd h1 (by simp)

theorem encode_deterministic_up_to_bag_order_witness :
    Panel.MarshalJSON RangeOrder.byKey (NewGraph "cpu")
      = Panel.MarshalJSON RangeOrder.reversed (NewGraph "cpu") ∧
    Panel.MarshalJSON RangeOrder.byKey
        (Panel.mk { OfType := CustomType, Type_ := "heatmap" } none none none none none none
          none none (some (some [("cards", .num (.int 1))])))
      = Panel.MarshalJSON RangeOrder.reversed
        (Panel.mk { OfType := CustomType, Type_ := "heatmap" } none none none none none none
          none none (some (some [("cards", .num (.int 1))]))) :=
  ⟨(encode_deterministic_up_to_bag_order RangeOrder.byKey RangeOrder.reversed
      (NewGraph "cpu")).1 (by decide) (by decide),
   (encode_deterministic_up_to_bag_order RangeOrder.byKey RangeOrder.reversed
      (Panel.mk { OfType := CustomType, Type_ := "heatmap" } none none none none none none
        none none (some (some [("cards", .num (.int 1))])))).2.2.1 rfl _ rfl (by decide)⟩

/-! ## Reference ids of `RepeatDatasourcesForEachTarget` beyond the letters -/

theorem incRefID_fanOutID (k : Nat) : incRefID (fanOutID k) = .ok (fanOutID (k + 1)) := by
  by_cases h : k ≤ 64
  · interval_cases k <;> rfl
  · have h1 : fanOutOrdinal k = 196 := by
      unfold fanOutOrdinal
      rw [if_neg (by omega), if_neg (by omega)]
    have h2 : fanOutOrdinal (k + 1) = 196 := by
      unfold fanOutOrdinal
      rw [if_neg (by omega), if_neg (by omega)]
    unfold fanOutID
    rw [h1, h2]
    rfl

theorem incRefIDTimes_fanOutID (k : Nat) : incRefIDTimes k "A" = .ok (fanOutID k) := by
  have h : ∀ n i, incRefIDTimes n (fanOutID i) = .ok (fanOutID (i + n)) := by
    intro n
    induction n with
    | zero => intro i; rfl
    | succ n ih =>
      intro i
      unfold incRefIDTimes
      rw [incRefID_fanOutID]
      simp only [Res.bind]
      rw [ih (i + 1), show i + 1 + n = i + (n + 1) by omega]
  have h0 := h k 0
  rw [Nat.zero_add] at h0
  exact h0

theorem fanOutOrdinal_le (k : Nat) : fanOutOrdinal k ≤ 256 := by
  unfold fanOutOrdinal
  split_ifs <;> omega

theorem fanOutID_inj (a b : Nat) (ha : a ≤ 65) (hb : b ≤ 65) (h : fanOutID a = fanOutID b) :
    a = b := by
  unfold fanOutID at h
  have h1 : Char.ofNat (fanOutOrdinal a) = Char.ofNat (fanOutOrdinal b) := by
    have := congrArg String.data h
    simpa using this
  have h2 := congrArg Char.toNat h1
  rw [toNat_ofNat_small _ (fanOutOrdinal_le a), toNat_ofNat_small _ (fanOutOrdinal_le b)] at h2
  unfold fanOutOrdinal at h2
  split_ifs at h2 <;> omega

theorem fanOutID_late (k : Nat) (h : 65 ≤ k) : fanOutID k = "Ä" := by
  have h1 : fanOutOrdinal k = 196 := by
    unfold fanOutOrdinal
    rw [if_neg (by omega), if_neg (by omega)]
  unfold fanOutID
  rw [h1]

theorem repeatDSNames_ids (target : Target) (ds : List String) (k : Nat) (acc : List Target) :
    ∃ out, repeatDSNames target ds (fanOutID k, acc)
        = .ok (fanOutID (k + ds.length), acc ++ out) ∧
      out.length = ds.length ∧
      ∀ j d, ds[j]? = some d →
        out[j]? = some { target with RefID := fanOutID (k + j), Datasource := d } := by
  induction ds generalizing k acc with
  | nil => exact ⟨[], by simp [repeatDSNames], rfl, by simp⟩
  | cons d rest ih =>
    obtain ⟨out, h1, h2, h3⟩ := ih (k + 1)
      (acc ++ [{ target with RefID := fanOutID k, Datasource := d }])
    refine ⟨{ target with RefID := fanOutID k, Datasource := d } :: out, ?_, ?_, ?_⟩
    · unfold repeatDSNames
      dsimp only
      rw [incRefID_fanOutID k]
      dsimp only
      rw [h1]
      simp only [List.length_cons, List.append_assoc, List.singleton_append]
      rw [show k + 1 + rest.length = k + (rest.length + 1) by omega]
    · simp [h2]
    · intro j d' hj
      cases j with
      | zero =>
        simp only [List.getElem?_cons_zero, Option.some.injEq] at hj
        subst hj
        simp only [List.getElem?_cons_zero, Nat.add_zero]
      | succ j' =>
        simp only [List.getElem?_cons_succ] at hj ⊢
        rw [h3 j' d' hj, show k + 1 + j' = k + (j' + 1) by omega]

theorem repeatDSTargets_ids (ds : List String) (ts : List Target) (k : Nat)
    (acc : List Target) :
    ∃ out, repeatDSTargets ds ts (fanOutID k, acc)
        = .ok (fanOutID (k + ts.length * ds.length), acc ++ out) ∧
      out.length = ts.length * ds.length ∧
      ∀ i j t d, ts[i]? = some t → ds[j]? = some d →
        out[i * ds.length + j]?
          = some { t with RefID := fanOutID (k + (i * ds.length + j)), Datasource := d } := by
  induction ts generalizing k acc with
  | nil => exact ⟨[], by simp [repeatDSTargets], by simp, by simp⟩
  | cons t rest ih =>
    have hlen : (t :: rest).length * ds.length = ds.length + rest.length * ds.length := by
      simp only [List.length_cons]; ring
    obtain ⟨out1, a1, a2, a3⟩ := repeatDSNames_ids t ds k acc
    obtain ⟨out2, b1, b2, b3⟩ := ih (k + ds.length) (acc ++ out1)
    refine ⟨out1 ++ out2, ?_, ?_, ?_⟩
    · unfold repeatDSTargets
      rw [a1]
      dsimp only
      rw [b1, hlen, List.append_assoc, Nat.add_assoc]
    · rw [List.length_append, a2, b2, hlen]
    · intro i j t' d hi hj
      have hjlt : j < ds.length := by
        rcases Nat.lt_or_ge j ds.length with h | h
        · exact h
        · rw [List.getElem?_eq_none h] at hj; cases hj
      cases i with
      | zero =>
        simp only [List.getElem?_cons_zero, Option.some.injEq] at hi
        subst hi
        simp only [Nat.zero_mul, Nat.zero_add]
        rw [List.getElem?_append_left (by omega)]
        exact a3 j d hj
      | succ i' =>
        simp only [List.getElem?_cons_succ] at hi
        have hidx : (i' + 1) * ds.length + j = out1.length + (i' * ds.length + j) := by
          rw [a2]; ring
        rw [hidx, List.getElem?_append_right (by omega)]
        simp only [Nat.add_sub_cancel_left]
        rw [b3 i' j t' d hi hj]
        rw [show k + ds.length + (i' * ds.length + j) = k + (out1.length + (i' * ds.length + j))
          by rw [a2]; omega]

/-- The list that `repeatDS` leaves: entry `a` carries the id number `a`. -/
theorem repeatDS_ids (ds : List String) (ts : Slice Target) :
    ∃ out, repeatDS ds ts = .ok (some out) ∧ out.length = ts.elems.length * ds.length ∧
      ∀ a x, out[a]? = some x → x.RefID = fanOutID a := by
  obtain ⟨out, h1, h2, h3⟩ := repeatDSTargets_ids ds ts.elems 0 []
  refine ⟨out, ?_, h2, ?_⟩
  · unfold repeatDS
    dsimp only
    rw [show ("A" : String) = fanOutID 0 from by decide, h1]
    rfl
  · intro a x hx
    have ha : a < ts.elems.length * ds.length := by
      rcases Nat.lt_or_ge a out.length with h | h
      · rw [← h2]; exact h
      · rw [List.getElem?_eq_none h] at hx; cases hx
    have hm : 0 < ds.length := by
      rcases Nat.eq_zero_or_pos ds.length with h | h
      · rw [h, Nat.mul_zero] at ha; omega
      · exact h
    have hi : a / ds.length < ts.elems.length := by
      rw [Nat.div_lt_iff_lt_mul hm]; exact ha
    have hj : a % ds.length < ds.length := Nat.mod_lt _ hm
    have hidx : a / ds.length * ds.length + a % ds.length = a := Nat.div_add_mod' a ds.length
    have h4 := h3 (a / ds.length) (a % ds.length) _ _
      (List.getElem?_eq_getElem hi) (List.getElem?_eq_getElem hj)
    rw [hidx, hx, Nat.zero_add] at h4
    rw [Option.some.inj h4]

theorem refIDs_of_getTargets (q : Panel) (out : List Target)
    (h : q.GetTargets = .ok (some (some out))) : q.refIDs = out.map fun t => t.RefID := by
  unfold Panel.refIDs
  rw [h]
  rfl

theorem map_refID_eq (out : List Target) (h : ∀ a x, out[a]? = some x → x.RefID = fanOutID a) :
    (out.map fun t => t.RefID) = (List.range out.length).map fanOutID := by
  apply List.ext_getElem?
  intro a
  rw [List.getElem?_map, List.getElem?_map]
  rcases Nat.lt_or_ge a out.length with hlt | hge
  · rw [List.getElem?_eq_getElem hlt, List.getElem?_range hlt]
    simp only [Option.map_some']
    rw [h a _ (List.getElem?_eq_getElem hlt)]
  · rw [List.getElem?_eq_none hge, List.getElem?_eq_none (by simpa using hge)]
    rfl

theorem fanOutID_nodup (n : Nat) (h : n ≤ 66) : ((List.range n).map fanOutID).Nodup := by
  apply List.Nodup.map_on _ (List.nodup_range n)
  intro a ha b hb hab
  rw [List.mem_range] at ha hb
  exact fanOutID_inj a b (by omega) (by omega) hab

/-- C25 (counterexample): on the graph panel with one target, the call with 67 names
leaves 67 targets, and the ids of the last three of them (numbers 64, 65 and 66) are
`"Ã"`, `"Ä"` and `"Ä"`: two targets carry the same `RefID`. -/
theorem fanOut_repeats_an_id :
    ((Panel.mk { OfType := GraphType, Type_ := "graph" }
        (some { Targets := some [{ RefID := "A", Expr := "up" }] })
        none none none none none none none none).RepeatDatasourcesForEachTarget
        (List.replicate 67 "ds")).bind (fun q => .ok (q.refIDs.length, q.refIDs.drop 64))
      = .ok (67, ["Ã", "Ä", "Ä"]) := by
  set_option maxRecDepth 100000 in
  rfl

/-- C25 (amended): on a graph, singlestat or table panel with `n` targets, and for `m`
names, `RepeatDatasourcesForEachTarget` completes, and the target number `a` of the new
list carries the id number `a` of the sequence that starts at `"A"` and applies `incRefID`
at each step (`fanOutID a`). The `n*m` ids are pairwise distinct when `n*m <= 66`: they are the
characters of the ordinals 65 to 128, then `"Ã"`, then `"Ä"`. Every target from number 65
on carries the id `"Ä"`, so the ids repeat when `n*m >= 67`. -/
theorem fanOut_ids_distinct_up_to_66 (p : Panel) (targets : Slice Target)
    (dsNames : List String) (hlist : p.GetTargets = .ok (some targets)) :
    ∃ q, p.RepeatDatasourcesForEachTarget dsNames = .ok q ∧
      q.refIDs = (List.range (targets.elems.length * dsNames.length)).map fanOutID ∧
      (∀ a, incRefIDTimes a "A" = .ok (fanOutID a)) ∧
      (targets.elems.length * dsNames.length ≤ 66 → q.refIDs.Nodup) ∧
      (∀ a, 65 ≤ a → a < targets.elems.length * dsNames.length →
        q.refIDs[a]? = some "Ä") := by
  obtain ⟨out, h1, h2, h3⟩ := repeatDS_ids dsNames targets
  obtain ⟨q, hq1, hq2⟩ := onTargets_getTargets (repeatDS dsNames) p targets (some out) hlist h1
  have hids : q.refIDs = (List.range (targets.elems.length * dsNames.length)).map fanOutID := by
    rw [refIDs_of_getTargets q out hq2, map_refID_eq out h3, h2]
  refine ⟨q, hq1, hids, incRefIDTimes_fanOutID, ?_, ?_⟩
  · intro hsize
    rw [hids]
    exact fanOutID_nodup _ hsize
  · intro a ha hlt
    rw [hids, List.getElem?_map, List.getElem?_range hlt]
    simp only [Option.map_some']
    rw [fanOutID_late a ha]

theorem fanOut_ids_distinct_up_to_66_witness :
    ∃ q, (Panel.mk { OfType := SinglestatType, Type_ := "singlestat" } none none none
        (some { Targets := some [{ RefID := "X", Expr := "up" }, { RefID := "X" }] })
        none none none none none).RepeatDatasourcesForEachTarget ["p", "q", "r"] = .ok q ∧
      q.refIDs = (List.range (2 * 3)).map fanOutID ∧
      (∀ a, incRefIDTimes a "A" = .ok (fanOutID a)) ∧
      (2 * 3 ≤ 66 → q.refIDs.Nodup) ∧
      (∀ a, 65 ≤ a → a < 2 * 3 → q.refIDs[a]? = some "Ä") :=
  fanOut_ids_distinct_up_to_66 _ (some [{ RefID := "X", Expr := "up" }, { RefID := "X" }])
    ["p", "q", "r"] rfl

/-! ## The flat merge of common fields and payload -/

theorem encodeFields_mem {S : Type} (fs : List (JsonField S)) (s : S) (f : JsonField S)
    (hf : f ∈ fs) (h : (f.omitempty && f.isEmpty s) = false) :
    (f.name, f.enc s) ∈ encodeFields fs s := by
  unfold encodeFields
  rw [List.mem_map]
  refine ⟨f, ?_, rfl⟩
  rw [List.mem_filter]
  exact ⟨hf, by rw [h]; rfl⟩

theorem encodeFields_keys_sublist {S : Type} (fs : List (JsonField S)) (s : S) :
    ((encodeFields fs s).map Prod.fst).Sublist (fs.map fun f => f.name) := by
  unfold encodeFields
  rw [List.map_map]
  exact (List.filter_sublist _).map _

theorem requiredKeys_common (c : CommonPanel) (extra : List (String × JSON)) :
    RequiredKeys c (encodeFields CommonPanelFields c ++ extra) := by
  have h : ∃ rest, encodeFields CommonPanelFields c
      = ("gridPos", .obj (encodeFields GridPosFields c.GridPos)) :: ("id", .num (.int c.ID))
        :: ("title", .str c.Title) :: ("type", .str c.Type_) :: rest := ⟨_, rfl⟩
  obtain ⟨rest, hrest⟩ := h
  unfold RequiredKeys
  rw [hrest]
  simp

theorem flatMerge_concat {S : Type} (fs : List (JsonField S)) (c : CommonPanel) (v : S)
    (hnames : (CommonPanelFields.map (fun f => f.name) ++ fs.map (fun f => f.name)).Nodup) :
    FlatMerge fs c v (encodeFields CommonPanelFields c ++ encodeFields fs v) := by
  refine ⟨requiredKeys_common c _, ?_, ?_, ?_, ?_⟩
  · intro f hf h
    exact List.mem_append_left _ (encodeFields_mem _ c f hf h)
  · intro f hf h
    exact List.mem_append_right _ (encodeFields_mem _ v f hf h)
  · intro kv hkv
    rcases List.mem_append.mp hkv with h | h
    · obtain ⟨f, hf, hname⟩ := encodeFields_key _ _ _ h
      exact Or.inl (List.mem_map.mpr ⟨f, hf, hname.symm⟩)
    · obtain ⟨f, hf, hname⟩ := encodeFields_key _ _ _ h
      exact Or.inr (List.mem_map.mpr ⟨f, hf, hname.symm⟩)
  · rw [List.map_append]
    exact hnames.sublist
      ((encodeFields_keys_sublist _ c).append (encodeFields_keys_sublist _ v))

theorem marshal_graph (ord : RangeOrder) (p : Panel) (v : GraphPanel)
    (h : p.OfType = GraphType) (hv : p.GraphPanel = some v) :
    Panel.MarshalJSON ord p = .ok (.obj (encodeFields CommonPanelFields p.CommonPanel
      ++ encodeFields GraphPanelFields v)) := by
  rw [MarshalJSON_eq_body]
  generalize marshalPanels ord p.nestedPanels = n
  obtain ⟨c, g, t, x, s, d, l, r, a, cu⟩ := p
  have h' : c.OfType = GraphType := h
  have hv' : g = some v := hv
  subst hv'
  unfold marshalBody
  dsimp only
  rw [h']
  rfl

theorem marshal_table (ord : RangeOrder) (p : Panel) (v : TablePanel)
    (h : p.OfType = TableType) (hv : p.TablePanel = some v) :
    Panel.MarshalJSON ord p = .ok (.obj (encodeFields CommonPanelFields p.CommonPanel
      ++ encodeFields TablePanelFields v)) := by
  rw [MarshalJSON_eq_body]
  generalize marshalPanels ord p.nestedPanels = n
  obtain ⟨c, g, t, x, s, d, l, r, a, cu⟩ := p
  have h' : c.OfType = TableType := h
  have hv' : t = some v := hv
  subst hv'
  unfold marshalBody
  dsimp only
  rw [h']
  rfl

theorem marshal_text (ord : RangeOrder) (p : Panel) (v : TextPanel)
    (h : p.OfType = TextType) (hv : p.TextPanel = some v) :
    Panel.MarshalJSON ord p = .ok (.obj (encodeFields CommonPanelFields p.CommonPanel
      ++ encodeFields TextPanelFields v)) := by
  rw [MarshalJSON_eq_body]
  generalize marshalPanels ord p.nestedPanels = n
  obtain ⟨c, g, t, x, s, d, l, r, a, cu⟩ := p
  have h' : c.OfType = TextType := h
  have hv' : x = some v := hv
  subst hv'
  unfold marshalBody
  dsimp only
  rw [h']
  rfl

theorem marshal_singlestat (ord : RangeOrder) (p : Panel) (v : SinglestatPanel)
    (h : p.OfType = SinglestatType) (hv : p.SinglestatPanel = some v) :
    Panel.MarshalJSON ord p = .ok (.obj (encodeFields CommonPanelFields p.CommonPanel
      ++ encodeFields SinglestatPanelFields v)) := by
  rw [MarshalJSON_eq_body]
  generalize marshalPanels ord p.nestedPanels = n
  obtain ⟨c, g, t, x, s, d, l, r, a, cu⟩ := p
  have h' : c.OfType = SinglestatType := h
  have hv' : s = some v := hv
  subst hv'
  unfold marshalBody
  dsimp only
  rw [h']
  rfl

theorem marshal_dashlist (ord : RangeOrder) (p : Panel) (v : DashlistPanel)
    (h : p.OfType = DashlistType) (hv : p.DashlistPanel = some v) :
    Panel.MarshalJSON ord p = .ok (.obj (encodeFields CommonPanelFields p.CommonPanel
      ++ encodeFields DashlistPanelFields v)) := by
  rw [MarshalJSON_eq_body]
  generalize marshalPanels ord p.nestedPanels = n
  obtain ⟨c, g, t, x, s, d, l, r, a, cu⟩ := p
  have h' : c.OfType = DashlistType := h
  have hv' : d = some v := hv
  subst hv'
  unfold marshalBody
  dsimp only
  rw [h']
  rfl

theorem marshal_pluginlist (ord : RangeOrder) (p : Panel) (v : PluginlistPanel)
    (h : p.OfType = PluginlistType) (hv : p.PluginlistPanel = some v) :
    Panel.MarshalJSON ord p = .ok (.obj (encodeFields CommonPanelFields p.CommonPanel
      ++ encodeFields PluginlistPanelFields v)) := by
  rw [MarshalJSON_eq_body]
  generalize marshalPanels ord p.nestedPanels = n
  obtain ⟨c, g, t, x, s, d, l, r, a, cu⟩ := p
  have h' : c.OfType = PluginlistType := h
  have hv' : l = some v := hv
  subst hv'
  unfold marshalBody
  dsimp only
  rw [h']
  rfl

theorem marshal_alertlist (ord : RangeOrder) (p : Panel) (v : AlertlistPanel)
    (h : p.OfType = AlertlistType) (hv : p.AlertlistPanel = some v) :
    Panel.MarshalJSON ord p = .ok (.obj (encodeFields CommonPanelFields p.CommonPanel
      ++ encodeFields AlertlistPanelFields v)) := by
  rw [MarshalJSON_eq_body]
  generalize marshalPanels ord p.nestedPanels = n
  obtain ⟨c, g, t, x, s, d, l, r, a, cu⟩ := p
  have h' : c.OfType = AlertlistType := h
  have hv' : a = some v := hv
  subst hv'
  unfold marshalBody
  dsimp only
  rw [h']
  rfl

theorem marshal_row (ord : RangeOrder) (p : Panel) (row : RowPanel Panel) (js : List JSON)
    (h : p.OfType = RowType) (hv : p.RowPanel = some row)
    (hjs : marshalPanels ord p.nestedPanels = .ok js) :
    Panel.MarshalJSON ord p = .ok (.obj (encodeFields CommonPanelFields p.CommonPanel
      ++ if p.nestedPanels.isEmpty = true then [] else [("panels", .arr js)])) := by
  rw [MarshalJSON_eq_body, hjs]
  obtain ⟨c, g, t, x, s, d, l, r, a, cu⟩ := p
  have h' : c.OfType = RowType := h
  have hv' : r = some row := hv
  subst hv'
  unfold marshalBody
  dsimp only
  rw [h']
  obtain ⟨ps, ca⟩ := row
  rcases ps with _ | _ | ⟨q, rest⟩
  · show Res.ok (JSON.obj _) = Res.ok (JSON.obj (_ ++ []))
    rw [List.append_nil]
    rfl
  · show Res.ok (JSON.obj _) = Res.ok (JSON.obj (_ ++ []))
    rw [List.append_nil]
    rfl
  · rfl

theorem marshal_custom_ok (ord : RangeOrder) (p : Panel) (bag : CustomPanel)
    (h : p.OfType = CustomType) (hv : p.CustomPanel = some bag)
    (hkeys : ∀ kv ∈ bag.getD [], rawKeyOK kv.1 = true) :
    Panel.MarshalJSON ord p = .ok (.obj (encodeFields CommonPanelFields p.CommonPanel
      ++ ord.visit (bag.getD []))) := by
  rw [marshal_custom ord p bag h hv]
  unfold customPanelOutput.MarshalJSON
  dsimp only
  rw [visit_all, if_pos (List.all_eq_true.mpr hkeys)]

theorem common_keys_nodup (c : CommonPanel) :
    ((encodeFields CommonPanelFields c).map Prod.fst).Nodup :=
  List.Nodup.sublist (encodeFields_keys_sublist CommonPanelFields c) (by decide)

theorem encodeFields_common_mem (c : CommonPanel) (kv : String × JSON)
    (h : kv ∈ encodeFields CommonPanelFields c) :
    kv.1 ∈ CommonPanelFields.map (fun f => f.name) := by
  obtain ⟨f, hf, hname⟩ := encodeFields_key _ _ _ h
  exact List.mem_map.mpr ⟨f, hf, hname.symm⟩

/-- C23 (counterexample): a row panel with the tag `RowType` and a populated row payload
whose nested list holds the panel of `NewGraph "cpu"` and a panel with the unknown tag 42.
`MarshalJSON` of the second nested panel returns the error of the unknown tag, and
`MarshalJSON` of the row passes it on: it returns an error and no object, so no text
with the required keys is written. -/
theorem encode_row_yields_no_object :
    (Panel.mk { OfType := RowType, ID := 1, Title := "r", Type_ := "row" } none none none
      none none none
      (some { Panels := some [some (NewGraph "cpu"), some (Panel.mk { OfType := 42 } none
        none none none none none none none none)] }) none none).OfType = RowType ∧
    (Panel.mk { OfType := RowType, ID := 1, Title := "r", Type_ := "row" } none none none
      none none none
      (some { Panels := some [some (NewGraph "cpu"), some (Panel.mk { OfType := 42 } none
        none none none none none none none none)] }) none none).has RowType = true ∧
    Panel.MarshalJSON RangeOrder.byKey
        (Panel.mk { OfType := 42 } none none none none none none none none none)
      = .err "can't marshal unknown panel type" ∧
    Panel.MarshalJSON RangeOrder.byKey
        (Panel.mk { OfType := RowType, ID := 1, Title := "r", Type_ := "row" } none none none
          none none none
          (some { Panels := some [some (NewGraph "cpu"), some (Panel.mk { OfType := 42 } none
            none none none none none none none none)] }) none none)
      = .err "json: error calling MarshalJSON for type *sdk.Panel: can't marshal unknown panel type" ∧
    ∀ ms, Panel.MarshalJSON RangeOrder.byKey
        (Panel.mk { OfType := RowType, ID := 1, Title := "r", Type_ := "row" } none none none
          none none none
          (some { Panels := some [some (NewGraph "cpu"), some (Panel.mk { OfType := 42 } none
            none none none none none none none none)] }) none none)
      ≠ .ok (.obj ms) :=
  ⟨rfl, rfl, rfl, rfl, fun _ h => Res.noConfusion h⟩

/-- Two custom panels, each with the tag `CustomType` and a populated bag. The bag of
the first holds the key `a"b` (the characters 97, 34, 98):
`customPanelOutput.MarshalJSON` writes the key between quotes as it is, the text is not
valid, and `MarshalJSON` returns an error and no object. The second has the `ID` 5 and
the key `id` in its bag, with the value 7: `MarshalJSON` writes `id` twice, and
`UnmarshalJSON` of that text gives a panel with the `ID` 7. -/
theorem encode_custom_breaks_merge :
    (∃ e, Panel.MarshalJSON RangeOrder.byKey
        (Panel.mk { OfType := CustomType, Type_ := "heatmap" } none none none none none none
          none none
          (some (some [(String.mk [Char.ofNat 97, Char.ofNat 34, Char.ofNat 98],
            .num (.int 1))])))
      = .err e) ∧
    Panel.MarshalJSON RangeOrder.byKey
        (Panel.mk { OfType := CustomType, ID := 5, Type_ := "heatmap" } none none none none none
          none none none (some (some [("id", .num (.int 7))])))
      = .ok (.obj [("gridPos", .obj []), ("id", .num (.int 5)), ("title", .str ""),
          ("type", .str "heatmap"), ("id", .num (.int 7))]) ∧
    Panel.UnmarshalJSON Panel.zero
        (some (.obj [("gridPos", .obj []), ("id", .num (.int 5)), ("title", .str ""),
          ("type", .str "heatmap"), ("id", .num (.int 7))]))
      = (Panel.mk { OfType := CustomType, ID := 7, Type_ := "heatmap" } none none none none none
          none none none
          (some (some [("gridPos", .obj []), ("id", .num (.int 7)), ("title", .str ""),
            ("type", .str "heatmap")])), none) :=
  ⟨⟨_, rfl⟩, rfl, rfl⟩

/-- C23 (amended): for a panel whose tag is graph, table, text, singlestat, dashlist,
pluginlist or alertlist and whose payload of that kind is populated, `MarshalJSON` returns
one object: the members of the common fields followed by the members of the payload, a
flat merge in which the required keys `gridPos`, `id`, `title` and `type` carry the values
of the panel, every field that `omitempty` does not leave out is written once, at the top
level, under its own name and with its value, and every key is the name of a declared
field. For a row panel with a populated payload whose nested panels are encoded to `js`,
it returns the members of the common fields followed by `panels`, when the list is not
empty, and no key twice. For a custom panel with a populated bag that holds each key
once, whose keys are free of quotes, backslashes and control characters and are not
names of common fields, it returns the members of the common fields followed by the
entries of the bag in the order of the map range: the required keys carry the values of
the panel, every common field that `omitempty` does not leave out and every entry of the
bag is a member, every key is the name of a common field or a key of the bag, and no key
is written twice. -/
theorem flat_merge (ord : RangeOrder) (p : Panel) :
    (p.OfType = GraphType → ∀ v, p.GraphPanel = some v → ∃ ms,
      Panel.MarshalJSON ord p = .ok (.obj ms) ∧
      ms = encodeFields CommonPanelFields p.CommonPanel ++ encodeFields GraphPanelFields v ∧
      FlatMerge GraphPanelFields p.CommonPanel v ms) ∧
    (p.OfType = TableType → ∀ v, p.TablePanel = some v → ∃ ms,
      Panel.MarshalJSON ord p = .ok (.obj ms) ∧
      ms = encodeFields CommonPanelFields p.CommonPanel ++ encodeFields TablePanelFields v ∧
      FlatMerge TablePanelFields p.CommonPanel v ms) ∧
    (p.OfType = TextType → ∀ v, p.TextPanel = some v → ∃ ms,
      Panel.MarshalJSON ord p = .ok (.obj ms) ∧
      ms = encodeFields CommonPanelFields p.CommonPanel ++ encodeFields TextPanelFields v ∧
      FlatMerge TextPanelFields p.CommonPanel v ms) ∧
    (p.OfType = SinglestatType → ∀ v, p.SinglestatPanel = some v → ∃ ms,
      Panel.MarshalJSON ord p = .ok (.obj ms) ∧
      ms = encodeFields CommonPanelFields p.CommonPanel
        ++ encodeFields SinglestatPanelFields v ∧
      FlatMerge SinglestatPanelFields p.CommonPanel v ms) ∧
    (p.OfType = DashlistType → ∀ v, p.DashlistPanel = some v → ∃ ms,
      Panel.MarshalJSON ord p = .ok (.obj ms) ∧
      ms = encodeFields CommonPanelFields p.CommonPanel ++ encodeFields DashlistPanelFields v ∧
      FlatMerge DashlistPanelFields p.CommonPanel v ms) ∧
    (p.OfType = PluginlistType → ∀ v, p.PluginlistPanel = some v → ∃ ms,
      Panel.MarshalJSON ord p = .ok (.obj ms) ∧
      ms = encodeFields CommonPanelFields p.CommonPanel
        ++ encodeFields PluginlistPanelFields v ∧
      FlatMerge PluginlistPanelFields p.CommonPanel v ms) ∧
    (p.OfType = AlertlistType → ∀ v, p.AlertlistPanel = some v → ∃ ms,
      Panel.MarshalJSON ord p = .ok (.obj ms) ∧
      ms = encodeFields CommonPanelFields p.CommonPanel
        ++ encodeFields AlertlistPanelFields v ∧
      FlatMerge AlertlistPanelFields p.CommonPanel v ms) ∧
    (p.OfType = RowType → ∀ row, p.RowPanel = some row →
      ∀ js, marshalPanels ord p.nestedPanels = .ok js → ∃ ms,
        Panel.MarshalJSON ord p = .ok (.obj ms) ∧
        ms = encodeFields CommonPanelFields p.CommonPanel
          ++ (if p.nestedPanels.isEmpty = true then [] else [("panels", .arr js)]) ∧
        RequiredKeys p.CommonPanel ms ∧
        (∀ f ∈ CommonPanelFields, (f.omitempty && f.isEmpty p.CommonPanel) = false →
          (f.name, f.enc p.CommonPanel) ∈ ms) ∧
        (ms.map Prod.fst).Nodup) ∧
    (p.OfType = CustomType → ∀ bag, p.CustomPanel = some bag →
      (∀ kv ∈ bag.getD [], rawKeyOK kv.1 = true) →
      (∀ kv ∈ bag.getD [], kv.1 ∉ CommonPanelFields.map (fun f => f.name)) →
      ((bag.getD []).map Prod.fst).Nodup → ∃ ms,
        Panel.MarshalJSON ord p = .ok (.obj ms) ∧
        ms = encodeFields CommonPanelFields p.CommonPanel ++ ord.visit (bag.getD []) ∧
        RequiredKeys p.CommonPanel ms ∧
        (∀ f ∈ CommonPanelFields, (f.omitempty && f.isEmpty p.CommonPanel) = false →
          (f.name, f.enc p.CommonPanel) ∈ ms) ∧
        (∀ kv ∈ bag.getD [], kv ∈ ms) ∧
        (∀ kv ∈ ms, kv.1 ∈ CommonPanelFields.map (fun f => f.name) ∨
          kv.1 ∈ (bag.getD []).map Prod.fst) ∧
        (ms.map Prod.fst).Nodup) := by
  refine ⟨?_, ?_, ?_, ?_, ?_, ?_, ?_, ?_, ?_⟩
  · intro h v hv
    exact ⟨_, marshal_graph ord p v h hv, rfl, flatMerge_concat _ _ _ (by decide)⟩
  · intro h v hv
    exact ⟨_, marshal_table ord p v h hv, rfl, flatMerge_concat _ _ _ (by decide)⟩
  · intro h v hv
    exact ⟨_, marshal_text ord p v h hv, rfl, flatMerge_concat _ _ _ (by decide)⟩
  · intro h v hv
    exact ⟨_, marshal_singlestat ord p v h hv, rfl, flatMerge_concat _ _ _ (by decide)⟩
  · intro h v hv
    exact ⟨_, marshal_dashlist ord p v h hv, rfl, flatMerge_concat _ _ _ (by decide)⟩
  · intro h v hv
    exact ⟨_, marshal_pluginlist ord p v h hv, rfl, flatMerge_concat _ _ _ (by decide)⟩
  · intro h v hv
    exact ⟨_, marshal_alertlist ord p v h hv, rfl, flatMerge_concat _ _ _ (by decide)⟩
  · intro h row hv js hjs
    refine ⟨_, marshal_row ord p row js h hv hjs, rfl, requiredKeys_common _ _, ?_, ?_⟩
    · intro f hf hne
      exact List.mem_append_left _ (encodeFields_mem _ _ f hf hne)
    · by_cases hemp : p.nestedPanels.isEmpty = true
      · rw [if_pos hemp, List.append_nil]
        exact common_keys_nodup _
      · rw [if_neg hemp, List.map_append]
        refine List.Nodup.append (common_keys_nodup _) (List.nodup_singleton _) ?_
        intro k hk hk2
        obtain ⟨kv, hkv, rfl⟩ := List.mem_map.mp hk
        obtain ⟨f, hf, hname⟩ := encodeFields_key _ _ _ hkv
        have hp := commonFields_not_panels f hf
        have hk3 : kv.1 = "panels" := List.mem_singleton.mp hk2
        rw [← hname, hk3] at hp
        simp at hp
  · intro h bag hv hkeys hcommon hnodup
    refine ⟨_, marshal_custom_ok ord p bag h hv hkeys, rfl, requiredKeys_common _ _, ?_, ?_,
      ?_, ?_⟩
    · intro f hf hne
      exact List.mem_append_left _ (encodeFields_mem _ _ f hf hne)
    · intro kv hkv
      exact List.mem_append_right _ ((ord.perm _).mem_iff.mpr hkv)
    · intro kv hkv
      rcases List.mem_append.mp hkv with h1 | h1
      · exact Or.inl (encodeFields_common_mem _ kv h1)
      · exact Or.inr (List.mem_map_of_mem _ ((ord.perm _).mem_iff.mp h1))
    · rw [List.map_append]
      refine List.Nodup.append (common_keys_nodup _)
        (((ord.perm _).map Prod.fst).nodup_iff.mpr hnodup) ?_
      intro k hk hk2
      obtain ⟨kv, hkv, rfl⟩ := List.mem_map.mp hk
      obtain ⟨kv2, hkv2, hkeq⟩ := List.mem_map.mp hk2
      have := hcommon kv2 ((ord.perm _).mem_iff.mp hkv2)
      rw [hkeq] at this
      exact this (encodeFields_common_mem _ kv hkv)

theorem flat_merge_witness :
    (∃ ms, Panel.MarshalJSON RangeOrder.byKey (NewGraph "cpu") = .ok (.obj ms) ∧
      ms = encodeFields CommonPanelFields (NewGraph "cpu").CommonPanel
        ++ encodeFields GraphPanelFields
          { NullPointMode := "connected", Pointradius := .int 5, XAxis := true,
            YAxis := true } ∧
      FlatMerge GraphPanelFields (NewGraph "cpu").CommonPanel
        { NullPointMode := "connected", Pointradius := .int 5, XAxis := true, YAxis := true }
        ms) ∧
    Panel.MarshalJSON RangeOrder.byKey
        (Panel.mk { OfType := CustomType, ID := 5, Type_ := "heatmap" } none none none none none
          none none none (some (some [("color", .str "red")])))
      = .ok (.obj [("gridPos", .obj []), ("id", .num (.int 5)), ("title", .str ""),
          ("type", .str "heatmap"), ("color", .str "red")]) :=
  ⟨(flat_merge RangeOrder.byKey (NewGraph "cpu")).1 rfl _ rfl,
    by
      obtain ⟨ms, h1, h2, -⟩ := (flat_merge RangeOrder.byKey
        (Panel.mk { OfType := CustomType, ID := 5, Type_ := "heatmap" } none none none none none
          none none none (some (some [("color", .str "red")])))).2.2.2.2.2.2.2.2 rfl _ rfl
        (by decide) (by decide) (by decide)
      rw [h1, h2]
      rfl⟩

/-! ## Rows: the nested panels of a row -/

/-- C20 (amended): for every row panel with the tag `RowType` and the `Type` `"row"` whose
nested list is a graph panel followed by a table panel, each with its payload populated
and its `Type` `"graph"` or `"table"`, `MarshalJSON` returns a text: the members of the
common fields, then `panels` with the texts of the two nested panels. `UnmarshalJSON` of
that text returns no error exactly when it returns none for the common fields and for the
text of each nested panel on its own; the nested list that comes back then has the same
length and order, and each element is the panel that `UnmarshalJSON` gives for the text
of that nested panel on its own: the first has the tag `GraphType` and a graph payload,
the second the tag `TableType` and a table payload, and either is the nested panel that
was encoded whenever that panel survives encoding and decoding on its own. -/
theorem row_recursion (ord : RangeOrder) (c : CommonPanel) (g t : Panel) (gp : GraphPanel)
    (tp : TablePanel)
    (hc1 : c.OfType = RowType) (hc2 : c.Type_ = "row")
    (hg1 : g.OfType = GraphType) (hg2 : g.CommonPanel.Type_ = "graph")
    (hg3 : g.GraphPanel = some gp)
    (ht1 : t.OfType = TableType) (ht2 : t.CommonPanel.Type_ = "table")
    (ht3 : t.TablePanel = some tp) :
    ∃ jg jt,
      Panel.MarshalJSON ord g = .ok jg ∧ Panel.MarshalJSON ord t = .ok jt ∧
      Panel.MarshalJSON ord (Panel.mk c none none none none none none
          (some { Panels := some [some g, some t] }) none none)
        = .ok (.obj (encodeFields CommonPanelFields c ++ [("panels", .arr [jg, jt])])) ∧
      (∀ (g' t' : Panel) (probe : CommonPanel),
        Panel.UnmarshalJSON Panel.zero (some jg) = (g', none) →
        Panel.UnmarshalJSON Panel.zero (some jt) = (t', none) →
        decodeStruct CommonPanelFields (.obj (encodeFields CommonPanelFields c)) {}
          = .ok probe →
        Panel.UnmarshalJSON Panel.zero
            (some (.obj (encodeFields CommonPanelFields c ++ [("panels", .arr [jg, jt])])))
          = (Panel.mk { probe with OfType := RowType } none none none none none none
              (some { Panels := some [some g', some t'] }) none none, none) ∧
        g'.OfType = GraphType ∧ g'.has GraphType = true ∧
        t'.OfType = TableType ∧ t'.has TableType = true ∧
        (RoundTrips ord g → g' = g) ∧ (RoundTrips ord t → t' = t)) ∧
      ((Panel.UnmarshalJSON Panel.zero
          (some (.obj (encodeFields CommonPanelFields c
            ++ [("panels", .arr [jg, jt])])))).2 = none →
        ∃ (g' t' : Panel) (probe : CommonPanel),
          Panel.UnmarshalJSON Panel.zero (some jg) = (g', none) ∧
          Panel.UnmarshalJSON Panel.zero (some jt) = (t', none) ∧
          decodeStruct CommonPanelFields (.obj (encodeFields CommonPanelFields c)) {}
            = .ok probe) := by
  have mg := marshal_graph ord g gp hg1 hg3
  have mt := marshal_table ord t tp ht1 ht3
  have hrow : Panel.MarshalJSON ord (Panel.mk c none none none none none none
        (some { Panels := some [some g, some t] }) none none)
      = .ok (.obj (encodeFields CommonPanelFields c ++ [("panels", .arr
          [.obj (encodeFields CommonPanelFields g.CommonPanel ++ encodeFields GraphPanelFields gp),
           .obj (encodeFields CommonPanelFields t.CommonPanel
             ++ encodeFields TablePanelFields tp)])])) := by
    rw [MarshalJSON_eq_body]
    have hn : (Panel.mk c none none none none none none
        (some { Panels := some [some g, some t] }) none none).nestedPanels
        = [some g, some t] := rfl
    rw [hn, marshalPanels_some, mg, marshalPanels_some, mt]
    unfold marshalBody
    dsimp only
    rw [hc1]
    rfl
  have hdoc : ∀ r : Panel × Option String,
      Panel.UnmarshalJSON Panel.zero
          (some (.obj (encodeFields CommonPanelFields c ++ [("panels", .arr
            [.obj (encodeFields CommonPanelFields g.CommonPanel
              ++ encodeFields GraphPanelFields gp),
             .obj (encodeFields CommonPanelFields t.CommonPanel
               ++ encodeFields TablePanelFields tp)])]))) = r →
      unmarshalBody
          (.obj (encodeFields CommonPanelFields c ++ [("panels", .arr
            [.obj (encodeFields CommonPanelFields g.CommonPanel
              ++ encodeFields GraphPanelFields gp),
             .obj (encodeFields CommonPanelFields t.CommonPanel
               ++ encodeFields TablePanelFields tp)])]))
          Panel.zero
          (match Panel.UnmarshalJSON Panel.zero
              (some (.obj (encodeFields CommonPanelFields g.CommonPanel
                ++ encodeFields GraphPanelFields gp))) with
            | (_, some e) => .error e
            | (g', none) =>
              match Panel.UnmarshalJSON Panel.zero
                  (some (.obj (encodeFields CommonPanelFields t.CommonPanel
                    ++ encodeFields TablePanelFields tp))) with
              | (_, some e) => .error e
              | (t', none) => .ok { Panels := some [some g', some t'] }) = r := by
    intro r hr
    rw [← hr]
    show _ = unmarshalValue _ Panel.zero
    rw [unmarshalValue_eq_body]
    show _ = unmarshalBody _ Panel.zero (decodeRowMembers _ {})
    rw [row_of_row_doc]
    rfl
  refine ⟨_, _, mg, mt, hrow, ?_, ?_⟩
  · intro g' t' probe hg' ht' hprobe
    have hp : decodeStruct CommonPanelFields
        (.obj (encodeFields CommonPanelFields c ++ [("panels", .arr
          [.obj (encodeFields CommonPanelFields g.CommonPanel
            ++ encodeFields GraphPanelFields gp),
           .obj (encodeFields CommonPanelFields t.CommonPanel
             ++ encodeFields TablePanelFields tp)])])) {} = .ok probe := by
      rw [probe_of_row_doc, hprobe]
    have hty : probe.Type_ = "row" := by
      rw [probe_type_eq_docType _ probe hprobe]
      have := docType_encoded c [] (fun kv hkv => by cases hkv)
      rw [List.append_nil] at this
      rw [this, hc2]
    refine ⟨?_, ?_, ?_, ?_, ?_, ?_, ?_⟩
    · have := hdoc _ rfl
      rw [← this, hg', ht']
      dsimp only
      rw [unmarshalBody_row _ probe _ hty hp]
    · rw [unmarshal_ok_docType _ g' hg',
        docType_encoded _ _ (payload_keys_not_type GraphPanelFields gp (by rfl)), hg2]
      rfl
    · rw [unmarshal_ok_has _ _ g' hg' GraphType, unmarshal_ok_docType _ g' hg',
        docType_encoded _ _ (payload_keys_not_type GraphPanelFields gp (by rfl)), hg2]
      rfl
    · rw [unmarshal_ok_docType _ t' ht',
        docType_encoded _ _ (payload_keys_not_type TablePanelFields tp (by rfl)), ht2]
      rfl
    · rw [unmarshal_ok_has _ _ t' ht' TableType, unmarshal_ok_docType _ t' ht',
        docType_encoded _ _ (payload_keys_not_type TablePanelFields tp (by rfl)), ht2]
      rfl
    · intro hr
      obtain ⟨j, hj1, hj2⟩ := (roundTrips_iff ord g).mp hr
      rw [mg] at hj1
      cases hj1
      rw [hg'] at hj2
      exact congrArg Prod.fst hj2
    · intro hr
      obtain ⟨j, hj1, hj2⟩ := (roundTrips_iff ord t).mp hr
      rw [mt] at hj1
      cases hj1
      rw [ht'] at hj2
      exact congrArg Prod.fst hj2
  · intro hnone
    have hb := hdoc _ rfl
    rw [← hb] at hnone
    cases hprobe : decodeStruct CommonPanelFields (.obj (encodeFields CommonPanelFields c)) {} with
    | error e =>
      have hp : decodeStruct CommonPanelFields
          (.obj (encodeFields CommonPanelFields c ++ [("panels", .arr
            [.obj (encodeFields CommonPanelFields g.CommonPanel
              ++ encodeFields GraphPanelFields gp),
             .obj (encodeFields CommonPanelFields t.CommonPanel
               ++ encodeFields TablePanelFields tp)])])) {} = .error e := by
        rw [probe_of_row_doc, hprobe]
      rw [unmarshalBody_probe_error _ _ _ e hp] at hnone
      cases hnone
    | ok probe =>
      have hp : decodeStruct CommonPanelFields
          (.obj (encodeFields CommonPanelFields c ++ [("panels", .arr
            [.obj (encodeFields CommonPanelFields g.CommonPanel
              ++ encodeFields GraphPanelFields gp),
             .obj (encodeFields CommonPanelFields t.CommonPanel
               ++ encodeFields TablePanelFields tp)])])) {} = .ok probe := by
        rw [probe_of_row_doc, hprobe]
      have hty : probe.Type_ = "row" := by
        rw [probe_type_eq_docType _ probe hprobe]
        have := docType_encoded c [] (fun kv hkv => by cases hkv)
        rw [List.append_nil] at this
        rw [this, hc2]
      rw [unmarshalBody_row _ probe _ hty hp] at hnone
      cases hg' : Panel.UnmarshalJSON Panel.zero
        (some (.obj (encodeFields CommonPanelFields g.CommonPanel
          ++ encodeFields GraphPanelFields gp))) with
      | mk g' eg =>
        rw [hg'] at hnone
        cases eg with
        | some e => cases hnone
        | none =>
          dsimp only at hnone
          cases ht' : Panel.UnmarshalJSON Panel.zero
            (some (.obj (encodeFields CommonPanelFields t.CommonPanel
              ++ encodeFields TablePanelFields tp))) with
          | mk t' et =>
            rw [ht'] at hnone
            cases et with
            | some e => cases hnone
            | none => exact ⟨g', t', probe, rfl, rfl, rfl⟩

theorem row_recursion_witness :
    ∃ jg jt,
      Panel.MarshalJSON RangeOrder.byKey (NewGraph "cpu") = .ok jg ∧
      Panel.MarshalJSON RangeOrder.byKey (NewTable "hosts") = .ok jt ∧
      Panel.MarshalJSON RangeOrder.byKey
          (Panel.mk { OfType := RowType, Type_ := "row", Title := "overview" } none none none
            none none none
            (some { Panels := some [some (NewGraph "cpu"), some (NewTable "hosts")] })
            none none)
        = .ok (.obj (encodeFields CommonPanelFields
            { OfType := RowType, Type_ := "row", Title := "overview" }
            ++ [("panels", .arr [jg, jt])])) ∧
      Panel.UnmarshalJSON Panel.zero
          (some (.obj (encodeFields CommonPanelFields
            { OfType := RowType, Type_ := "row", Title := "overview" }
            ++ [("panels", .arr [jg, jt])])))
        = (Panel.mk { OfType := RowType, Type_ := "row", Title := "overview" } none none none
            none none none
            (some { Panels := some [some (NewGraph "cpu"), some (NewTable "hosts")] })
            none none, none) := by
  obtain ⟨jg, jt, h1, h2, h3, h4, -⟩ := row_recursion RangeOrder.byKey
    { OfType := RowType, Type_ := "row", Title := "overview" } (NewGraph "cpu")
    (NewTable "hosts") _ _ rfl rfl rfl rfl rfl rfl rfl rfl
  have e1 : jg = graphDoc "cpu" :=
    Res.ok.inj (h1.symm.trans (marshal_constructors RangeOrder.byKey "cpu").1)
  have e2 : jt = tableDoc "hosts" :=
    Res.ok.inj (h2.symm.trans (marshal_constructors RangeOrder.byKey "hosts").2.1)
  subst e1
  subst e2
  exact ⟨_, _, h1, h2, h3,
    (h4 (NewGraph "cpu") (NewTable "hosts")
      { Type_ := "row", Title := "overview" }
      (unmarshal_constructor_docs "cpu").1 (unmarshal_constructor_docs "hosts").2.1 rfl).1⟩

end Sdk
